import Mathlib

/-!
# Verification of the Bitcoin cryptography library core

This development is a shallow embedding of the C++ sources
(`Uint256.cpp`, `FieldInt.cpp`, `CurvePoint.cpp`, `Ecdsa.cpp`,
`Base58Check.cpp`, `ExtendedPrivateKey.cpp`, `Sha256.cpp`, `Sha512.cpp`,
`Ripemd160.cpp`) into Lean, together with proofs and refutations of the
specification claims about them.

A `Uint256` (eight little-endian 32-bit words) is embedded as the natural
number it represents, an element of `[0, 2^256)`; the word-by-word
carry/borrow loops of the source compute exactly the corresponding
operations on that value modulo `2^256`, which is how each operation is
rendered here.  The constant-time mask idiom `other.value[i] & (-enable)`
of the source equals `other` when `enable = 1` and `0` when `enable = 0`
(the only values permitted by the source's assertions), and is rendered
as `if enable then other else 0`.  Byte arrays are embedded as lists of
naturals below 256, and C strings as lists of characters.
-/

namespace BCLib

/-- `2^256`: the modulus of all fixed-width `Uint256` arithmetic. -/
def W : Nat := 2 ^ 256

namespace Uint256

/-- Embeds `Uint256::add(other, enable)` from `Uint256.cpp`: adds `other`
into `self` modulo `2^256` when enabled; returns the new value and the
carry-out bit (`0` or `1`). -/
def add (x other : Nat) (enable : Bool) : Nat × Nat :=
  let o := if enable then other else 0
  ((x + o) % W, (x + o) / W)

/-- Embeds `Uint256::subtract(other, enable)` from `Uint256.cpp`:
subtracts `other` from `self` modulo `2^256` when enabled; returns the
new value and the borrow-out bit. -/
def subtract (x other : Nat) (enable : Bool) : Nat × Nat :=
  let o := if enable then other else 0
  ((x + W - o) % W, if x < o then 1 else 0)

/-- Embeds `Uint256::shiftLeft1()` from `Uint256.cpp`: shifts left by one
bit modulo `2^256`; returns the new value and the old leftmost bit. -/
def shiftLeft1 (x : Nat) : Nat × Nat :=
  (2 * x % W, 2 * x / W)

/-- Embeds `Uint256::shiftRight1(enable)` from `Uint256.cpp`: floor
division by two when enabled. -/
def shiftRight1 (x : Nat) (enable : Bool) : Nat :=
  if enable then x / 2 else x

/-- Embeds `Uint256::replace(other, enable)` from `Uint256.cpp`. -/
def replace (x other : Nat) (enable : Bool) : Nat :=
  if enable then other else x

/-- Embeds `Uint256::swap(other, enable)` from `Uint256.cpp`. -/
def swap (x y : Nat) (enable : Bool) : Nat × Nat :=
  if enable then (y, x) else (x, y)

/-- The loop state of `Uint256::reciprocal`: the local variables
`x`, `y`, `a`, `b` of `Uint256.cpp`. -/
structure RecipState where
  x : Nat
  y : Nat
  a : Nat
  b : Nat

/-- One iteration of the extended binary GCD loop of
`Uint256::reciprocal` in `Uint256.cpp` (lines 154-188), with modulus `m`
and precomputed `halfM` (the local `halfModulus`). -/
def recipStep (m halfM : Nat) (s : RecipState) : RecipState :=
  let yEven : Bool := decide (s.y % 2 = 0)
  let bOdd : Bool := decide (s.b % 2 = 1)
  let y1 := shiftRight1 s.y yEven
  let b1 := shiftRight1 s.b yEven
  let b2 := (add b1 halfM (yEven && bOdd)).1
  let enable : Bool := decide (y1 % 2 = 1)
  let doswap : Bool := enable && decide (y1 < s.x)
  let xy := swap s.x y1 doswap
  let y2 := (subtract xy.2 xy.1 enable).1
  let ab := swap s.a b2 doswap
  let bb := subtract ab.2 ab.1 enable
  let b3 := (add bb.1 m (bb.2 = 1)).1
  ⟨xy.1, y2, ab.1, b3⟩

/-- Iterates a function `n` times (the fixed-count loops of the source). -/
def iterate {α : Type} (f : α → α) : Nat → α → α
  | 0, s => s
  | k + 1, s => iterate f k (f s)

/-- Embeds `Uint256::reciprocal(modulus)` from `Uint256.cpp`:
extended binary GCD with a fixed 512 iterations.  The local
`halfModulus` is `((modulus + 1) mod 2^256) / 2` because the source
computes it with `add(ONE)` (modulo `2^256`, carry discarded) followed
by `shiftRight1()`. -/
def reciprocal (x m : Nat) : Nat :=
  let halfM := (m + 1) % W / 2
  let s := iterate (recipStep m halfM) 512 ⟨m, x, 0, 1⟩
  replace x s.a (decide (x ≠ 0))

end Uint256

namespace FieldInt

/-- The field prime `p = 2^256 - 2^32 - 977` (`FieldInt::MODULUS`). -/
def MODULUS : Nat :=
  0xFFFFFFFFFFFFFFFFFFFFFFFFFFFFFFFFFFFFFFFFFFFFFFFFFFFFFFFEFFFFFC2F

/-- Embeds the converting constructor `FieldInt::FieldInt(const Uint256 &)`
from `FieldInt.cpp` lines 30-34: one conditional subtraction of the
modulus. -/
def ofUint256 (v : Nat) : Nat :=
  (Uint256.subtract v MODULUS (decide (MODULUS ≤ v))).1

/-- Embeds `FieldInt::add` from `FieldInt.cpp`: raw addition with carry,
then one conditional subtraction of the modulus on carry-out or on the
sum being `≥ MODULUS`. -/
def add (x y : Nat) : Nat :=
  let s := Uint256.add x y true
  (Uint256.subtract s.1 MODULUS (decide (s.2 = 1 ∨ MODULUS ≤ s.1))).1

/-- Embeds `FieldInt::subtract` from `FieldInt.cpp`: raw subtraction with
borrow, then one conditional addition of the modulus on borrow-out. -/
def subtract (x y : Nat) : Nat :=
  let d := Uint256.subtract x y true
  (Uint256.add d.1 MODULUS (decide (d.2 = 1))).1

/-- Embeds `FieldInt::multiply2` from `FieldInt.cpp`. -/
def multiply2 (x : Nat) : Nat :=
  let s := Uint256.shiftLeft1 x
  (Uint256.subtract s.1 MODULUS (decide (s.2 = 1 ∨ MODULUS ≤ s.1))).1

/-- The 257-bit intermediate `difference` of `FieldInt::multiply`
(`FieldInt.cpp` lines 96-194, non-assembly path).  The word loops of the
source compute, exactly:
`product0 = x*y` (16-word long multiplication);
`product1 = product0 * (2^256 + 2^32 + 0x3D1)` (the fused loop adds
`product0[i]*0x3D1`, `product0[i-1]` — a `2^32` shift — and
`product0[i-8]` — a `2^256` shift — with carry propagation; the final
carry is zero because the product fits in 768 bits);
`product1Shifted = product1 / 2^512` (the top eight words);
`product2 = product1Shifted * MODULUS` (the borrow loop computes
`q*2^256 - q*2^32 - q*0x3D1` exactly, nonnegative and below `2^512`);
`difference = product0 - product2` over NUM_WORDS+1 = 9 words, i.e.
modulo `2^288`, with any further borrow discarded. -/
def multiplyDifference (x y : Nat) : Nat :=
  let product0 := x * y
  let product1 := product0 * (2 ^ 256 + 2 ^ 32 + 0x3D1)
  let product1Shifted := product1 / 2 ^ 512
  let product2 := product1Shifted * MODULUS
  (product0 % 2 ^ 288 + 2 ^ 288 - product2 % 2 ^ 288) % 2 ^ 288

/-- Embeds `FieldInt::multiply` from `FieldInt.cpp`: the Barrett
difference truncated to 256 bits, then one conditional subtraction of
the modulus when the 257th word is nonzero or the truncation is
`≥ MODULUS`. -/
def multiply (x y : Nat) : Nat :=
  let difference := multiplyDifference x y
  let v := difference % W
  (Uint256.subtract v MODULUS
    (decide (difference / W ≠ 0 ∨ MODULUS ≤ v))).1

/-- Embeds `FieldInt::square` from `FieldInt.cpp`: `multiply(*this)`. -/
def square (x : Nat) : Nat := multiply x x

/-- Embeds `FieldInt::reciprocal` from `FieldInt.cpp`: delegates to
`Uint256::reciprocal` with the field modulus. -/
def reciprocal (x : Nat) : Nat := Uint256.reciprocal x MODULUS

/-- Embeds `FieldInt::replace` from `FieldInt.cpp`. -/
def replace (x other : Nat) (enable : Bool) : Nat :=
  Uint256.replace x other enable

end FieldInt

/-- A secp256k1 curve point in projective coordinates: the three
`FieldInt` fields `x`, `y`, `z` of `CurvePoint.hpp`, each embedded as
its natural-number value. -/
structure CurvePoint where
  x : Nat
  y : Nat
  z : Nat

namespace CurvePoint

/-- `CurvePoint::FI_ZERO`. -/
def FI_ZERO : Nat := 0

/-- `CurvePoint::FI_ONE`. -/
def FI_ONE : Nat := 1

/-- Curve coefficient `CurvePoint::A = 0`. -/
def A : Nat := 0

/-- Curve coefficient `CurvePoint::B = 7`. -/
def B : Nat := 7

/-- The curve order `CurvePoint::ORDER`. -/
def ORDER : Nat :=
  0xFFFFFFFFFFFFFFFFFFFFFFFFFFFFFFFEBAAEDCE6AF48A03BBFD25E8CD0364141

/-- The point at infinity `CurvePoint::ZERO = (0, 1, 0)`
(default constructor of `CurvePoint.cpp`). -/
def ZERO : CurvePoint := ⟨0, 1, 0⟩

/-- The base point `CurvePoint::G`. -/
def G : CurvePoint :=
  ⟨0x79BE667EF9DCBBAC55A06295CE870B07029BFCDB2DCE28D959F2815B16F81798,
   0x483ADA7726A3C4655DA4FBFC0E1108A8FD17B448A68554199C47D08FFB10D4B8,
   1⟩

/-- Embeds `CurvePoint::isZero` from `CurvePoint.cpp`:
`(x == 0) & (y != 0) & (z == 0)`. -/
def isZero (P : CurvePoint) : Bool :=
  (P.x == 0) && !(P.y == 0) && (P.z == 0)

/-- Embeds `CurvePoint::replace(other, enable)` from `CurvePoint.cpp`:
field-wise conditional copy. -/
def replace (P Q : CurvePoint) (enable : Bool) : CurvePoint :=
  if enable then Q else P

/-- Embeds `CurvePoint::twice()` from `CurvePoint.cpp`, following the
source's in-place operations in order (`u`, `v`, `t`, `w` with the
memory reuses noted there). -/
def twice (P : CurvePoint) : CurvePoint :=
  let zeroResult := isZero P || (P.y == FI_ZERO)
  let u := FieldInt.multiply2 (FieldInt.multiply P.y P.z)
  let v := FieldInt.multiply2 (FieldInt.multiply (FieldInt.multiply u P.x) P.y)
  let x1 := FieldInt.square P.x
  let t := FieldInt.add (FieldInt.multiply2 x1) x1
  let w1 := FieldInt.square t
  let w := FieldInt.subtract w1 (FieldInt.multiply2 v)
  let x3 := FieldInt.multiply (FieldInt.subtract v w) t
  let y2 := FieldInt.multiply P.y u
  let y4 := FieldInt.multiply2 (FieldInt.square y2)
  let yNew := FieldInt.subtract x3 y4
  let xNew := FieldInt.multiply u w
  let zNew := FieldInt.multiply (FieldInt.square u) u
  replace ⟨xNew, yNew, zNew⟩ ZERO zeroResult

/-- Embeds `CurvePoint::add(other)` from `CurvePoint.cpp` for distinct
operand objects, following the source's sequence of field operations
(`temp`, `u0`, `u1`, `t0`, `t1`, `t`, `u`, `u2`, `v`, `w`, `u3`). -/
def add (P Q : CurvePoint) : CurvePoint :=
  let thisZero := isZero P
  let otherZero := isZero Q
  let temp0 := twice P
  let temp1 := replace temp0 P otherZero
  let temp2 := replace temp1 Q thisZero
  let u0 := FieldInt.multiply P.x Q.z
  let u1 := FieldInt.multiply Q.x P.z
  let t0 := FieldInt.multiply P.y Q.z
  let t1 := FieldInt.multiply Q.y P.z
  let sameX := u0 == u1
  let sameY := t0 == t1
  let temp3 := replace temp2 ZERO (!thisZero && !otherZero && sameX && !sameY)
  let t := FieldInt.subtract t0 t1
  let u := FieldInt.subtract u0 u1
  let u2 := FieldInt.square u
  let v := FieldInt.multiply P.z Q.z
  let w0 := FieldInt.multiply (FieldInt.square t) v
  let u1b := FieldInt.multiply (FieldInt.add u1 u0) u2
  let w := FieldInt.subtract w0 u1b
  let xNew := FieldInt.multiply u w
  let u3 := FieldInt.multiply u u2
  let u0b := FieldInt.subtract (FieldInt.multiply u0 u2) w
  let yNew := FieldInt.subtract (FieldInt.multiply t u0b) (FieldInt.multiply t0 u3)
  let zNew := FieldInt.multiply v u3
  replace ⟨xNew, yNew, zNew⟩ temp3 (thisZero || otherZero || sameX)

/-- Entries `3 .. 15` of the precomputed table of `CurvePoint::multiply`
(`table[i] = table[i-1] + P`). -/
def tableTail (P prev : CurvePoint) : Nat → List CurvePoint
  | 0 => []
  | k + 1 =>
    let nxt := add prev P
    nxt :: tableTail P nxt k

/-- The 16-entry table `[0*P, 1*P, ..., 15*P]` built by
`CurvePoint::multiply` in `CurvePoint.cpp` (lines 188-202). -/
def table (P : CurvePoint) : List CurvePoint :=
  let t2 := twice P
  ZERO :: P :: t2 :: tableTail P t2 13

/-- The constant-time linear-scan selection of `table[inc]`
(`q.replace(table[j], j == inc)` for `j = 0 .. 15`). -/
def select : List CurvePoint → Nat → Nat → CurvePoint → CurvePoint
  | [], _, _, q => q
  | t :: ts, j, inc, q => select ts (j + 1) inc (replace q t (j == inc))

/-- One iteration of the windowed loop of `CurvePoint::multiply`
(`CurvePoint.cpp` lines 207-225).  The state is `(fuel, accumulator)`
where `fuel` is the number of windows still to process; the window at
bit offset `i = 4*(fuel-1)` is processed: the table entry for the
4-bit window of `n` at `i` is selected by constant-time scan and added,
then the accumulator is doubled four times unless `i = 0`. -/
def windowStep (tbl : List CurvePoint) (n : Nat) (s : Nat × CurvePoint) :
    Nat × CurvePoint :=
  let k := s.1 - 1
  let i := 4 * k
  let inc := n / 2 ^ i % 16
  let q := select tbl 0 inc ZERO
  let acc1 := add s.2 q
  (k, if i = 0 then acc1 else twice (twice (twice (twice acc1))))

/-- Embeds `CurvePoint::multiply(n)` from `CurvePoint.cpp`: fixed 4-bit
windowed scalar multiplication over the 64 windows
`i = 252, 248, ..., 0`. -/
def multiply (P : CurvePoint) (n : Nat) : CurvePoint :=
  (Uint256.iterate (windowStep (table P) n) 64 (64, ZERO)).2

/-- Embeds `CurvePoint::normalize()` from `CurvePoint.cpp`. -/
def normalize (P : CurvePoint) : CurvePoint :=
  let nz := FieldInt.reciprocal P.z
  let norm : CurvePoint := ⟨FieldInt.multiply P.x nz, FieldInt.multiply P.y nz, FI_ONE⟩
  let x1 := FieldInt.replace P.x FI_ONE (!(P.x == FI_ZERO))
  let y1 := FieldInt.replace P.y FI_ONE (!(P.y == FI_ZERO))
  replace ⟨x1, y1, P.z⟩ norm (!(P.z == FI_ZERO))

/-- Embeds `CurvePoint::isOnCurve()` from `CurvePoint.cpp`:
`y^2 == (x^2 + A)*x + B` and not the identity. -/
def isOnCurve (P : CurvePoint) : Bool :=
  let left := FieldInt.square P.y
  let right := FieldInt.add (FieldInt.multiply (FieldInt.add (FieldInt.square P.x) A) P.x) B
  (left == right) && !isZero P

/-- Embeds `CurvePoint::privateExponentToPublicPoint` from
`CurvePoint.cpp` lines 307-313: `normalize(G * privExp)`. -/
def privateExponentToPublicPoint (privExp : Nat) : CurvePoint :=
  normalize (multiply G privExp)

end CurvePoint

namespace Ecdsa

/-- One iteration of the Russian-peasant loop of
`Ecdsa::multiplyModOrder` (`Ecdsa.cpp` lines 155-166), processing bit
`i` of `y`: double `z` modulo the order, then conditionally add `x`
modulo the order.  Each "modulo" is the source's single conditional
subtraction triggered by carry-out or by the value reaching the order. -/
def mmoStep (x y i z : Nat) : Nat :=
  let ord := CurvePoint.ORDER
  let s1 := Uint256.shiftLeft1 z
  let z1 := (Uint256.subtract s1.1 ord (decide (s1.2 = 1 ∨ ord ≤ s1.1))).1
  let enable : Bool := decide (y / 2 ^ i % 2 = 1)
  let s2 := Uint256.add z1 x enable
  (Uint256.subtract s2.1 ord (decide (s2.2 = 1 ∨ ord ≤ s2.1))).1

/-- One state transition of the loop of `Ecdsa::multiplyModOrder`:
the state is `(fuel, z)` where `fuel - 1` is the loop index `i` of the
bit being processed (the source runs `i = 255` down to `0`). -/
def mmoLoop (x y : Nat) (s : Nat × Nat) : Nat × Nat :=
  (s.1 - 1, mmoStep x y (s.1 - 1) s.2)

/-- Embeds `Ecdsa::multiplyModOrder(x, y)` from `Ecdsa.cpp` lines
138-169: Russian-peasant multiplication modulo the curve order over the
256 bits of `y`, returning the new value of `x`. -/
def multiplyModOrder (x y : Nat) : Nat :=
  (Uint256.iterate (mmoLoop x y) 256 (256, 0)).2

/-- The value `r` computed by `Ecdsa::sign` (`Ecdsa.cpp` lines 40-42):
the x-coordinate of `nonce * G` after one conditional subtraction of
the order. -/
def signR (nonce : Nat) : Nat :=
  let p := CurvePoint.privateExponentToPublicPoint nonce
  (Uint256.subtract p.x CurvePoint.ORDER (decide (CurvePoint.ORDER ≤ p.x))).1

/-- The intermediate value of `s` in `Ecdsa::sign` (`Ecdsa.cpp` lines
50-54) that is passed to `multiplyModOrder(s, kInv)`:
`r * privateKey` modulo the order, plus the message hash `z`, with one
conditional subtraction of the order (on carry-out or on reaching the
order). -/
def signInter (privateKey z nonce : Nat) : Nat :=
  let s1 := multiplyModOrder (signR nonce) privateKey
  let a := Uint256.add s1 z true
  (Uint256.subtract a.1 CurvePoint.ORDER
    (decide (a.2 = 1 ∨ CurvePoint.ORDER ≤ a.1))).1

/-- Embeds `Ecdsa::sign` from `Ecdsa.cpp` lines 21-73.  The message hash
is its big-endian value `z` (`Uint256(msgHash.value)`).  Returns
`some (r, s)` where the source returns `true` and writes `outR`/`outS`,
and `none` where it returns `false`. -/
def sign (privateKey z nonce : Nat) : Option (Nat × Nat) :=
  let ord := CurvePoint.ORDER
  if nonce = 0 ∨ ord ≤ nonce then none else
  let r := signR nonce
  if r = 0 then none else
  let kInv := Uint256.reciprocal nonce ord
  let s2 := multiplyModOrder (signInter privateKey z nonce) kInv
  if s2 = 0 then none else
  let negS := (Uint256.subtract ord s2 true).1
  let s3 := Uint256.replace s2 negS (decide (negS < s2))
  some (r, s3)

/-- Embeds `Ecdsa::verify` from `Ecdsa.cpp` lines 85-135, on the
big-endian value `z` of the message hash. -/
def verify (publicKey : CurvePoint) (z r s : Nat) : Bool :=
  let ord := CurvePoint.ORDER
  let q0 := CurvePoint.multiply publicKey ord
  if ¬(0 < r ∧ r < ord ∧ 0 < s ∧ s < ord) then false else
  if CurvePoint.isZero publicKey || !(publicKey.z == CurvePoint.FI_ONE) ||
     !CurvePoint.isOnCurve publicKey || !CurvePoint.isZero q0 then false else
  let w := Uint256.reciprocal s ord
  let u1 := multiplyModOrder w z
  let u2 := multiplyModOrder w r
  let p1 := CurvePoint.multiply CurvePoint.G u1
  let q1 := CurvePoint.multiply publicKey u2
  let p2 := CurvePoint.normalize (CurvePoint.add p1 q1)
  let px := (Uint256.subtract p2.x ord (decide (ord ≤ p2.x))).1
  r == px

end Ecdsa

/-- Verification-side invariant for the extended binary GCD loop of
`Uint256::reciprocal` (not part of the embedded source; used only by the
proofs below).  `m` is the modulus and `x0` the original value of
`self`; the state fields are the loop locals `x`, `y`, `a`, `b`. -/
def Uint256.RecipInv (m x0 : Nat) (s : Uint256.RecipState) : Prop :=
  s.x % 2 = 1 ∧ s.x ≤ m ∧ s.y < m ∧ s.a < m ∧ s.b < m ∧
  Int.ModEq m s.x (s.a * x0) ∧ Int.ModEq m s.y (s.b * x0) ∧
  Nat.gcd s.x s.y = Nat.gcd m x0

/-- Verification-side normal form of one `Uint256::reciprocal` iteration
after the halving phase (not part of the embedded source; used only by
the proofs below).  `X`, `Y1`, `A`, `B2` are the loop locals after the
even-`y` halving, expressed without wrap-around. -/
def Uint256.recipAux (m X Y1 A B2 : Nat) : Uint256.RecipState :=
  if Y1 % 2 = 1 then
    if Y1 < X then ⟨Y1, X - Y1, B2, if B2 ≤ A then A - B2 else A + m - B2⟩
    else ⟨X, Y1 - X, A, if A ≤ B2 then B2 - A else B2 + m - A⟩
  else ⟨X, Y1, A, B2⟩

/-! ## Evaluated point tables used by the concrete evaluation lemmas below -/

/-- The evaluated 16-entry multiple table (`CurvePoint::multiply`) of the point `⟨55066263022277343669578718895168534326250603453777594175500187360389116729240, 32670510020758816978083085130507043184471273380659243275938904335757337482424, 1⟩`. -/

def tblG : List CurvePoint :=
  [⟨0, 1, 0⟩,
  ⟨55066263022277343669578718895168534326250603453777594175500187360389116729240, 32670510020758816978083085130507043184471273380659243275938904335757337482424, 1⟩,
  ⟨110383685576993659245168857245613307344564578195757623090394588386385391034312, 39155707150128334349216371677407456506802956851096117747929288260567018884059, 112386024462437979217642839804619380985487717678471186887195924032703633398313⟩,
  ⟨39791196193620472411860082020868582307658069530558727453066245621369123152200, 51824027799877888464293155823590680756930343210896760586208124971930360088677, 73924974115283128866616543754384822237464190786165855057410136526286983796556⟩,
  ⟨8534947810882902379145784729393058060730443422971025393429725602248859137197, 58985801019016598414038781463848246493845566536664960123748074623288730376825, 62771124952907092909664360376607836288614810034050978760812793737157249875752⟩,
  ⟨84820796205364162896120717542118965216968181146806168105970307645618279053988, 37727516279373305403493653217551556563716414126630907132609077675425426322827, 82391542101687451902549375506715610847302144412963556745051936460345160408355⟩,
  ⟨57608609513964231839687312887532080058274824067911023003956016170472243688272, 69961229856635406204651233705935958793743961089036522693828075325414699785844, 103449415522808062966294291877883304901784391142845320529699133511295509420956⟩,
  ⟨100779286172585985918548015102107560487194632444678690455147137287406741560782, 51637674642452016744701944309068177857218349870903170944495726392032125409676, 16304654980198390661358483351055000598853134666910371147859108654813878125396⟩,
  ⟨67179312985807519240766561036175493483341519723008958214982019459924778102694, 112734137967378063862474462918829059976567995615372275354095683257649446771140, 26786484960352764821357131947121439660867803420424353406708587221647161249556⟩,
  ⟨72868494445435202624491305498484005248291617913294256503778454085453350510279, 47208216814442606513795803418726185850884663173518508165176117326445370786457, 102870782032910171822151135261556463894799834847950669596656127658474496791214⟩,
  ⟨69457422523977034255057738632510803434992242715915175843876679730304584690878, 88497021809183593775644024834825716262142298370384198991209397831658413618935, 59430693202256339964803154428520936438809140457139605447812696269335298791511⟩,
  ⟨81251570740570296096792279890661311428937759231850577637057969643176384541956, 31581068794415842010818830932328767821379331271087283650891706339016047203172, 3013190165840775058318450940650005064392016659115368278574765875003214463597⟩,
  ⟨24205025236266630956172934744361072467327201552222809618010115869064078203765, 60588151699309965847270483167651262231116722183113018243147971993466722207073, 56214619824123112010018774312705061661732720098078285047666511757432772393426⟩,
  ⟨81472886100748812603716021240610444213234670718743359446690246540734302532850, 70433184055914206040296738658489854614928571502355235455018525066905130870507, 88320742280907913515227305876952823422670383820732469959472139934335251622778⟩,
  ⟨89804889906667690773743445758545354017607932190579708056196617485603423705609, 30407317619601216889330639459981347553530609341579754171758175543399396300327, 14827050213261673770046843657966606878567257892141689165128914586831808778471⟩,
  ⟨24760144240936177166054590977268636225563830488787240791458958253902503991534, 82512634033133536360844780393852825660251421083911495228429913671054481603824, 113150554898845864142135614141035703443483247627830880887980346931620778625931⟩]

/-- The evaluated 16-entry multiple table (`CurvePoint::multiply`) of the point `⟨110131914628909843887527015709277618292067400090353988390355590382136303927197, 87982058461631509175987196024672419241324887612402882210567295520400057757314, 1⟩`. -/

def tblPub1 : List CurvePoint :=
  [⟨0, 1, 0⟩,
  ⟨110131914628909843887527015709277618292067400090353988390355590382136303927197, 87982058461631509175987196024672419241324887612402882210567295520400057757314, 1⟩,
  ⟨72009614349022264471341532707993058304652037810000846763008609043770165038936, 61713052125183729498801751506559224582953663776906713110414520109733690378690, 56001366937559545837016735729263754105723600535640242096527922748401085313555⟩,
  ⟨40590982980871359765410938112306856532078346473369629878929408935640923357953, 70824173880729447088309895923744875005158982983439660430291720966426624282839, 30019962986942683916229713512331056313770685974685741525555922650767601520126⟩,
  ⟨65838632127322163664842790289823188740446188375004353787456194678346958460178, 77371905648297357062014339440490874103563837710525520857683492748254652433377, 11926483280742391371253834650428992577767553642721431247917225989281504149941⟩,
  ⟨66569769734384769137193113736364554341185882660014080973310931367549391340273, 11626624099760467602459720804489720465485476413426686686168245083475852142706, 56395624289177873643026394782568685384167582102140884512150019260069083933014⟩,
  ⟨46929645648008753950192214050286213516538017129718623469684739821077007990108, 110587538906661017700888880632313316538434479275741339994819144018400357890005, 82228694467851285833425481905999782849018064444360822175848579905899565576035⟩,
  ⟨25055185821585408772589567199201141518992732050258733940775434967442706549809, 23607430056232898647949039153892630421774034549786208433734864014458004605044, 74772270709860960597364199536326891062710003663186124739188641469819014447402⟩,
  ⟨79742070035995357751059566937802431451911645411874060276889574476332281182396, 32832873694642077361880188528971902395597081994738012530058016814084491064106, 86676703393862522632460485164160069137510824075061178283916254136144080796822⟩,
  ⟨73266169644574006943153178051428000066574972774938602418085282476414160185841, 100201698582134975511060887939865601455663775598034292251556174351106315902477, 50894906736611899225838433121431286167618524121771412546937873657717979241566⟩,
  ⟨95100940725292489679803601656508752156219386306267641543190770701238734310381, 61851421232946968658724332423101874123863652458649945879558116332368972209869, 104497607474418007037562497009768529201137282148249854693795386089683336928880⟩,
  ⟨113213065130577868020132034865686342758792157193918047572552511839860534186359, 13896043522440854634334812822417216529857058473431103352142587248924604916991, 1363699168025436678443295449517767016250337722867270965403873651499737308486⟩,
  ⟨60430655423956909984499610486038045534185252658092813790667100027345498794759, 20685107090405349544749378454333970514814338925150553597637116631509438982554, 55154403536322012986647000048567074469228691441614435369121586631189656297636⟩,
  ⟨79614153199056762307856262490204120357861422505126476150110465456255239563506, 604313060598461172865826595038195495875490012691465803542130275363210500380, 23097465741528260743921158921295137622690524714431369882313482905209748372084⟩,
  ⟨76906310077404925448961972995952417806668552577042790586765144314892717792112, 115447156814960534550247051783869899245734550061372258419962738383262229880364, 83110696621333420136240073002853510970113846320052819391230995166606930247095⟩,
  ⟨932059765639587768909827054527085648184616828692451135197736627806946682263, 8210212976928050083141451295425756235855503850674387839977737641808880892174, 31391648340681622193316289002920024759120537826091451354481684908155735229678⟩]

/-! ## Byte-string utilities, hash functions, Base58Check and BIP-32

Bytes are modelled as `List Nat` with every element below 256; 32- and
64-bit machine words are `Nat` with explicit reduction modulo `2^32` or
`2^64` at each arithmetic step, exactly where the C++ types truncate. -/

/-- Big-endian serialisation of `v` into `n` bytes (the store loops of
`Utils::storeBigUint32`, `Uint256::getBigEndianBytes` and the big-endian
hash length fields; the shifts-then-cast pattern truncates exactly as
`% 256` after a right shift). -/
def bytesBE (n v : Nat) : List Nat :=
  (List.range n).map (fun i => (v >>> ((n - 1 - i) * 8)) % 256)

/-- Little-endian serialisation of `v` into `n` bytes (the RIPEMD-160
length field and state serialisation). -/
def bytesLE (n v : Nat) : List Nat :=
  (List.range n).map (fun i => (v >>> (i * 8)) % 256)

/-- Embeds the constructor `Uint256::Uint256(const uint8_t b[32])` from
`Uint256.cpp`: interprets a byte list as a big-endian integer. -/
def Uint256.fromBigEndianBytes (b : List Nat) : Nat :=
  b.foldl (fun acc x => acc * 256 + x) 0

/-- Embeds `Uint256::getBigEndianBytes` from `Uint256.cpp`. -/
def Uint256.getBigEndianBytes (x : Nat) : List Nat := bytesBE 32 x

/-- Embeds `CurvePoint::toCompressedPoint` from `CurvePoint.cpp`:
header byte `0x02 + (y & 1)` followed by the 32 big-endian bytes
of `x`. -/
def CurvePoint.toCompressedPoint (p : CurvePoint) : List Nat :=
  ((p.y &&& 1) + 2) :: Uint256.getBigEndianBytes p.x

namespace Sha256

/-- Embeds `Sha256::rotr32` (the `uint32_t` left shift truncates
modulo `2^32`). -/
def rotr32 (x i : Nat) : Nat := ((x <<< (32 - i)) % 2 ^ 32) ||| (x >>> i)

/-- The SHA-256 initial state (`Sha256::INITIAL_STATE`). -/
def INITIAL_STATE : List Nat :=
  [0x6A09E667, 0xBB67AE85, 0x3C6EF372, 0xA54FF53A,
   0x510E527F, 0x9B05688C, 0x1F83D9AB, 0x5BE0CD19]

/-- The SHA-256 round constants (`Sha256::ROUND_CONSTANTS`). -/
def ROUND_CONSTANTS : List Nat :=
  [0x428A2F98, 0x71374491, 0xB5C0FBCF, 0xE9B5DBA5,
   0x3956C25B, 0x59F111F1, 0x923F82A4, 0xAB1C5ED5,
   0xD807AA98, 0x12835B01, 0x243185BE, 0x550C7DC3,
   0x72BE5D74, 0x80DEB1FE, 0x9BDC06A7, 0xC19BF174,
   0xE49B69C1, 0xEFBE4786, 0x0FC19DC6, 0x240CA1CC,
   0x2DE92C6F, 0x4A7484AA, 0x5CB0A9DC, 0x76F988DA,
   0x983E5152, 0xA831C66D, 0xB00327C8, 0xBF597FC7,
   0xC6E00BF3, 0xD5A79147, 0x06CA6351, 0x14292967,
   0x27B70A85, 0x2E1B2138, 0x4D2C6DFC, 0x53380D13,
   0x650A7354, 0x766A0ABB, 0x81C2C92E, 0x92722C85,
   0xA2BFE8A1, 0xA81A664B, 0xC24B8B70, 0xC76C51A3,
   0xD192E819, 0xD6990624, 0xF40E3585, 0x106AA070,
   0x19A4C116, 0x1E376C08, 0x2748774C, 0x34B0BCB5,
   0x391C0CB3, 0x4ED8AA4A, 0x5B9CCA4F, 0x682E6FF3,
   0x748F82EE, 0x78A5636F, 0x84C87814, 0x8CC70208,
   0x90BEFFFA, 0xA4506CEB, 0xBEF9A3F7, 0xC67178F2]

/-- The first 16 schedule words of `Sha256::compress`: big-endian load
of the 64-byte block. -/
def loadWords (block : List Nat) : List Nat :=
  (List.range 16).map (fun j =>
    (block.getD (4 * j) 0 <<< 24) ||| (block.getD (4 * j + 1) 0 <<< 16) |||
    (block.getD (4 * j + 2) 0 <<< 8) ||| block.getD (4 * j + 3) 0)

/-- The schedule-extension loop of `Sha256::compress` (`i` in
`16..63`), run `k` more times. -/
def scheduleExt : Nat → List Nat → List Nat
  | 0, ws => ws
  | k + 1, ws =>
    let n := ws.length
    let s0 := rotr32 (ws.getD (n - 15) 0) 7 ^^^ rotr32 (ws.getD (n - 15) 0) 18 ^^^
      (ws.getD (n - 15) 0 >>> 3)
    let s1 := rotr32 (ws.getD (n - 2) 0) 17 ^^^ rotr32 (ws.getD (n - 2) 0) 19 ^^^
      (ws.getD (n - 2) 0 >>> 10)
    scheduleExt k (ws ++ [(ws.getD (n - 16) 0 + ws.getD (n - 7) 0 + s0 + s1) % 2 ^ 32])

/-- One of the 64 rounds of `Sha256::compress` on the working variables
`(a,b,c,d,e,f,g,h)`; `kw` is the pair (round constant, schedule
word). -/
def round (st : Nat × Nat × Nat × Nat × Nat × Nat × Nat × Nat) (kw : Nat × Nat) :
    Nat × Nat × Nat × Nat × Nat × Nat × Nat × Nat :=
  match st with
  | (a, b, c, d, e, f, g, h) =>
    let t1 := (h + (rotr32 e 6 ^^^ rotr32 e 11 ^^^ rotr32 e 25) +
      (g ^^^ (e &&& (f ^^^ g))) + kw.1 + kw.2) % 2 ^ 32
    let t2 := ((rotr32 a 2 ^^^ rotr32 a 13 ^^^ rotr32 a 22) +
      ((a &&& (b ||| c)) ||| (b &&& c))) % 2 ^ 32
    ((t1 + t2) % 2 ^ 32, a, b, c, (d + t1) % 2 ^ 32, e, f, g)

/-- Embeds `Sha256::compress` from `Sha256.cpp` for a single 64-byte
block. -/
def compress (state block : List Nat) : List Nat :=
  let ws := scheduleExt 48 (loadWords block)
  match (ROUND_CONSTANTS.zip ws).foldl round
      (state.getD 0 0, state.getD 1 0, state.getD 2 0, state.getD 3 0,
       state.getD 4 0, state.getD 5 0, state.getD 6 0, state.getD 7 0) with
  | (a, b, c, d, e, f, g, h) =>
    [(state.getD 0 0 + a) % 2 ^ 32, (state.getD 1 0 + b) % 2 ^ 32,
     (state.getD 2 0 + c) % 2 ^ 32, (state.getD 3 0 + d) % 2 ^ 32,
     (state.getD 4 0 + e) % 2 ^ 32, (state.getD 5 0 + f) % 2 ^ 32,
     (state.getD 6 0 + g) % 2 ^ 32, (state.getD 7 0 + h) % 2 ^ 32]

/-- Compresses `k` consecutive 64-byte blocks (the per-block calls that
`Sha256::append` makes as the buffer fills). -/
def compressBlocks : Nat → List Nat → List Nat → List Nat
  | 0, state, _ => state
  | k + 1, state, bytes => compressBlocks k (compress state (bytes.take 64)) (bytes.drop 64)

/-- Embeds `Sha256::getHash` from `Sha256.cpp`: append `0x80`, zero-pad
so the data is 56 bytes short of a block boundary, append the 64-bit
big-endian bit length, and compress all blocks from the initial
state. -/
def getHash (msg : List Nat) : List Nat :=
  let padded := msg ++ 0x80 :: List.replicate ((64 + 56 - (msg.length + 1) % 64) % 64) 0 ++
    bytesBE 8 (msg.length * 8)
  let state := compressBlocks (padded.length / 64) INITIAL_STATE padded
  (List.range 32).map (fun i => (state.getD (i / 4) 0 >>> ((3 - i % 4) * 8)) % 256)

/-- Embeds `Sha256::getDoubleHash` from `Sha256.cpp`. -/
def getDoubleHash (msg : List Nat) : List Nat := getHash (getHash msg)

end Sha256

namespace Sha512

/-- Embeds `Sha512::rotr64` (the `uint64_t` left shift truncates
modulo `2^64`). -/
def rotr64 (x i : Nat) : Nat := ((x <<< (64 - i)) % 2 ^ 64) ||| (x >>> i)

/-- The SHA-512 initial state (`Sha512.cpp`, `getHash` local). -/
def INITIAL_STATE : List Nat :=
  [0x6A09E667F3BCC908, 0xBB67AE8584CAA73B, 0x3C6EF372FE94F82B, 0xA54FF53A5F1D36F1,
   0x510E527FADE682D1, 0x9B05688C2B3E6C1F, 0x1F83D9ABFB41BD6B, 0x5BE0CD19137E2179]

/-- The SHA-512 round constants (`Sha512::ROUND_CONSTANTS`). -/
def ROUND_CONSTANTS : List Nat :=
  [0x428A2F98D728AE22, 0x7137449123EF65CD, 0xB5C0FBCFEC4D3B2F, 0xE9B5DBA58189DBBC,
   0x3956C25BF348B538, 0x59F111F1B605D019, 0x923F82A4AF194F9B, 0xAB1C5ED5DA6D8118,
   0xD807AA98A3030242, 0x12835B0145706FBE, 0x243185BE4EE4B28C, 0x550C7DC3D5FFB4E2,
   0x72BE5D74F27B896F, 0x80DEB1FE3B1696B1, 0x9BDC06A725C71235, 0xC19BF174CF692694,
   0xE49B69C19EF14AD2, 0xEFBE4786384F25E3, 0x0FC19DC68B8CD5B5, 0x240CA1CC77AC9C65,
   0x2DE92C6F592B0275, 0x4A7484AA6EA6E483, 0x5CB0A9DCBD41FBD4, 0x76F988DA831153B5,
   0x983E5152EE66DFAB, 0xA831C66D2DB43210, 0xB00327C898FB213F, 0xBF597FC7BEEF0EE4,
   0xC6E00BF33DA88FC2, 0xD5A79147930AA725, 0x06CA6351E003826F, 0x142929670A0E6E70,
   0x27B70A8546D22FFC, 0x2E1B21385C26C926, 0x4D2C6DFC5AC42AED, 0x53380D139D95B3DF,
   0x650A73548BAF63DE, 0x766A0ABB3C77B2A8, 0x81C2C92E47EDAEE6, 0x92722C851482353B,
   0xA2BFE8A14CF10364, 0xA81A664BBC423001, 0xC24B8B70D0F89791, 0xC76C51A30654BE30,
   0xD192E819D6EF5218, 0xD69906245565A910, 0xF40E35855771202A, 0x106AA07032BBD1B8,
   0x19A4C116B8D2D0C8, 0x1E376C085141AB53, 0x2748774CDF8EEB99, 0x34B0BCB5E19B48A8,
   0x391C0CB3C5C95A63, 0x4ED8AA4AE3418ACB, 0x5B9CCA4F7763E373, 0x682E6FF3D6B2B8A3,
   0x748F82EE5DEFB2FC, 0x78A5636F43172F60, 0x84C87814A1F0AB72, 0x8CC702081A6439EC,
   0x90BEFFFA23631E28, 0xA4506CEBDE82BDE9, 0xBEF9A3F7B2C67915, 0xC67178F2E372532B,
   0xCA273ECEEA26619C, 0xD186B8C721C0C207, 0xEADA7DD6CDE0EB1E, 0xF57D4F7FEE6ED178,
   0x06F067AA72176FBA, 0x0A637DC5A2C898A6, 0x113F9804BEF90DAE, 0x1B710B35131C471B,
   0x28DB77F523047D84, 0x32CAAB7B40C72493, 0x3C9EBE0A15C9BEBC, 0x431D67C49C100D4C,
   0x4CC5D4BECB3E42B6, 0x597F299CFC657E2A, 0x5FCB6FAB3AD6FAEC, 0x6C44198C4A475817]

/-- The first 16 schedule words of `Sha512::compress`: big-endian load
of the 128-byte block. -/
def loadWords (block : List Nat) : List Nat :=
  (List.range 16).map (fun j =>
    (block.getD (8 * j) 0 <<< 56) ||| (block.getD (8 * j + 1) 0 <<< 48) |||
    (block.getD (8 * j + 2) 0 <<< 40) ||| (block.getD (8 * j + 3) 0 <<< 32) |||
    (block.getD (8 * j + 4) 0 <<< 24) ||| (block.getD (8 * j + 5) 0 <<< 16) |||
    (block.getD (8 * j + 6) 0 <<< 8) ||| block.getD (8 * j + 7) 0)

/-- The schedule-extension loop of `Sha512::compress` (`j` in
`16..79`), run `k` more times. -/
def scheduleExt : Nat → List Nat → List Nat
  | 0, ws => ws
  | k + 1, ws =>
    let n := ws.length
    let s0 := rotr64 (ws.getD (n - 15) 0) 1 ^^^ rotr64 (ws.getD (n - 15) 0) 8 ^^^
      (ws.getD (n - 15) 0 >>> 7)
    let s1 := rotr64 (ws.getD (n - 2) 0) 19 ^^^ rotr64 (ws.getD (n - 2) 0) 61 ^^^
      (ws.getD (n - 2) 0 >>> 6)
    scheduleExt k (ws ++ [(ws.getD (n - 16) 0 + ws.getD (n - 7) 0 + s0 + s1) % 2 ^ 64])

/-- One of the 80 rounds of `Sha512::compress`. -/
def round (st : Nat × Nat × Nat × Nat × Nat × Nat × Nat × Nat) (kw : Nat × Nat) :
    Nat × Nat × Nat × Nat × Nat × Nat × Nat × Nat :=
  match st with
  | (a, b, c, d, e, f, g, h) =>
    let t1 := (h + (rotr64 e 14 ^^^ rotr64 e 18 ^^^ rotr64 e 41) +
      (g ^^^ (e &&& (f ^^^ g))) + kw.1 + kw.2) % 2 ^ 64
    let t2 := ((rotr64 a 28 ^^^ rotr64 a 34 ^^^ rotr64 a 39) +
      ((a &&& (b ||| c)) ||| (b &&& c))) % 2 ^ 64
    ((t1 + t2) % 2 ^ 64, a, b, c, (d + t1) % 2 ^ 64, e, f, g)

/-- Embeds `Sha512::compress` from `Sha512.cpp` for a single 128-byte
block. -/
def compress (state block : List Nat) : List Nat :=
  let ws := scheduleExt 64 (loadWords block)
  match (ROUND_CONSTANTS.zip ws).foldl round
      (state.getD 0 0, state.getD 1 0, state.getD 2 0, state.getD 3 0,
       state.getD 4 0, state.getD 5 0, state.getD 6 0, state.getD 7 0) with
  | (a, b, c, d, e, f, g, h) =>
    [(state.getD 0 0 + a) % 2 ^ 64, (state.getD 1 0 + b) % 2 ^ 64,
     (state.getD 2 0 + c) % 2 ^ 64, (state.getD 3 0 + d) % 2 ^ 64,
     (state.getD 4 0 + e) % 2 ^ 64, (state.getD 5 0 + f) % 2 ^ 64,
     (state.getD 6 0 + g) % 2 ^ 64, (state.getD 7 0 + h) % 2 ^ 64]

/-- Compresses `k` consecutive 128-byte blocks. -/
def compressBlocks : Nat → List Nat → List Nat → List Nat
  | 0, state, _ => state
  | k + 1, state, bytes => compressBlocks k (compress state (bytes.take 128)) (bytes.drop 128)

/-- Embeds `Sha512::getHash` from `Sha512.cpp`: append `0x80`, zero-pad
so the data is 16 bytes short of a block boundary, append the 128-bit
big-endian bit length (the source writes `(len & 0x1F) << 3` and then
the bytes of `len >> 5`, which is exactly the big-endian encoding of
`8·len`), and compress all blocks. -/
def getHash (msg : List Nat) : List Nat :=
  let padded := msg ++ 0x80 :: List.replicate ((128 + 112 - (msg.length + 1) % 128) % 128) 0 ++
    bytesBE 16 (msg.length * 8)
  let state := compressBlocks (padded.length / 128) INITIAL_STATE padded
  (List.range 64).map (fun i => (state.getD (i / 8) 0 >>> ((7 - i % 8) * 8)) % 256)

/-- Modelled from the spec: `Sha512::getHmac` is declared in
`Sha512.hpp` but its definition is not present under `src/`.  The spec
describes it as standard HMAC-SHA-512 (`hmacSha512(key, msg) → 64 B`):
the key is zero-padded to the 128-byte block length (hashed first if
longer), XORed with the `0x36`/`0x5C` pads, and the result is
`SHA-512(opad ‖ SHA-512(ipad ‖ msg))`. -/
def getHmac (key msg : List Nat) : List Nat :=
  let key0 := if key.length ≤ 128 then key ++ List.replicate (128 - key.length) 0
    else getHash key ++ List.replicate 64 0
  getHash ((key0.map fun b => b ^^^ 0x5C) ++ getHash ((key0.map fun b => b ^^^ 0x36) ++ msg))

end Sha512

namespace Ripemd160

/-- Embeds `Ripemd160::rotl32`. -/
def rotl32 (x i : Nat) : Nat := ((x <<< i) % 2 ^ 32) ||| (x >>> (32 - i))

/-- Embeds `Ripemd160::f` (the round functions; `~` on `uint32_t` is
XOR with `0xFFFFFFFF`). -/
def f (i x y z : Nat) : Nat :=
  if i / 16 = 0 then x ^^^ y ^^^ z
  else if i / 16 = 1 then (x &&& y) ||| ((x ^^^ 0xFFFFFFFF) &&& z)
  else if i / 16 = 2 then (x ||| (y ^^^ 0xFFFFFFFF)) ^^^ z
  else if i / 16 = 3 then (x &&& z) ||| (y &&& (z ^^^ 0xFFFFFFFF))
  else x ^^^ (y ||| (z ^^^ 0xFFFFFFFF))

/-- The RIPEMD-160 constants `KL`. -/
def KL : List Nat := [0x00000000, 0x5A827999, 0x6ED9EBA1, 0x8F1BBCDC, 0xA953FD4E]

/-- The RIPEMD-160 constants `KR`. -/
def KR : List Nat := [0x50A28BE6, 0x5C4DD124, 0x6D703EF3, 0x7A6D76E9, 0x00000000]

/-- The RIPEMD-160 message permutation `RL`. -/
def RL : List Nat :=
  [0, 1, 2, 3, 4, 5, 6, 7, 8, 9, 10, 11, 12, 13, 14, 15,
   7, 4, 13, 1, 10, 6, 15, 3, 12, 0, 9, 5, 2, 14, 11, 8,
   3, 10, 14, 4, 9, 15, 8, 1, 2, 7, 0, 6, 13, 11, 5, 12,
   1, 9, 11, 10, 0, 8, 12, 4, 13, 3, 7, 15, 14, 5, 6, 2,
   4, 0, 5, 9, 7, 12, 2, 10, 14, 1, 3, 8, 11, 6, 15, 13]

/-- The RIPEMD-160 message permutation `RR`. -/
def RR : List Nat :=
  [5, 14, 7, 0, 9, 2, 11, 4, 13, 6, 15, 8, 1, 10, 3, 12,
   6, 11, 3, 7, 0, 13, 5, 10, 14, 15, 8, 12, 4, 9, 1, 2,
   15, 5, 1, 3, 7, 14, 6, 9, 11, 8, 12, 2, 10, 0, 4, 13,
   8, 6, 4, 1, 3, 11, 15, 0, 5, 12, 2, 13, 9, 7, 10, 14,
   12, 15, 10, 4, 1, 5, 8, 7, 6, 2, 13, 14, 0, 3, 9, 11]

/-- The RIPEMD-160 rotation amounts `SL`. -/
def SL : List Nat :=
  [11, 14, 15, 12, 5, 8, 7, 9, 11, 13, 14, 15, 6, 7, 9, 8,
   7, 6, 8, 13, 11, 9, 7, 15, 7, 12, 15, 9, 11, 7, 13, 12,
   11, 13, 6, 7, 14, 9, 13, 15, 14, 8, 13, 6, 5, 12, 7, 5,
   11, 12, 14, 15, 14, 15, 9, 8, 9, 14, 5, 6, 8, 6, 5, 12,
   9, 15, 5, 11, 6, 8, 13, 12, 5, 12, 13, 14, 11, 8, 5, 6]

/-- The RIPEMD-160 rotation amounts `SR`. -/
def SR : List Nat :=
  [8, 9, 9, 11, 13, 15, 15, 5, 7, 7, 8, 11, 14, 14, 12, 6,
   9, 13, 15, 7, 12, 8, 9, 11, 7, 7, 12, 7, 6, 15, 13, 11,
   9, 7, 15, 11, 8, 6, 6, 14, 12, 13, 5, 14, 13, 13, 7, 5,
   15, 5, 8, 11, 14, 14, 6, 14, 6, 9, 12, 9, 12, 5, 15, 8,
   8, 5, 12, 9, 12, 5, 14, 6, 8, 13, 6, 5, 15, 13, 11, 11]

/-- The 16 schedule words of `Ripemd160::compress`: little-endian load
of the 64-byte block. -/
def loadWords (block : List Nat) : List Nat :=
  (List.range 16).map (fun j =>
    block.getD (4 * j) 0 ||| (block.getD (4 * j + 1) 0 <<< 8) |||
    (block.getD (4 * j + 2) 0 <<< 16) ||| (block.getD (4 * j + 3) 0 <<< 24))

/-- One of the 80 double rounds of `Ripemd160::compress` on the left
and right lines of working variables. -/
def round (sched : List Nat)
    (st : (Nat × Nat × Nat × Nat × Nat) × (Nat × Nat × Nat × Nat × Nat)) (j : Nat) :
    (Nat × Nat × Nat × Nat × Nat) × (Nat × Nat × Nat × Nat × Nat) :=
  match st with
  | ((al, bl, cl, dl, el), (ar, br, cr, dr, er)) =>
    let tl := (rotl32 ((al + f j bl cl dl + sched.getD (RL.getD j 0) 0 +
      KL.getD (j / 16) 0) % 2 ^ 32) (SL.getD j 0) + el) % 2 ^ 32
    let tr := (rotl32 ((ar + f (79 - j) br cr dr + sched.getD (RR.getD j 0) 0 +
      KR.getD (j / 16) 0) % 2 ^ 32) (SR.getD j 0) + er) % 2 ^ 32
    ((el, tl, bl, rotl32 cl 10, dl), (er, tr, br, rotl32 cr 10, dr))

/-- Embeds `Ripemd160::compress` from `Ripemd160.cpp` for a single
64-byte block. -/
def compress (state block : List Nat) : List Nat :=
  let sched := loadWords block
  match (List.range 80).foldl (round sched)
      ((state.getD 0 0, state.getD 1 0, state.getD 2 0, state.getD 3 0, state.getD 4 0),
       (state.getD 0 0, state.getD 1 0, state.getD 2 0, state.getD 3 0, state.getD 4 0)) with
  | ((al, bl, cl, dl, el), (ar, br, cr, dr, er)) =>
    [(state.getD 1 0 + cl + dr) % 2 ^ 32,
     (state.getD 2 0 + dl + er) % 2 ^ 32,
     (state.getD 3 0 + el + ar) % 2 ^ 32,
     (state.getD 4 0 + al + br) % 2 ^ 32,
     (state.getD 0 0 + bl + cr) % 2 ^ 32]

/-- Compresses `k` consecutive 64-byte blocks. -/
def compressBlocks : Nat → List Nat → List Nat → List Nat
  | 0, state, _ => state
  | k + 1, state, bytes => compressBlocks k (compress state (bytes.take 64)) (bytes.drop 64)

/-- Embeds `Ripemd160::getHash` from `Ripemd160.cpp`: append `0x80`,
zero-pad so the data is 8 bytes short of a block boundary, append the
64-bit little-endian bit length, compress all blocks, and serialise the
state little-endian. -/
def getHash (msg : List Nat) : List Nat :=
  let padded := msg ++ 0x80 :: List.replicate ((64 + 56 - (msg.length + 1) % 64) % 64) 0 ++
    bytesLE 8 (msg.length * 8)
  let state := compressBlocks (padded.length / 64)
    [0x67452301, 0xEFCDAB89, 0x98BADCFE, 0x10325476, 0xC3D2E1F0] padded
  (List.range 20).map (fun i => (state.getD (i / 4) 0 >>> ((i % 4) * 8)) % 256)

end Ripemd160

/-- The fields of `ExtendedPrivateKey` from `ExtendedPrivateKey.hpp`:
the private scalar, the public point, the 32-byte chain code, the
depth byte, the child index, and the 4-byte parent public-key-hash
prefix. -/
structure ExtendedPrivateKey where
  privateKey : Nat
  publicKey : CurvePoint
  chainCode : List Nat
  depth : Nat
  index : Nat
  parentPubkeyHash : List Nat

namespace ExtendedPrivateKey

/-- The hardened-derivation threshold `ExtendedPrivateKey::HARDEN`. -/
def HARDEN : Nat := 0x80000000

/-- Embeds the default constructor `ExtendedPrivateKey()` from
`ExtendedPrivateKey.cpp`: zero private scalar, the identity public
point, and zero-initialised chain code, depth, index and parent
hash. -/
def default : ExtendedPrivateKey :=
  ⟨0, CurvePoint.ZERO, List.replicate 32 0, 0, 0, List.replicate 4 0⟩

/-- Embeds the field constructor
`ExtendedPrivateKey(privKey, chcd, dep, idx, ppkh)` from
`ExtendedPrivateKey.cpp`: the public point is computed as
`privateExponentToPublicPoint(privKey)`. -/
def ofParts (privKey : Nat) (chcd : List Nat) (dep idx : Nat) (ppkh : List Nat) :
    ExtendedPrivateKey :=
  ⟨privKey, CurvePoint.privateExponentToPublicPoint privKey, chcd, dep, idx, ppkh⟩

/-- The 37-byte HMAC message built at the top of
`ExtendedPrivateKey::getChildKey`: the compressed public point for a
normal index, or `0x00` followed by the big-endian private key for a
hardened index, followed by the big-endian index. -/
def childMsg (k : ExtendedPrivateKey) (index : Nat) : List Nat :=
  (if index < HARDEN then CurvePoint.toCompressedPoint k.publicKey
   else 0 :: Uint256.getBigEndianBytes k.privateKey) ++ bytesBE 4 index

/-- The value `IL` of BIP-32 derivation: the local `num` of
`getChildKey` before the addition, i.e. the first 32 bytes of the
HMAC-SHA-512 output interpreted big-endian (`Uint256 num(hash)`). -/
def childIL (k : ExtendedPrivateKey) (index : Nat) : Nat :=
  Uint256.fromBigEndianBytes ((Sha512.getHmac k.chainCode (childMsg k index)).take 32)

/-- Embeds `ExtendedPrivateKey::getChildKey` from
`ExtendedPrivateKey.cpp`.  The local `num` is `childIL` above; the
enable argument of the conditional subtraction is
`carry | (num >= ORDER)`, which is nonzero exactly when the carry is 1
or the truncated sum reaches the order; `depth + 1` truncates to a
`uint8_t`. -/
def getChildKey (k : ExtendedPrivateKey) (index : Nat) : ExtendedPrivateKey :=
  let hash := Sha512.getHmac k.chainCode (childMsg k index)
  let num := childIL k index
  if CurvePoint.ORDER ≤ num then default
  else
    let s := Uint256.add num k.privateKey true
    let num2 := (Uint256.subtract s.1 CurvePoint.ORDER
      (decide (s.2 = 1 ∨ CurvePoint.ORDER ≤ s.1))).1
    if num2 = 0 then default
    else
      let pubKeyHash := Ripemd160.getHash (Sha256.getHash
        (CurvePoint.toCompressedPoint k.publicKey))
      ofParts num2 (hash.drop 32) ((k.depth + 1) % 256) index pubKeyHash

end ExtendedPrivateKey

namespace Base58Check

/-- The Base58 alphabet (`Base58Check::ALPHABET`). -/
def ALPHABET : List Char :=
  "123456789ABCDEFGHJKLMNPQRSTUVWXYZabcdefghijkmnopqrstuvwxyz".toList

/-- The position of `c` in the alphabet (`std::strchr(ALPHABET, c)`;
`none` when the character is not a Base58 digit). -/
def alphaIndexOf (c : Char) : Option Nat :=
  ALPHABET.findIdx? (fun a => a == c)

/-- The byte loop of `Base58Check::multiply58` on the reversed
(little-endian first) byte list: each byte becomes `(b*58 + carry) mod
256` and the carry is `(b*58 + carry) / 256`; returns the final
carry. -/
def b58MulStep : Nat → List Nat → Nat × List Nat
  | c, [] => (c, [])
  | c, b :: bs =>
    let t := b * 58 + c
    let p := b58MulStep (t / 256) bs
    (p.1, t % 256 :: p.2)

/-- Embeds `Base58Check::multiply58` from `Base58Check.cpp` on a
big-endian byte list: multiplies by 58 in place and reports whether a
nonzero carry fell off the top. -/
def multiply58 (x : List Nat) : Bool × List Nat :=
  let p := b58MulStep 0 x.reverse
  (decide (0 < p.1), p.2.reverse)

/-- The carry-propagation loop of `Base58Check::addUint8` above the
least-significant byte. -/
def addCarryStep : Nat → List Nat → Nat × List Nat
  | c, [] => (c, [])
  | c, b :: bs =>
    let t := b + c
    let p := addCarryStep (t / 256) bs
    (p.1, t % 256 :: p.2)

/-- Embeds `Base58Check::addUint8` from `Base58Check.cpp` on a
big-endian byte list: adds `y` at the least-significant byte,
propagates carries, and reports whether a carry fell off the top. -/
def addUint8 (x : List Nat) (y : Nat) : Bool × List Nat :=
  match x.reverse with
  | [] => (false, x)
  | b :: bs =>
    let t := b + y
    let p := addCarryStep (t / 256) bs
    (decide (0 < p.1), (t % 256 :: p.2).reverse)

/-- The character loop of `Base58Check::base58CheckToBytes`: for each
input character multiply the accumulator by 58 and add the character's
alphabet index, failing (`none`, the C++ `return false`) on overflow or
on a character outside the alphabet. -/
def b58Loop : List Char → List Nat → Option (List Nat)
  | [], data => some data
  | c :: cs, data =>
    let m := multiply58 data
    if m.1 then none
    else
      match alphaIndexOf c with
      | none => none
      | some d =>
        let a := addUint8 m.2 d
        if a.1 then none
        else b58Loop cs a.2

/-- The leading-zeros verification loop of
`Base58Check::base58CheckToBytes`: index `i` scans while the input has
`'1'` characters matching zero bytes; it succeeds when both runs end
together and fails on a mismatch.  Out-of-range reads of the input
string return the C string terminator.  The fuel argument (always
called with more fuel than `data.length`, while every recursive step
requires `i < data.length`) makes the recursion structural. -/
def checkZeros (s : List Char) (data : List Nat) : Nat → Nat → Bool
  | 0, _ => true
  | fuel + 1, i =>
    if ¬ s.getD i (Char.ofNat 0) = '1' ∧ (data.length ≤ i ∨ ¬ data.getD i 0 = 0) then true
    else if s.getD i (Char.ofNat 0) = '1' ∧ i < data.length ∧ data.getD i 0 = 0 then
      checkZeros s data fuel (i + 1)
    else false

/-- The final checksum comparison of `Base58Check::base58CheckToBytes`:
the last 4 decoded bytes must equal the first 4 bytes of the double
SHA-256 of the preceding bytes. -/
def checksumOk (data : List Nat) : Bool :=
  decide (data.drop (data.length - 4) =
    (Sha256.getDoubleHash (data.take (data.length - 4))).take 4)

/-- Embeds `Base58Check::base58CheckToBytes` from `Base58Check.cpp`:
`none` models `return false` (the caller then leaves its outputs
unchanged); `some data` models `return true` with the decoded
buffer. -/
def base58CheckToBytes (s : List Char) (outDataLen : Nat) : Option (List Nat) :=
  match b58Loop s (List.replicate outDataLen 0) with
  | none => none
  | some data =>
    if checkZeros s data (outDataLen + 1) 0 then
      if checksumOk data then some data else none
    else none

/-- Embeds `Base58Check::pubkeyHashFromBase58Check` from
`Base58Check.cpp`.  The out-parameters are modelled by passing their
prior values in and returning their final values: on failure they are
returned unchanged. -/
def pubkeyHashFromBase58Check (s : List Char) (outPubkeyHash : List Nat) (outVersion : Nat) :
    Bool × List Nat × Nat :=
  if s.length < 25 ∨ 35 < s.length then (false, outPubkeyHash, outVersion)
  else
    match base58CheckToBytes s 25 with
    | none => (false, outPubkeyHash, outVersion)
    | some decoded => (true, (decoded.drop 1).take 20, decoded.getD 0 0)

/-- Embeds `Base58Check::privateKeyFromBase58Check` from
`Base58Check.cpp`: tries the 37-byte (uncompressed) decoding first,
then the 38-byte (compressed) decoding, whose byte 33 must be the
`0x01` compressed marker. -/
def privateKeyFromBase58Check (s : List Char) (outPrivKey outVersion : Nat)
    (outIsCompressed : Bool) : Bool × Nat × Nat × Bool :=
  if s.length < 38 ∨ 52 < s.length then (false, outPrivKey, outVersion, outIsCompressed)
  else
    match base58CheckToBytes s 37 with
    | some decoded =>
      (true, Uint256.fromBigEndianBytes ((decoded.drop 1).take 32), decoded.getD 0 0, false)
    | none =>
      match base58CheckToBytes s 38 with
      | some decoded =>
        if ¬ decoded.getD 33 0 = 0x01 then (false, outPrivKey, outVersion, outIsCompressed)
        else (true, Uint256.fromBigEndianBytes ((decoded.drop 1).take 32), decoded.getD 0 0, true)
      | none => (false, outPrivKey, outVersion, outIsCompressed)

/-- Embeds `Base58Check::extendedPrivateKeyFromBase58Check` from
`Base58Check.cpp`: the length must be exactly 111, the 82 decoded bytes
must carry the `0x0488ADE4` header, a zero version byte at offset 45,
and a private key in `[1, n)`. -/
def extendedPrivateKeyFromBase58Check (s : List Char) (outKey : ExtendedPrivateKey) :
    Bool × ExtendedPrivateKey :=
  if ¬ s.length = 111 then (false, outKey)
  else
    match base58CheckToBytes s 82 with
    | none => (false, outKey)
    | some decoded =>
      let privateKey := Uint256.fromBigEndianBytes ((decoded.drop 46).take 32)
      if ¬ decoded.getD 0 0 = 0x04 ∨ ¬ decoded.getD 1 0 = 0x88 ∨
          ¬ decoded.getD 2 0 = 0xAD ∨ ¬ decoded.getD 3 0 = 0xE4 then (false, outKey)
      else if ¬ decoded.getD 45 0 = 0 then (false, outKey)
      else if privateKey = 0 ∨ CurvePoint.ORDER ≤ privateKey then (false, outKey)
      else
        (true, ExtendedPrivateKey.ofParts privateKey ((decoded.drop 13).take 32)
          (decoded.getD 4 0)
          ((decoded.getD 9 0 <<< 24) ||| (decoded.getD 10 0 <<< 16) |||
            (decoded.getD 11 0 <<< 8) ||| decoded.getD 12 0)
          ((decoded.drop 5).take 4))

end Base58Check

set_option maxRecDepth 100000
set_option exponentiation.threshold 1024

/-! ## General lemmas about the fixed-count loop combinator -/

/-- Splitting a fixed-count loop: running `k + c` iterations is running
`c` iterations and then `k` more. -/
theorem Uint256.iterate_chunk {α : Type} (f : α → α) (c k : Nat) (s : α) :
    Uint256.iterate f (k + c) s = Uint256.iterate f k (Uint256.iterate f c s) := by
  induction c generalizing s with
  | zero => rfl
  | succ c ih =>
    have h1 : k + (c + 1) = (k + c) + 1 := by omega
    rw [h1]
    show Uint256.iterate f (k + c) (f s) = _
    rw [ih (f s)]
    rfl

/-- Gluing evaluated chunks of a fixed-count loop. -/
theorem Uint256.iterate_glue {α : Type} (f : α → α) (c k : Nat) {s t r : α}
    (h1 : Uint256.iterate f c s = t) (h2 : Uint256.iterate f k t = r) :
    Uint256.iterate f (k + c) s = r := by
  rw [Uint256.iterate_chunk, h1, h2]

/-! ## Assembly lemmas: composing evaluated components of the embedded
functions.  Each is proved by substituting the component equations and
unfolding the definition. -/

/-- `privateExponentToPublicPoint` from evaluated multiply and normalize. -/
theorem CurvePoint.pub_eval (d : Nat) (M Q : CurvePoint)
    (h1 : CurvePoint.multiply CurvePoint.G d = M)
    (h2 : CurvePoint.normalize M = Q) :
    CurvePoint.privateExponentToPublicPoint d = Q := by
  cases h1; cases h2; rfl

/-- `normalize` from an evaluated reciprocal of the `z` coordinate. -/
theorem CurvePoint.normalize_eval (x y z nz : Nat)
    (h : Uint256.reciprocal z FieldInt.MODULUS = nz) :
    CurvePoint.normalize ⟨x, y, z⟩ =
      CurvePoint.replace
        ⟨Uint256.replace x 1 (!(x == 0)), Uint256.replace y 1 (!(y == 0)), z⟩
        ⟨FieldInt.multiply x nz, FieldInt.multiply y nz, 1⟩
        (!(z == 0)) := by
  cases h; rfl

/-- `Ecdsa::sign`'s value `r` from the evaluated public point of a nonce. -/
theorem Ecdsa.signR_eval (nonce : Nat) (Q : CurvePoint)
    (h : CurvePoint.privateExponentToPublicPoint nonce = Q) :
    Ecdsa.signR nonce =
      (Uint256.subtract Q.x CurvePoint.ORDER (decide (CurvePoint.ORDER ≤ Q.x))).1 := by
  cases h; rfl

/-- `Ecdsa::sign`'s intermediate `s` from evaluated components. -/
theorem Ecdsa.signInter_eval (d z nonce rr s1 : Nat)
    (h1 : Ecdsa.signR nonce = rr)
    (h2 : Ecdsa.multiplyModOrder rr d = s1) :
    Ecdsa.signInter d z nonce =
      (Uint256.subtract (Uint256.add s1 z true).1 CurvePoint.ORDER
        (decide ((Uint256.add s1 z true).2 = 1 ∨
          CurvePoint.ORDER ≤ (Uint256.add s1 z true).1))).1 := by
  cases h1; cases h2; rfl

/-- `Ecdsa::sign` from evaluated components. -/
theorem Ecdsa.sign_eval (d z nonce rr kI iv s2 : Nat)
    (h1 : Ecdsa.signR nonce = rr)
    (h2 : Uint256.reciprocal nonce CurvePoint.ORDER = kI)
    (h3 : Ecdsa.signInter d z nonce = iv)
    (h4 : Ecdsa.multiplyModOrder iv kI = s2) :
    Ecdsa.sign d z nonce =
      if nonce = 0 ∨ CurvePoint.ORDER ≤ nonce then none else
      if rr = 0 then none else
      if s2 = 0 then none else
      some (rr, Uint256.replace s2 (Uint256.subtract CurvePoint.ORDER s2 true).1
        (decide ((Uint256.subtract CurvePoint.ORDER s2 true).1 < s2))) := by
  cases h1; cases h2; cases h3; cases h4; rfl

/-- `Ecdsa::verify` from evaluated components. -/
theorem Ecdsa.verify_eval (z r s wv u1 u2 : Nat) (Q Q0 P1 Q1 S PN : CurvePoint)
    (hq0 : CurvePoint.multiply Q CurvePoint.ORDER = Q0)
    (hw : Uint256.reciprocal s CurvePoint.ORDER = wv)
    (hu1 : Ecdsa.multiplyModOrder wv z = u1)
    (hu2 : Ecdsa.multiplyModOrder wv r = u2)
    (hp1 : CurvePoint.multiply CurvePoint.G u1 = P1)
    (hq1 : CurvePoint.multiply Q u2 = Q1)
    (hadd : CurvePoint.add P1 Q1 = S)
    (hn : CurvePoint.normalize S = PN) :
    Ecdsa.verify Q z r s =
      if ¬(0 < r ∧ r < CurvePoint.ORDER ∧ 0 < s ∧ s < CurvePoint.ORDER) then false else
      if CurvePoint.isZero Q || !(Q.z == CurvePoint.FI_ONE) ||
         !CurvePoint.isOnCurve Q || !CurvePoint.isZero Q0 then false else
      (r == (Uint256.subtract PN.x CurvePoint.ORDER
        (decide (CurvePoint.ORDER ≤ PN.x))).1) := by
  cases hq0; cases hw; cases hu1; cases hu2; cases hp1; cases hq1; cases hadd; cases hn; rfl

/-! ## Arithmetic facts about the embedded operations -/

/-- The word modulus as a decimal literal. -/
theorem W_lit : W = 115792089237316195423570985008687907853269984665640564039457584007913129639936 := by
  norm_num [W]

/-- **C8**: the converting constructor `FieldInt(const Uint256 &)`
reduces every 256-bit value, including those `≥ p`, to exactly
`v mod p`: one conditional subtraction suffices because `v < 2^256 < 2p`. -/
theorem fieldInt_ofUint256_eq_mod (v : Nat) (hv : v < W) :
    FieldInt.ofUint256 v = v % FieldInt.MODULUS := by
  rw [W_lit] at hv
  simp only [FieldInt.ofUint256, Uint256.subtract, decide_eq_true_eq,
    FieldInt.MODULUS, W_lit]
  split_ifs with h <;> omega

/-- Witness for `fieldInt_ofUint256_eq_mod` at a concrete value above the
modulus. -/
theorem fieldInt_ofUint256_eq_mod_witness :
    115792089237316195423570985008687907853269984665640564039457584007913129639930 < W ∧
    FieldInt.ofUint256 115792089237316195423570985008687907853269984665640564039457584007913129639930 =
      115792089237316195423570985008687907853269984665640564039457584007913129639930 %
        FieldInt.MODULUS :=
  ⟨by decide, fieldInt_ofUint256_eq_mod _ (by decide)⟩

/-- The conditional subtraction of the order after a doubling or an
addition: for `t < 2n` the pair (`t mod 2^256`, carry) followed by one
conditional subtraction of `n` (on carry-out or on reaching `n`)
produces exactly `t mod n`. -/
theorem ORDER_lit : CurvePoint.ORDER = 115792089237316195423570985008687907852837564279074904382605163141518161494337 := by
  decide

theorem order_condSub (t : Nat) (h2 : t < 2 * CurvePoint.ORDER) :
    (Uint256.subtract (t % W) CurvePoint.ORDER
      (decide (t / W = 1 ∨ CurvePoint.ORDER ≤ t % W))).1 = t % CurvePoint.ORDER := by
  simp only [Uint256.subtract, decide_eq_true_eq]
  rw [ORDER_lit] at *
  rw [W_lit] at *
  split_ifs with h
  · rcases h with h | h <;> omega
  · push_neg at h
    rw [Nat.sub_zero]
    omega

/-- One iteration of the `multiplyModOrder` loop computes
`2z + bit·x mod n`. -/
theorem mmoStep_eq (x y i z : Nat) (hx : x < CurvePoint.ORDER)
    (hz : z < CurvePoint.ORDER) :
    Ecdsa.mmoStep x y i z = (2 * z + y / 2 ^ i % 2 * x) % CurvePoint.ORDER := by
  have hOpos : 0 < CurvePoint.ORDER := by decide
  have h1 : (Uint256.subtract (Uint256.shiftLeft1 z).1 CurvePoint.ORDER
      (decide ((Uint256.shiftLeft1 z).2 = 1 ∨
        CurvePoint.ORDER ≤ (Uint256.shiftLeft1 z).1))).1 =
      2 * z % CurvePoint.ORDER := by
    simpa only [Uint256.shiftLeft1] using
      order_condSub (2 * z) (by omega)
  have hz1 : 2 * z % CurvePoint.ORDER < CurvePoint.ORDER := Nat.mod_lt _ hOpos
  simp only [Ecdsa.mmoStep]
  rw [h1]
  by_cases hb : y / 2 ^ i % 2 = 1
  · rw [hb]
    simp only [Uint256.add, decide_eq_true_eq, if_pos]
    rw [order_condSub (2 * z % CurvePoint.ORDER + x) (by omega)]
    rw [Nat.one_mul]
    conv_rhs => rw [Nat.add_mod]
    rw [Nat.mod_eq_of_lt hx]
  · have hb0 : y / 2 ^ i % 2 = 0 := by omega
    rw [hb0]
    simp only [Uint256.add, decide_eq_true_eq]
    rw [if_neg (by omega), Nat.add_zero]
    rw [order_condSub (2 * z % CurvePoint.ORDER) (by omega)]
    rw [Nat.mod_mod_of_dvd _ dvd_rfl, Nat.zero_mul, Nat.add_zero]

/-- The `multiplyModOrder` loop invariant: with `i` iterations left and
accumulator `z < n`, the final accumulator is the Horner value of the
low `i` bits of `y`. -/
theorem mmoGo_eq (x y : Nat) (hx : x < CurvePoint.ORDER) :
    ∀ (i z : Nat), z < CurvePoint.ORDER →
      (Uint256.iterate (Ecdsa.mmoLoop x y) i (i, z)).2 =
        (z * 2 ^ i + x * (y % 2 ^ i)) % CurvePoint.ORDER := by
  have npos : 0 < CurvePoint.ORDER := by decide
  intro i
  induction i with
  | zero =>
    intro z hz
    simp only [Uint256.iterate, pow_zero, Nat.mod_one, mul_one, Nat.mul_zero,
      Nat.add_zero]
    exact (Nat.mod_eq_of_lt hz).symm
  | succ i ih =>
    intro z hz
    have hstep : Ecdsa.mmoLoop x y (i + 1, z) =
        (i, (2 * z + y / 2 ^ i % 2 * x) % CurvePoint.ORDER) := by
      simp only [Ecdsa.mmoLoop, Nat.add_sub_cancel]
      rw [mmoStep_eq x y i z hx hz]
    have h1 : Uint256.iterate (Ecdsa.mmoLoop x y) (i + 1) (i + 1, z) =
        Uint256.iterate (Ecdsa.mmoLoop x y) i
          (i, (2 * z + y / 2 ^ i % 2 * x) % CurvePoint.ORDER) := by
      rw [← hstep]; rfl
    rw [h1, ih _ (Nat.mod_lt _ npos)]
    show Nat.ModEq CurvePoint.ORDER _ _
    calc (2 * z + y / 2 ^ i % 2 * x) % CurvePoint.ORDER * 2 ^ i + x * (y % 2 ^ i)
        ≡ (2 * z + y / 2 ^ i % 2 * x) * 2 ^ i + x * (y % 2 ^ i)
          [MOD CurvePoint.ORDER] :=
          Nat.ModEq.add_right _ (Nat.ModEq.mul_right _ (Nat.mod_modEq _ _))
      _ = z * 2 ^ (i + 1) + x * (2 ^ i * (y / 2 ^ i % 2) + y % 2 ^ i) := by ring
      _ = z * 2 ^ (i + 1) + x * (y % 2 ^ (i + 1)) := by
          rw [Nat.pow_succ, Nat.mod_mul]
          ring_nf

/-- **C9**: `Ecdsa::multiplyModOrder(x, y)` computes `x·y mod n` (a
value `< n`) for every `x < n` and *every* 256-bit `y`, reduced or not. -/
theorem multiplyModOrder_eq_mod (x y : Nat) (hx : x < CurvePoint.ORDER)
    (hy : y < W) :
    Ecdsa.multiplyModOrder x y = x * y % CurvePoint.ORDER ∧
    Ecdsa.multiplyModOrder x y < CurvePoint.ORDER := by
  have h0 : (0 : Nat) < CurvePoint.ORDER := by decide
  have h : Ecdsa.multiplyModOrder x y =
      (0 * 2 ^ 256 + x * (y % 2 ^ 256)) % CurvePoint.ORDER :=
    mmoGo_eq x y hx 256 0 h0
  have hy2 : y % 2 ^ 256 = y := Nat.mod_eq_of_lt hy
  rw [hy2, Nat.zero_mul, Nat.zero_add] at h
  exact ⟨h, by rw [h]; exact Nat.mod_lt _ h0⟩

/-- Witness for `multiplyModOrder_eq_mod` at concrete inputs. -/
theorem multiplyModOrder_eq_mod_witness :
    3 < CurvePoint.ORDER ∧ 5 < W ∧
    (Ecdsa.multiplyModOrder 3 5 = 3 * 5 % CurvePoint.ORDER ∧
     Ecdsa.multiplyModOrder 3 5 < CurvePoint.ORDER) :=
  ⟨by decide, by decide, multiplyModOrder_eq_mod 3 5 (by decide) (by decide)⟩

/-! ## Barrett reduction: correctness of `FieldInt::multiply` -/

/-- The field modulus as a decimal literal. -/
theorem P_lit : FieldInt.MODULUS = 115792089237316195423570985008687907853269984665640564039457584007908834671663 := by
  decide

theorem barrett_bounds (x y : Nat) (hx : x < FieldInt.MODULUS) (hy : y < FieldInt.MODULUS) :
    x * y * (2 ^ 256 + 2 ^ 32 + 0x3D1) / 2 ^ 512 * FieldInt.MODULUS ≤ x * y ∧
    x * y < (x * y * (2 ^ 256 + 2 ^ 32 + 0x3D1) / 2 ^ 512 + 2) * FieldInt.MODULUS := by
  have hc1 : (2 ^ 256 + 2 ^ 32 + 0x3D1) * FieldInt.MODULUS ≤ 2 ^ 512 := by decide
  have hc2 : 2 ^ 512 < (2 ^ 256 + 2 ^ 32 + 0x3D1 + 1) * FieldInt.MODULUS := by decide
  constructor
  · have h1 : x * y * (2 ^ 256 + 2 ^ 32 + 0x3D1) / 2 ^ 512 * 2 ^ 512 ≤
        x * y * (2 ^ 256 + 2 ^ 32 + 0x3D1) := Nat.div_mul_le_self _ _
    have h2 : x * y * (2 ^ 256 + 2 ^ 32 + 0x3D1) / 2 ^ 512 * 2 ^ 512 * FieldInt.MODULUS ≤
        x * y * (2 ^ 256 + 2 ^ 32 + 0x3D1) * FieldInt.MODULUS := Nat.mul_le_mul_right _ h1
    have h3 : x * y * (2 ^ 256 + 2 ^ 32 + 0x3D1) * FieldInt.MODULUS =
        x * y * ((2 ^ 256 + 2 ^ 32 + 0x3D1) * FieldInt.MODULUS) := by ring
    have h4 : x * y * ((2 ^ 256 + 2 ^ 32 + 0x3D1) * FieldInt.MODULUS) ≤ x * y * 2 ^ 512 :=
      Nat.mul_le_mul_left _ hc1
    have h5 : x * y * (2 ^ 256 + 2 ^ 32 + 0x3D1) / 2 ^ 512 * FieldInt.MODULUS * 2 ^ 512 ≤
        x * y * 2 ^ 512 := by
      calc x * y * (2 ^ 256 + 2 ^ 32 + 0x3D1) / 2 ^ 512 * FieldInt.MODULUS * 2 ^ 512
          = x * y * (2 ^ 256 + 2 ^ 32 + 0x3D1) / 2 ^ 512 * 2 ^ 512 * FieldInt.MODULUS := by ring
        _ ≤ x * y * (2 ^ 256 + 2 ^ 32 + 0x3D1) * FieldInt.MODULUS := h2
        _ = x * y * ((2 ^ 256 + 2 ^ 32 + 0x3D1) * FieldInt.MODULUS) := h3
        _ ≤ x * y * 2 ^ 512 := h4
    exact Nat.le_of_mul_le_mul_right h5 (by norm_num)
  · have hQ1 : x * y < (x * y / FieldInt.MODULUS + 1) * FieldInt.MODULUS := by
      rw [P_lit] at *
      omega
    have hQM : x * y / FieldInt.MODULUS * FieldInt.MODULUS ≤ x * y := Nat.div_mul_le_self _ _
    have hxyc : x * y * (2 ^ 256 + 2 ^ 32 + 0x3D1) <
        (x * y * (2 ^ 256 + 2 ^ 32 + 0x3D1) / 2 ^ 512 + 1) * 2 ^ 512 := by
      rw [show (2 : Nat) ^ 512 =
        13407807929942597099574024998205846127479365820592393377723561443721764030073546976801874298166903427690031858186486050853753882811946569946433649006084096 from by norm_num] at *
      omega
    have hxy512 : x * y < 2 ^ 512 := by
      calc x * y ≤ FieldInt.MODULUS * FieldInt.MODULUS := by
            exact Nat.mul_le_mul (le_of_lt hx) (le_of_lt hy)
        _ < 2 ^ 512 := by decide
    have hQlt : x * y / FieldInt.MODULUS < x * y * (2 ^ 256 + 2 ^ 32 + 0x3D1) / 2 ^ 512 + 2 := by
      have h7 : x * y / FieldInt.MODULUS * 2 ^ 512 <
          (x * y * (2 ^ 256 + 2 ^ 32 + 0x3D1) / 2 ^ 512 + 2) * 2 ^ 512 := by
        calc x * y / FieldInt.MODULUS * 2 ^ 512
            ≤ x * y / FieldInt.MODULUS * ((2 ^ 256 + 2 ^ 32 + 0x3D1 + 1) * FieldInt.MODULUS) :=
              Nat.mul_le_mul_left _ (le_of_lt hc2)
          _ = x * y / FieldInt.MODULUS * FieldInt.MODULUS * (2 ^ 256 + 2 ^ 32 + 0x3D1) +
              x * y / FieldInt.MODULUS * FieldInt.MODULUS := by ring
          _ ≤ x * y * (2 ^ 256 + 2 ^ 32 + 0x3D1) + x * y := by
              have h8 := Nat.mul_le_mul_right (2 ^ 256 + 2 ^ 32 + 0x3D1) hQM
              omega
          _ < (x * y * (2 ^ 256 + 2 ^ 32 + 0x3D1) / 2 ^ 512 + 1) * 2 ^ 512 + 2 ^ 512 := by
              omega
          _ = (x * y * (2 ^ 256 + 2 ^ 32 + 0x3D1) / 2 ^ 512 + 2) * 2 ^ 512 := by ring
      exact Nat.lt_of_mul_lt_mul_right h7
    calc x * y < (x * y / FieldInt.MODULUS + 1) * FieldInt.MODULUS := hQ1
      _ ≤ (x * y * (2 ^ 256 + 2 ^ 32 + 0x3D1) / 2 ^ 512 + 2) * FieldInt.MODULUS :=
          Nat.mul_le_mul_right _ (by omega)

theorem FieldInt.multiplyDifference_eq (x y : Nat) (hx : x < FieldInt.MODULUS) (hy : y < FieldInt.MODULUS) :
    FieldInt.multiplyDifference x y =
      x * y - x * y * (2 ^ 256 + 2 ^ 32 + 0x3D1) / 2 ^ 512 * FieldInt.MODULUS := by
  obtain ⟨h1, h2⟩ := barrett_bounds x y hx hy
  have hM2 : 2 * FieldInt.MODULUS < 2 ^ 288 := by decide
  simp only [FieldInt.multiplyDifference]
  generalize hA : x * y = A at *
  generalize hB : A * (2 ^ 256 + 2 ^ 32 + 0x3D1) / 2 ^ 512 * FieldInt.MODULUS = B at *
  rw [P_lit] at *
  omega

theorem fieldSub_end (D : Nat) (hD : D < 2 * FieldInt.MODULUS) :
    (Uint256.subtract (D % W) FieldInt.MODULUS (decide (D / W ≠ 0 ∨ FieldInt.MODULUS ≤ D % W))).1 = D % FieldInt.MODULUS := by
  simp only [Uint256.subtract, decide_eq_true_eq]
  rw [P_lit] at *
  rw [W_lit] at *
  split_ifs with h
  · rcases h with h | h <;> omega
  · push_neg at h
    rw [Nat.sub_zero]
    omega

/-- The Barrett difference is below `2p` (at most one conditional
subtraction of `p` is needed). -/
theorem fieldInt_multiplyDifference_lt (x y : Nat) (hx : x < FieldInt.MODULUS)
    (hy : y < FieldInt.MODULUS) :
    FieldInt.multiplyDifference x y < 2 * FieldInt.MODULUS := by
  obtain ⟨h1, h2⟩ := barrett_bounds x y hx hy
  have hD := FieldInt.multiplyDifference_eq x y hx hy
  rw [Nat.add_mul] at h2
  rw [hD]
  generalize hA : x * y = A at *
  generalize hB : A * (2 ^ 256 + 2 ^ 32 + 0x3D1) / 2 ^ 512 * FieldInt.MODULUS = B at *
  rw [P_lit] at *
  omega

/-- The Barrett difference is congruent to `x * y` modulo `p`. -/
theorem fieldInt_multiplyDifference_mod (x y : Nat) (hx : x < FieldInt.MODULUS)
    (hy : y < FieldInt.MODULUS) :
    FieldInt.multiplyDifference x y % FieldInt.MODULUS = x * y % FieldInt.MODULUS := by
  obtain ⟨h1, h2⟩ := barrett_bounds x y hx hy
  have hD := FieldInt.multiplyDifference_eq x y hx hy
  rw [Nat.add_mul] at h2
  rw [hD]
  generalize hA : x * y = A at *
  generalize hB : A * (2 ^ 256 + 2 ^ 32 + 0x3D1) / 2 ^ 512 * FieldInt.MODULUS = B at *
  have hBmod : B % FieldInt.MODULUS = 0 := by rw [← hB]; exact Nat.mul_mod_left _ _
  rw [P_lit] at *
  omega

theorem fieldInt_multiply_eq_mod (x y : Nat) (hx : x < FieldInt.MODULUS) (hy : y < FieldInt.MODULUS) :
    FieldInt.multiply x y = x * y % FieldInt.MODULUS ∧ FieldInt.multiply x y < FieldInt.MODULUS := by
  have h2M := fieldInt_multiplyDifference_lt x y hx hy
  have hend : FieldInt.multiply x y = FieldInt.multiplyDifference x y % FieldInt.MODULUS := by
    simp only [FieldInt.multiply]
    exact fieldSub_end _ h2M
  refine ⟨hend.trans (fieldInt_multiplyDifference_mod x y hx hy), ?_⟩
  rw [hend]
  exact Nat.mod_lt _ (by decide)

/-- The conditional subtraction of the field modulus after an addition
or a doubling: for `t < 2p` the pair (`t mod 2^256`, carry) followed by
one conditional subtraction of `p` produces exactly `t mod p`. -/
theorem p_condSub (t : Nat) (h2 : t < 2 * FieldInt.MODULUS) :
    (Uint256.subtract (t % W) FieldInt.MODULUS
      (decide (t / W = 1 ∨ FieldInt.MODULUS ≤ t % W))).1 = t % FieldInt.MODULUS := by
  simp only [Uint256.subtract, decide_eq_true_eq]
  rw [P_lit] at *
  rw [W_lit] at *
  split_ifs with h
  · rcases h with h | h <;> omega
  · push_neg at h
    rw [Nat.sub_zero]
    omega

/-- The embedded `FieldInt::add` computes modular addition. -/
theorem fieldInt_add_eq (x y : Nat) (hx : x < FieldInt.MODULUS)
    (hy : y < FieldInt.MODULUS) :
    FieldInt.add x y = (x + y) % FieldInt.MODULUS := by
  simpa only [FieldInt.add, Uint256.add, if_pos] using p_condSub (x + y) (by omega)

/-- The embedded `FieldInt::multiply2` computes modular doubling. -/
theorem fieldInt_multiply2_eq (x : Nat) (hx : x < FieldInt.MODULUS) :
    FieldInt.multiply2 x = 2 * x % FieldInt.MODULUS := by
  simpa only [FieldInt.multiply2, Uint256.shiftLeft1] using p_condSub (2 * x) (by omega)

/-- The embedded `FieldInt::subtract` stays below the modulus. -/
theorem fieldInt_subtract_lt (x y : Nat) (hx : x < FieldInt.MODULUS)
    (hy : y < FieldInt.MODULUS) :
    FieldInt.subtract x y < FieldInt.MODULUS := by
  simp only [FieldInt.subtract, Uint256.add, Uint256.subtract, decide_eq_true_eq]
  rw [P_lit] at *
  rw [W_lit] at *
  split_ifs <;> (try dsimp only at *) <;> omega

/-! ## Correctness of `Uint256::reciprocal` (extended binary GCD) -/

set_option maxHeartbeats 2000000 in
/-- One `reciprocal` iteration, rewritten without wrap-around: under the
in-range bounds of the loop invariant, the step halves `y` (adjusting
`b` by `(m+1)/2` when `b` is odd) and then performs the
swap/subtract phase described by `recipAux`. -/
theorem Uint256.recipStep_eq (m : Nat) (hmW : m + 1 < W)
    (s : Uint256.RecipState) (hx : s.x ≤ m) (hy : s.y < m)
    (ha : s.a < m) (hb : s.b < m) :
    Uint256.recipStep m ((m + 1) / 2) s =
      if s.y % 2 = 0 then
        Uint256.recipAux m s.x (s.y / 2) s.a
          (if s.b % 2 = 1 then s.b / 2 + (m + 1) / 2 else s.b / 2)
      else Uint256.recipAux m s.x s.y s.a s.b := by
  obtain ⟨X, Y, A, B⟩ := s
  simp only [Uint256.recipStep, Uint256.recipAux, Uint256.shiftRight1,
    Uint256.add, Uint256.subtract, Uint256.swap, Bool.and_eq_true,
    decide_eq_true_eq] at *
  rw [W_lit] at *
  split_ifs <;> dsimp only at * <;>
    first
      | exact (by assumption : False).elim
      | (simp only [true_and, Uint256.RecipState.mk.injEq]; omega)

/-- Unfolding one iteration of a fixed-count loop. -/
theorem Uint256.iterate_succ {α : Type} (f : α → α) (k : Nat) (s : α) :
    Uint256.iterate f (k + 1) s = Uint256.iterate f k (f s) := rfl

/-- An odd number is coprime to 2. -/
theorem gcd_two_of_odd (m : Nat) (hm : m % 2 = 1) : Nat.gcd m 2 = 1 := by
  rw [Nat.gcd_comm, Nat.gcd_rec, hm]
  rfl

/-- A factor of 2 cancels in a congruence modulo an odd number. -/
theorem modEq_cancel_two (m : Nat) (hm : m % 2 = 1) (hm0 : 0 < m) {a b : ℤ}
    (h : Int.ModEq m (2 * a) (2 * b)) : Int.ModEq m a b := by
  have h1 : Int.gcd (m : ℤ) 2 = 1 := by
    simpa [Int.gcd] using gcd_two_of_odd m hm
  have h2 := Int.ModEq.cancel_left_div_gcd (show (0:ℤ) < m by exact_mod_cast hm0) h
  rwa [h1, Nat.cast_one, Int.ediv_one] at h2

/-- Adding the modulus preserves a residue. -/
theorem modEq_add_mul_left (m : Nat) (a : ℤ) : Int.ModEq m (a + m) a := by
  show (a + m) % (m : ℤ) = a % m
  have h : a + (m : ℤ) = a + m * 1 := by ring
  rw [h, Int.add_mul_emod_self_left]

/-- The swap/subtract phase preserves the `reciprocal` loop invariant,
leaves `y` even, and does not increase the product `x * y`. -/
theorem Uint256.recipAux_inv (m x0 X Y1 A B2 : Nat)
    (hXo : X % 2 = 1) (hX : X ≤ m) (hY : Y1 < m) (hA : A < m) (hB : B2 < m)
    (hcx : Int.ModEq m X (A * x0)) (hcy : Int.ModEq m Y1 (B2 * x0))
    (hg : Nat.gcd X Y1 = Nat.gcd m x0) :
    Uint256.RecipInv m x0 (Uint256.recipAux m X Y1 A B2) ∧
    (Uint256.recipAux m X Y1 A B2).y % 2 = 0 ∧
    (Uint256.recipAux m X Y1 A B2).x * (Uint256.recipAux m X Y1 A B2).y ≤ X * Y1 := by
  unfold Uint256.recipAux
  by_cases hodd : Y1 % 2 = 1
  · by_cases hsw : Y1 < X
    · rw [if_pos hodd, if_pos hsw]
      dsimp only [Uint256.RecipInv]
      by_cases hba : B2 ≤ A
      · rw [if_pos hba]
        refine ⟨⟨hodd, by omega, by omega, hB, by omega, hcy, ?_, ?_⟩, by omega, ?_⟩
        · have h1 := hcx.sub hcy
          have h2 : ((X : ℤ) - Y1) ≡ ((A : ℤ) - B2) * x0 [ZMOD (m : ℤ)] := by
            rw [sub_mul]; exact h1
          have hc1 : ((X - Y1 : Nat) : ℤ) = (X : ℤ) - Y1 := by
            push_cast [Nat.cast_sub (le_of_lt hsw)]; ring
          have hc2 : ((A - B2 : Nat) : ℤ) = (A : ℤ) - B2 := by
            push_cast [Nat.cast_sub hba]; ring
          show ((X - Y1 : Nat) : ℤ) ≡ ((A - B2 : Nat) : ℤ) * x0 [ZMOD (m : ℤ)]
          rw [hc1, hc2]; exact h2
        · show Nat.gcd Y1 (X - Y1) = Nat.gcd m x0
          rw [Nat.gcd_sub_self_right (le_of_lt hsw), Nat.gcd_comm]; exact hg
        · calc Y1 * (X - Y1) ≤ Y1 * X := Nat.mul_le_mul_left Y1 (Nat.sub_le X Y1)
            _ = X * Y1 := Nat.mul_comm Y1 X
      · rw [if_neg hba]
        refine ⟨⟨hodd, by omega, by omega, hB, by omega, hcy, ?_, ?_⟩, by omega, ?_⟩
        · have h1 := hcx.sub hcy
          have h2 : ((X : ℤ) - Y1) ≡ ((A : ℤ) - B2) * x0 [ZMOD (m : ℤ)] := by
            rw [sub_mul]; exact h1
          have h3 : ((A : ℤ) + m - B2) ≡ ((A : ℤ) - B2) [ZMOD (m : ℤ)] := by
            have h4 : (A : ℤ) + m - B2 = ((A : ℤ) - B2) + m := by ring
            rw [h4]; exact modEq_add_mul_left m _
          have hc1 : ((X - Y1 : Nat) : ℤ) = (X : ℤ) - Y1 := by
            push_cast [Nat.cast_sub (le_of_lt hsw)]; ring
          have hc2 : ((A + m - B2 : Nat) : ℤ) = (A : ℤ) + m - B2 := by
            push_cast [Nat.cast_sub (show B2 ≤ A + m by omega)]; ring
          show ((X - Y1 : Nat) : ℤ) ≡ ((A + m - B2 : Nat) : ℤ) * x0 [ZMOD (m : ℤ)]
          rw [hc1, hc2]
          exact h2.trans ((h3.mul_right x0).symm)
        · show Nat.gcd Y1 (X - Y1) = Nat.gcd m x0
          rw [Nat.gcd_sub_self_right (le_of_lt hsw), Nat.gcd_comm]; exact hg
        · calc Y1 * (X - Y1) ≤ Y1 * X := Nat.mul_le_mul_left Y1 (Nat.sub_le X Y1)
            _ = X * Y1 := Nat.mul_comm Y1 X
    · have hxy : X ≤ Y1 := le_of_not_lt hsw
      rw [if_pos hodd, if_neg hsw]
      dsimp only [Uint256.RecipInv]
      by_cases hab : A ≤ B2
      · rw [if_pos hab]
        refine ⟨⟨hXo, hX, by omega, hA, by omega, hcx, ?_, ?_⟩, by omega, ?_⟩
        · have h1 := hcy.sub hcx
          have h2 : ((Y1 : ℤ) - X) ≡ ((B2 : ℤ) - A) * x0 [ZMOD (m : ℤ)] := by
            rw [sub_mul]; exact h1
          have hc1 : ((Y1 - X : Nat) : ℤ) = (Y1 : ℤ) - X := by
            push_cast [Nat.cast_sub hxy]; ring
          have hc2 : ((B2 - A : Nat) : ℤ) = (B2 : ℤ) - A := by
            push_cast [Nat.cast_sub hab]; ring
          show ((Y1 - X : Nat) : ℤ) ≡ ((B2 - A : Nat) : ℤ) * x0 [ZMOD (m : ℤ)]
          rw [hc1, hc2]; exact h2
        · show Nat.gcd X (Y1 - X) = Nat.gcd m x0
          rw [Nat.gcd_sub_self_right hxy]; exact hg
        · exact Nat.mul_le_mul_left X (Nat.sub_le Y1 X)
      · rw [if_neg hab]
        refine ⟨⟨hXo, hX, by omega, hA, by omega, hcx, ?_, ?_⟩, by omega, ?_⟩
        · have h1 := hcy.sub hcx
          have h2 : ((Y1 : ℤ) - X) ≡ ((B2 : ℤ) - A) * x0 [ZMOD (m : ℤ)] := by
            rw [sub_mul]; exact h1
          have h3 : ((B2 : ℤ) + m - A) ≡ ((B2 : ℤ) - A) [ZMOD (m : ℤ)] := by
            have h4 : (B2 : ℤ) + m - A = ((B2 : ℤ) - A) + m := by ring
            rw [h4]; exact modEq_add_mul_left m _
          have hc1 : ((Y1 - X : Nat) : ℤ) = (Y1 : ℤ) - X := by
            push_cast [Nat.cast_sub hxy]; ring
          have hc2 : ((B2 + m - A : Nat) : ℤ) = (B2 : ℤ) + m - A := by
            push_cast [Nat.cast_sub (show A ≤ B2 + m by omega)]; ring
          show ((Y1 - X : Nat) : ℤ) ≡ ((B2 + m - A : Nat) : ℤ) * x0 [ZMOD (m : ℤ)]
          rw [hc1, hc2]
          exact h2.trans ((h3.mul_right x0).symm)
        · show Nat.gcd X (Y1 - X) = Nat.gcd m x0
          rw [Nat.gcd_sub_self_right hxy]; exact hg
        · exact Nat.mul_le_mul_left X (Nat.sub_le Y1 X)
  · rw [if_neg hodd]
    dsimp only [Uint256.RecipInv]
    exact ⟨⟨hXo, hX, hY, hA, hB, hcx, hcy, hg⟩, by omega, le_refl _⟩

/-- A full `reciprocal` iteration preserves the loop invariant, leaves
`y` even, does not increase `x * y`, and at least halves `x * y`
whenever `y` was even on entry. -/
theorem Uint256.recipStep_inv (m x0 : Nat) (hmo : m % 2 = 1) (hmW : m + 1 < W)
    (s : Uint256.RecipState) (h : Uint256.RecipInv m x0 s) :
    Uint256.RecipInv m x0 (Uint256.recipStep m ((m + 1) / 2) s) ∧
    (Uint256.recipStep m ((m + 1) / 2) s).y % 2 = 0 ∧
    (s.y % 2 = 0 →
      2 * ((Uint256.recipStep m ((m + 1) / 2) s).x * (Uint256.recipStep m ((m + 1) / 2) s).y) ≤ s.x * s.y) ∧
    (Uint256.recipStep m ((m + 1) / 2) s).x * (Uint256.recipStep m ((m + 1) / 2) s).y ≤ s.x * s.y := by
  obtain ⟨hxo, hx, hy, ha, hb, hcx, hcy, hg⟩ := h
  rw [Uint256.recipStep_eq m hmW s hx hy ha hb]
  by_cases hye : s.y % 2 = 0
  · rw [if_pos hye]
    set B2 := if s.b % 2 = 1 then s.b / 2 + (m + 1) / 2 else s.b / 2 with hB2
    have hB2m : B2 < m := by rw [hB2]; split_ifs <;> omega
    have hY1 : 2 * (s.y / 2) = s.y := by omega
    have h2B2 : Int.ModEq m (2 * B2) s.b := by
      rw [hB2]; split_ifs with hbo
      · have hnat : 2 * (s.b / 2 + (m + 1) / 2) = s.b + m := by omega
        have hc : (2 : ℤ) * ((s.b / 2 + (m + 1) / 2 : Nat) : ℤ) = (s.b : ℤ) + m := by
          exact_mod_cast congrArg (fun n : Nat => (n : ℤ)) hnat
        rw [hc]
        exact (modEq_add_mul_left m (s.b : ℤ))
      · have hnat : 2 * (s.b / 2) = s.b := by omega
        have hc : (2 : ℤ) * ((s.b / 2 : Nat) : ℤ) = (s.b : ℤ) := by
          exact_mod_cast congrArg (fun n : Nat => (n : ℤ)) hnat
        rw [hc]
    have hcy2 : Int.ModEq m (s.y / 2) (B2 * x0) := by
      apply modEq_cancel_two m hmo (by omega)
      have hcY : (2 : ℤ) * ((s.y / 2 : Nat) : ℤ) = (s.y : ℤ) := by
        exact_mod_cast congrArg (fun n : Nat => (n : ℤ)) hY1
      have h1 : Int.ModEq m (2 * ((s.y / 2 : Nat) : ℤ)) ((s.b : ℤ) * x0) := by
        rw [hcY]; exact hcy
      have h2 : Int.ModEq m ((s.b : ℤ) * x0) (2 * ((B2 : ℤ) * x0)) := by
        have h3 := h2B2.symm.mul_right (x0 : ℤ)
        calc (s.b : ℤ) * x0 ≡ 2 * B2 * x0 [ZMOD (m : ℤ)] := h3
          _ = 2 * ((B2 : ℤ) * x0) := by ring
      exact h1.trans h2
    have hgA : Nat.gcd s.x (s.y / 2) = Nat.gcd m x0 := by
      have hcop : Nat.Coprime 2 s.x := (Nat.gcd_comm s.x 2).symm.trans (gcd_two_of_odd s.x hxo)
      have h4 := Nat.Coprime.gcd_mul_left_cancel_right (s.y / 2) hcop
      rw [hY1] at h4
      rw [← h4]; exact hg
    obtain ⟨hI, hev, hprod⟩ :=
      Uint256.recipAux_inv m x0 s.x (s.y / 2) s.a B2 hxo hx (by omega) ha hB2m hcx hcy2 hgA
    refine ⟨hI, hev, ?_, ?_⟩
    · intro _
      have h5 := Nat.mul_le_mul_left 2 hprod
      have h6 : 2 * (s.x * (s.y / 2)) = s.x * s.y := by
        calc 2 * (s.x * (s.y / 2)) = s.x * (2 * (s.y / 2)) := by ring
          _ = s.x * s.y := by rw [hY1]
      omega
    · have h5 : s.x * (s.y / 2) ≤ s.x * s.y :=
        Nat.mul_le_mul_left s.x (Nat.div_le_self s.y 2)
      omega
  · rw [if_neg hye]
    obtain ⟨hI, hev, hprod⟩ :=
      Uint256.recipAux_inv m x0 s.x s.y s.a s.b hxo hx hy ha hb hcx hcy hg
    exact ⟨hI, hev, fun h5 => absurd h5 hye, hprod⟩

/-- Running `k` iterations from an even-`y` invariant state divides the
product `x * y` by at least `2 ^ k`. -/
theorem Uint256.recip_iterate_inv (m x0 : Nat) (hmo : m % 2 = 1) (hmW : m + 1 < W)
    (k : Nat) (s : Uint256.RecipState) (h : Uint256.RecipInv m x0 s) (hev : s.y % 2 = 0) :
    Uint256.RecipInv m x0 (Uint256.iterate (Uint256.recipStep m ((m + 1) / 2)) k s) ∧
    (Uint256.iterate (Uint256.recipStep m ((m + 1) / 2)) k s).y % 2 = 0 ∧
    2 ^ k * ((Uint256.iterate (Uint256.recipStep m ((m + 1) / 2)) k s).x *
        (Uint256.iterate (Uint256.recipStep m ((m + 1) / 2)) k s).y) ≤ s.x * s.y := by
  induction k generalizing s with
  | zero => exact ⟨h, hev, by simp only [Uint256.iterate, one_mul, pow_zero]; exact le_refl (s.x * s.y)⟩
  | succ n ih =>
    obtain ⟨hI1, hev1, hhalf, _⟩ := Uint256.recipStep_inv m x0 hmo hmW s h
    obtain ⟨hI2, hev2, hle⟩ := ih (Uint256.recipStep m ((m + 1) / 2) s) hI1 hev1
    rw [show Uint256.iterate (Uint256.recipStep m ((m + 1) / 2)) (n + 1) s =
        Uint256.iterate (Uint256.recipStep m ((m + 1) / 2)) n (Uint256.recipStep m ((m + 1) / 2) s) from rfl]
    refine ⟨hI2, hev2, ?_⟩
    have h5 := Nat.mul_le_mul_left 2 hle
    have h6 := hhalf hev
    have h7 : 2 ^ (n + 1) * ((Uint256.iterate (Uint256.recipStep m ((m + 1) / 2)) n
          (Uint256.recipStep m ((m + 1) / 2) s)).x *
        (Uint256.iterate (Uint256.recipStep m ((m + 1) / 2)) n (Uint256.recipStep m ((m + 1) / 2) s)).y) =
        2 * (2 ^ n * ((Uint256.iterate (Uint256.recipStep m ((m + 1) / 2)) n
          (Uint256.recipStep m ((m + 1) / 2) s)).x *
        (Uint256.iterate (Uint256.recipStep m ((m + 1) / 2)) n (Uint256.recipStep m ((m + 1) / 2) s)).y)) := by
      ring
    omega

/-- After the full 512 iterations of `Uint256::reciprocal`, the loop
invariant holds and `y` has reached `0`: the first iteration makes `y`
even, the remaining 511 each halve `x * y < 2 ^ 512`, and an
invariant state with `x * y ≤ 1`, `x` odd and `y` even has `y = 0`. -/
theorem Uint256.recip_final_inv (m x0 : Nat) (hmo : m % 2 = 1) (hm1 : 1 < m) (hmW : m + 1 < W)
    (hx0m : x0 < m) :
    Uint256.RecipInv m x0 (Uint256.iterate (Uint256.recipStep m ((m + 1) / 2)) 512 ⟨m, x0, 0, 1⟩) ∧
    (Uint256.iterate (Uint256.recipStep m ((m + 1) / 2)) 512 ⟨m, x0, 0, 1⟩).y = 0 := by
  have hInv0 : Uint256.RecipInv m x0 ⟨m, x0, 0, 1⟩ := by
    dsimp only [Uint256.RecipInv]
    refine ⟨hmo, le_refl m, hx0m, by omega, by omega, ?_, ?_, rfl⟩
    · show Int.ModEq m ((m : Nat) : ℤ) (((0 : Nat) : ℤ) * (x0 : ℤ))
      simp only [Nat.cast_zero, zero_mul]
      show (m : ℤ) % m = 0 % m
      simp [Int.emod_self]
    · show Int.ModEq m ((x0 : Nat) : ℤ) (((1 : Nat) : ℤ) * (x0 : ℤ))
      simp only [Nat.cast_one, one_mul]
      exact Int.ModEq.refl _
  obtain ⟨hI1, hev1, _, hp1⟩ := Uint256.recipStep_inv m x0 hmo hmW ⟨m, x0, 0, 1⟩ hInv0
  obtain ⟨hI2, hev2, hle⟩ :=
    Uint256.recip_iterate_inv m x0 hmo hmW 511 (Uint256.recipStep m ((m + 1) / 2) ⟨m, x0, 0, 1⟩) hI1 hev1
  rw [show (512 : Nat) = 511 + 1 from by norm_num,
    Uint256.iterate_succ (Uint256.recipStep m ((m + 1) / 2)) 511 ⟨m, x0, 0, 1⟩]
  refine ⟨hI2, ?_⟩
  dsimp only at hp1
  have hWW : (2 ^ 256 - 2) * (2 ^ 256 - 2) < 2 ^ 512 := by norm_num
  have hmx : m * x0 ≤ (2 ^ 256 - 2) * (2 ^ 256 - 2) := by
    have hmW2 : m ≤ 2 ^ 256 - 2 := by
      have := hmW; rw [W_lit] at this; omega
    exact Nat.mul_le_mul hmW2 (by omega)
  have hprod1 : 2 ^ 511 *
      ((Uint256.iterate (Uint256.recipStep m ((m + 1) / 2)) 511
          (Uint256.recipStep m ((m + 1) / 2) ⟨m, x0, 0, 1⟩)).x *
        (Uint256.iterate (Uint256.recipStep m ((m + 1) / 2)) 511
          (Uint256.recipStep m ((m + 1) / 2) ⟨m, x0, 0, 1⟩)).y) < 2 ^ 512 := by
    calc 2 ^ 511 * ((Uint256.iterate (Uint256.recipStep m ((m + 1) / 2)) 511
            (Uint256.recipStep m ((m + 1) / 2) ⟨m, x0, 0, 1⟩)).x *
          (Uint256.iterate (Uint256.recipStep m ((m + 1) / 2)) 511
            (Uint256.recipStep m ((m + 1) / 2) ⟨m, x0, 0, 1⟩)).y)
        ≤ (Uint256.recipStep m ((m + 1) / 2) ⟨m, x0, 0, 1⟩).x *
          (Uint256.recipStep m ((m + 1) / 2) ⟨m, x0, 0, 1⟩).y := hle
      _ ≤ m * x0 := hp1
      _ ≤ (2 ^ 256 - 2) * (2 ^ 256 - 2) := hmx
      _ < 2 ^ 512 := hWW
  have hprodF : (Uint256.iterate (Uint256.recipStep m ((m + 1) / 2)) 511
        (Uint256.recipStep m ((m + 1) / 2) ⟨m, x0, 0, 1⟩)).x *
      (Uint256.iterate (Uint256.recipStep m ((m + 1) / 2)) 511
        (Uint256.recipStep m ((m + 1) / 2) ⟨m, x0, 0, 1⟩)).y ≤ 1 := by
    by_contra hcon
    push_neg at hcon
    have h8 := Nat.mul_le_mul_left (2 ^ 511) hcon
    have h9 : (2 : Nat) ^ 511 * 2 = 2 ^ 512 := by norm_num [Nat.pow_succ]
    omega
  obtain ⟨hxoF, _, _, _, _, _, _, _⟩ := hI2
  by_contra hy0
  have hy2 : 2 ≤ (Uint256.iterate (Uint256.recipStep m ((m + 1) / 2)) 511
      (Uint256.recipStep m ((m + 1) / 2) ⟨m, x0, 0, 1⟩)).y := by omega
  have hx1 : 1 ≤ (Uint256.iterate (Uint256.recipStep m ((m + 1) / 2)) 511
      (Uint256.recipStep m ((m + 1) / 2) ⟨m, x0, 0, 1⟩)).x := by omega
  have h10 : 1 * 2 ≤ (Uint256.iterate (Uint256.recipStep m ((m + 1) / 2)) 511
        (Uint256.recipStep m ((m + 1) / 2) ⟨m, x0, 0, 1⟩)).x *
      (Uint256.iterate (Uint256.recipStep m ((m + 1) / 2)) 511
        (Uint256.recipStep m ((m + 1) / 2) ⟨m, x0, 0, 1⟩)).y :=
    Nat.mul_le_mul hx1 hy2
  omega

/-- The result of `Uint256::reciprocal` is below the modulus (this
needs no coprimality and is what `FieldInt`/`Ecdsa` closure uses). -/
theorem Uint256.reciprocal_lt (x0 m : Nat) (hmo : m % 2 = 1) (hm1 : 1 < m) (hmW : m + 1 < W)
    (hx0m : x0 < m) : Uint256.reciprocal x0 m < m := by
  unfold Uint256.reciprocal
  rw [Nat.mod_eq_of_lt hmW]
  by_cases hx0 : x0 = 0
  · simp only [Uint256.replace, hx0, ne_eq, decide_not]
    simp
    omega
  · obtain ⟨hI, _⟩ := Uint256.recip_final_inv m x0 hmo hm1 hmW hx0m
    obtain ⟨_, _, _, haF, _, _, _, _⟩ := hI
    simp only [Uint256.replace, hx0, ne_eq, decide_not]
    simp [hx0]
    exact haF

/-- For a nonzero argument coprime to the (odd, non-maximal) modulus,
`Uint256::reciprocal` returns a modular inverse. -/
theorem Uint256.reciprocal_inverse (x0 m : Nat) (hmo : m % 2 = 1) (hm1 : 1 < m) (hmW : m + 1 < W)
    (hx0 : x0 ≠ 0) (hx0m : x0 < m) (hcop : Nat.gcd x0 m = 1) :
    x0 * Uint256.reciprocal x0 m % m = 1 := by
  obtain ⟨hI, hyF⟩ := Uint256.recip_final_inv m x0 hmo hm1 hmW hx0m
  obtain ⟨hxoF, hxF, _, haF, _, hcxF, _, hgF⟩ := hI
  rw [hyF, Nat.gcd_zero_right] at hgF
  have hxF1 : (Uint256.iterate (Uint256.recipStep m ((m + 1) / 2)) 512 ⟨m, x0, 0, 1⟩).x = 1 := by
    rw [hgF, Nat.gcd_comm]; exact hcop
  rw [hxF1] at hcxF
  have hc2 : ((Uint256.iterate (Uint256.recipStep m ((m + 1) / 2)) 512 ⟨m, x0, 0, 1⟩).a * x0) % m
      = 1 % m := by
    have h3 : (((Uint256.iterate (Uint256.recipStep m ((m + 1) / 2)) 512 ⟨m, x0, 0, 1⟩).a * x0 : Nat) : ℤ)
        % (m : ℤ) = ((1 : Nat) : ℤ) % (m : ℤ) := by
      push_cast
      exact hcxF.symm
    exact_mod_cast h3
  unfold Uint256.reciprocal
  rw [Nat.mod_eq_of_lt hmW]
  simp only [Uint256.replace, ne_eq, decide_not]
  simp [hx0]
  rw [Nat.mul_comm]
  rw [Nat.mod_eq_of_lt hm1] at hc2
  exact hc2

/-- A modular inverse below the modulus is unique. -/
theorem inverse_unique (m x v w : Nat) (hm1 : 1 < m) (hv : v < m) (hw : w < m)
    (h1 : x * v % m = 1) (h2 : x * w % m = 1) : v = w := by
  have hv1 : Nat.ModEq m (x * v) 1 := by
    show (x * v) % m = 1 % m
    rw [h1, Nat.mod_eq_of_lt hm1]
  have hw1 : Nat.ModEq m (x * w) 1 := by
    show (x * w) % m = 1 % m
    rw [h2, Nat.mod_eq_of_lt hm1]
  have h3 : Nat.ModEq m v w := by
    calc v = v * 1 := (mul_one v).symm
      _ ≡ v * (x * w) [MOD m] := (hw1.symm.mul_left v)
      _ = w * (x * v) := by ring
      _ ≡ w * 1 [MOD m] := (hv1.mul_left w)
      _ = w := mul_one w
  have h4 : v % m = w % m := h3
  rw [Nat.mod_eq_of_lt hv, Nat.mod_eq_of_lt hw] at h4
  exact h4

/-! ## Concrete evaluations of the embedded functions

The kernel cannot reduce a 512-iteration loop in one step without
overflowing its stack, so each fixed-count loop is evaluated in
chunks glued by `Uint256.iterate_glue`, and the surrounding
functions are assembled from the evaluated components by the
assembly lemmas above. -/

set_option maxRecDepth 100000
set_option exponentiation.threshold 1024

theorem evalC4_recipc0 : Uint256.iterate (Uint256.recipStep 115792089237316195423570985008687907853269984665640564039457584007913129639935 0) 64 ⟨115792089237316195423570985008687907853269984665640564039457584007913129639935, 2, 0, 1⟩ = ⟨1, 12554203470773361527671578846415332832204710888928069025790, 0, 0⟩ := by rfl

theorem evalC4_recipc1 : Uint256.iterate (Uint256.recipStep 115792089237316195423570985008687907853269984665640564039457584007913129639935 0) 64 ⟨1, 12554203470773361527671578846415332832204710888928069025790, 0, 0⟩ = ⟨1, 680564733841876926926749214863536422910, 0, 0⟩ := by rfl

theorem evalC4_recipc2 : Uint256.iterate (Uint256.recipStep 115792089237316195423570985008687907853269984665640564039457584007913129639935 0) 64 ⟨1, 680564733841876926926749214863536422910, 0, 0⟩ = ⟨1, 36893488147419103230, 0, 0⟩ := by rfl

theorem evalC4_recipc3 : Uint256.iterate (Uint256.recipStep 115792089237316195423570985008687907853269984665640564039457584007913129639935 0) 64 ⟨1, 36893488147419103230, 0, 0⟩ = ⟨1, 0, 0, 0⟩ := by rfl

theorem evalC4_recipc4 : Uint256.iterate (Uint256.recipStep 115792089237316195423570985008687907853269984665640564039457584007913129639935 0) 64 ⟨1, 0, 0, 0⟩ = ⟨1, 0, 0, 0⟩ := by rfl

theorem evalC4_recipc5 : Uint256.iterate (Uint256.recipStep 115792089237316195423570985008687907853269984665640564039457584007913129639935 0) 64 ⟨1, 0, 0, 0⟩ = ⟨1, 0, 0, 0⟩ := by rfl

theorem evalC4_recipc6 : Uint256.iterate (Uint256.recipStep 115792089237316195423570985008687907853269984665640564039457584007913129639935 0) 64 ⟨1, 0, 0, 0⟩ = ⟨1, 0, 0, 0⟩ := by rfl

theorem evalC4_recipc7 : Uint256.iterate (Uint256.recipStep 115792089237316195423570985008687907853269984665640564039457584007913129639935 0) 64 ⟨1, 0, 0, 0⟩ = ⟨1, 0, 0, 0⟩ := by rfl

theorem evalC4_recip : Uint256.reciprocal 2 115792089237316195423570985008687907853269984665640564039457584007913129639935 = 0 := by
  have h : Uint256.iterate (Uint256.recipStep 115792089237316195423570985008687907853269984665640564039457584007913129639935 0) 512 ⟨115792089237316195423570985008687907853269984665640564039457584007913129639935, 2, 0, 1⟩ = ⟨1, 0, 0, 0⟩ := (Uint256.iterate_glue (Uint256.recipStep 115792089237316195423570985008687907853269984665640564039457584007913129639935 0) 64 448 evalC4_recipc0 (Uint256.iterate_glue (Uint256.recipStep 115792089237316195423570985008687907853269984665640564039457584007913129639935 0) 64 384 evalC4_recipc1 (Uint256.iterate_glue (Uint256.recipStep 115792089237316195423570985008687907853269984665640564039457584007913129639935 0) 64 320 evalC4_recipc2 (Uint256.iterate_glue (Uint256.recipStep 115792089237316195423570985008687907853269984665640564039457584007913129639935 0) 64 256 evalC4_recipc3 (Uint256.iterate_glue (Uint256.recipStep 115792089237316195423570985008687907853269984665640564039457584007913129639935 0) 64 192 evalC4_recipc4 (Uint256.iterate_glue (Uint256.recipStep 115792089237316195423570985008687907853269984665640564039457584007913129639935 0) 64 128 evalC4_recipc5 (Uint256.iterate_glue (Uint256.recipStep 115792089237316195423570985008687907853269984665640564039457584007913129639935 0) 64 64 evalC4_recipc6 evalC4_recipc7)))))))
  show Uint256.replace 2 (Uint256.iterate (Uint256.recipStep 115792089237316195423570985008687907853269984665640564039457584007913129639935 ((115792089237316195423570985008687907853269984665640564039457584007913129639935 + 1) % W / 2)) 512 ⟨115792089237316195423570985008687907853269984665640564039457584007913129639935, 2, 0, 1⟩).a (decide (2 ≠ 0)) = 0
  rw [show ((115792089237316195423570985008687907853269984665640564039457584007913129639935 + 1) % W / 2) = 0 from by rfl]
  rw [h]
  rfl

theorem evalC2_mulc0 : Uint256.iterate (CurvePoint.windowStep tblG 1) 4 (64, CurvePoint.ZERO) = (60, ⟨0, 1, 0⟩) := by rfl

theorem evalC2_mulc1 : Uint256.iterate (CurvePoint.windowStep tblG 1) 4 (60, ⟨0, 1, 0⟩) = (56, ⟨0, 1, 0⟩) := by rfl

theorem evalC2_mulc2 : Uint256.iterate (CurvePoint.windowStep tblG 1) 4 (56, ⟨0, 1, 0⟩) = (52, ⟨0, 1, 0⟩) := by rfl

theorem evalC2_mulc3 : Uint256.iterate (CurvePoint.windowStep tblG 1) 4 (52, ⟨0, 1, 0⟩) = (48, ⟨0, 1, 0⟩) := by rfl

theorem evalC2_mulc4 : Uint256.iterate (CurvePoint.windowStep tblG 1) 4 (48, ⟨0, 1, 0⟩) = (44, ⟨0, 1, 0⟩) := by rfl

theorem evalC2_mulc5 : Uint256.iterate (CurvePoint.windowStep tblG 1) 4 (44, ⟨0, 1, 0⟩) = (40, ⟨0, 1, 0⟩) := by rfl

theorem evalC2_mulc6 : Uint256.iterate (CurvePoint.windowStep tblG 1) 4 (40, ⟨0, 1, 0⟩) = (36, ⟨0, 1, 0⟩) := by rfl

theorem evalC2_mulc7 : Uint256.iterate (CurvePoint.windowStep tblG 1) 4 (36, ⟨0, 1, 0⟩) = (32, ⟨0, 1, 0⟩) := by rfl

theorem evalC2_mulc8 : Uint256.iterate (CurvePoint.windowStep tblG 1) 4 (32, ⟨0, 1, 0⟩) = (28, ⟨0, 1, 0⟩) := by rfl

theorem evalC2_mulc9 : Uint256.iterate (CurvePoint.windowStep tblG 1) 4 (28, ⟨0, 1, 0⟩) = (24, ⟨0, 1, 0⟩) := by rfl

theorem evalC2_mulc10 : Uint256.iterate (CurvePoint.windowStep tblG 1) 4 (24, ⟨0, 1, 0⟩) = (20, ⟨0, 1, 0⟩) := by rfl

theorem evalC2_mulc11 : Uint256.iterate (CurvePoint.windowStep tblG 1) 4 (20, ⟨0, 1, 0⟩) = (16, ⟨0, 1, 0⟩) := by rfl

theorem evalC2_mulc12 : Uint256.iterate (CurvePoint.windowStep tblG 1) 4 (16, ⟨0, 1, 0⟩) = (12, ⟨0, 1, 0⟩) := by rfl

theorem evalC2_mulc13 : Uint256.iterate (CurvePoint.windowStep tblG 1) 4 (12, ⟨0, 1, 0⟩) = (8, ⟨0, 1, 0⟩) := by rfl

theorem evalC2_mulc14 : Uint256.iterate (CurvePoint.windowStep tblG 1) 4 (8, ⟨0, 1, 0⟩) = (4, ⟨0, 1, 0⟩) := by rfl

theorem evalC2_mulc15 : Uint256.iterate (CurvePoint.windowStep tblG 1) 4 (4, ⟨0, 1, 0⟩) = (0, ⟨55066263022277343669578718895168534326250603453777594175500187360389116729240, 32670510020758816978083085130507043184471273380659243275938904335757337482424, 1⟩) := by rfl

theorem evalC2_mul : CurvePoint.multiply CurvePoint.G 1 = ⟨55066263022277343669578718895168534326250603453777594175500187360389116729240, 32670510020758816978083085130507043184471273380659243275938904335757337482424, 1⟩ := by
  have ht : CurvePoint.table CurvePoint.G = tblG := by rfl
  have h : Uint256.iterate (CurvePoint.windowStep tblG 1) 64 (64, CurvePoint.ZERO) = (0, ⟨55066263022277343669578718895168534326250603453777594175500187360389116729240, 32670510020758816978083085130507043184471273380659243275938904335757337482424, 1⟩) := (Uint256.iterate_glue (CurvePoint.windowStep tblG 1) 4 60 evalC2_mulc0 (Uint256.iterate_glue (CurvePoint.windowStep tblG 1) 4 56 evalC2_mulc1 (Uint256.iterate_glue (CurvePoint.windowStep tblG 1) 4 52 evalC2_mulc2 (Uint256.iterate_glue (CurvePoint.windowStep tblG 1) 4 48 evalC2_mulc3 (Uint256.iterate_glue (CurvePoint.windowStep tblG 1) 4 44 evalC2_mulc4 (Uint256.iterate_glue (CurvePoint.windowStep tblG 1) 4 40 evalC2_mulc5 (Uint256.iterate_glue (CurvePoint.windowStep tblG 1) 4 36 evalC2_mulc6 (Uint256.iterate_glue (CurvePoint.windowStep tblG 1) 4 32 evalC2_mulc7 (Uint256.iterate_glue (CurvePoint.windowStep tblG 1) 4 28 evalC2_mulc8 (Uint256.iterate_glue (CurvePoint.windowStep tblG 1) 4 24 evalC2_mulc9 (Uint256.iterate_glue (CurvePoint.windowStep tblG 1) 4 20 evalC2_mulc10 (Uint256.iterate_glue (CurvePoint.windowStep tblG 1) 4 16 evalC2_mulc11 (Uint256.iterate_glue (CurvePoint.windowStep tblG 1) 4 12 evalC2_mulc12 (Uint256.iterate_glue (CurvePoint.windowStep tblG 1) 4 8 evalC2_mulc13 (Uint256.iterate_glue (CurvePoint.windowStep tblG 1) 4 4 evalC2_mulc14 evalC2_mulc15)))))))))))))))
  show (Uint256.iterate (CurvePoint.windowStep (CurvePoint.table CurvePoint.G) 1) 64 (64, CurvePoint.ZERO)).2 = ⟨55066263022277343669578718895168534326250603453777594175500187360389116729240, 32670510020758816978083085130507043184471273380659243275938904335757337482424, 1⟩
  rw [ht, h]

theorem evalC2_recZc0 : Uint256.iterate (Uint256.recipStep FieldInt.MODULUS 57896044618658097711785492504343953926634992332820282019728792003954417335832) 64 ⟨FieldInt.MODULUS, 1, 0, 1⟩ = ⟨1, 12554203470773361527671578846415332832204710888928069025790, 1, 12554203470773361527671578846415332832204710888928069025790⟩ := by rfl

theorem evalC2_recZc1 : Uint256.iterate (Uint256.recipStep FieldInt.MODULUS 57896044618658097711785492504343953926634992332820282019728792003954417335832) 64 ⟨1, 12554203470773361527671578846415332832204710888928069025790, 1, 12554203470773361527671578846415332832204710888928069025790⟩ = ⟨1, 680564733841876926926749214863536422910, 1, 680564733841876926926749214863536422910⟩ := by rfl

theorem evalC2_recZc2 : Uint256.iterate (Uint256.recipStep FieldInt.MODULUS 57896044618658097711785492504343953926634992332820282019728792003954417335832) 64 ⟨1, 680564733841876926926749214863536422910, 1, 680564733841876926926749214863536422910⟩ = ⟨1, 36893488147419103230, 1, 36893488147419103230⟩ := by rfl

theorem evalC2_recZc3 : Uint256.iterate (Uint256.recipStep FieldInt.MODULUS 57896044618658097711785492504343953926634992332820282019728792003954417335832) 64 ⟨1, 36893488147419103230, 1, 36893488147419103230⟩ = ⟨1, 0, 1, 0⟩ := by rfl

theorem evalC2_recZc4 : Uint256.iterate (Uint256.recipStep FieldInt.MODULUS 57896044618658097711785492504343953926634992332820282019728792003954417335832) 64 ⟨1, 0, 1, 0⟩ = ⟨1, 0, 1, 0⟩ := by rfl

theorem evalC2_recZc5 : Uint256.iterate (Uint256.recipStep FieldInt.MODULUS 57896044618658097711785492504343953926634992332820282019728792003954417335832) 64 ⟨1, 0, 1, 0⟩ = ⟨1, 0, 1, 0⟩ := by rfl

theorem evalC2_recZc6 : Uint256.iterate (Uint256.recipStep FieldInt.MODULUS 57896044618658097711785492504343953926634992332820282019728792003954417335832) 64 ⟨1, 0, 1, 0⟩ = ⟨1, 0, 1, 0⟩ := by rfl

theorem evalC2_recZc7 : Uint256.iterate (Uint256.recipStep FieldInt.MODULUS 57896044618658097711785492504343953926634992332820282019728792003954417335832) 64 ⟨1, 0, 1, 0⟩ = ⟨1, 0, 1, 0⟩ := by rfl

theorem evalC2_recZ : Uint256.reciprocal 1 FieldInt.MODULUS = 1 := by
  have h : Uint256.iterate (Uint256.recipStep FieldInt.MODULUS 57896044618658097711785492504343953926634992332820282019728792003954417335832) 512 ⟨FieldInt.MODULUS, 1, 0, 1⟩ = ⟨1, 0, 1, 0⟩ := (Uint256.iterate_glue (Uint256.recipStep FieldInt.MODULUS 57896044618658097711785492504343953926634992332820282019728792003954417335832) 64 448 evalC2_recZc0 (Uint256.iterate_glue (Uint256.recipStep FieldInt.MODULUS 57896044618658097711785492504343953926634992332820282019728792003954417335832) 64 384 evalC2_recZc1 (Uint256.iterate_glue (Uint256.recipStep FieldInt.MODULUS 57896044618658097711785492504343953926634992332820282019728792003954417335832) 64 320 evalC2_recZc2 (Uint256.iterate_glue (Uint256.recipStep FieldInt.MODULUS 57896044618658097711785492504343953926634992332820282019728792003954417335832) 64 256 evalC2_recZc3 (Uint256.iterate_glue (Uint256.recipStep FieldInt.MODULUS 57896044618658097711785492504343953926634992332820282019728792003954417335832) 64 192 evalC2_recZc4 (Uint256.iterate_glue (Uint256.recipStep FieldInt.MODULUS 57896044618658097711785492504343953926634992332820282019728792003954417335832) 64 128 evalC2_recZc5 (Uint256.iterate_glue (Uint256.recipStep FieldInt.MODULUS 57896044618658097711785492504343953926634992332820282019728792003954417335832) 64 64 evalC2_recZc6 evalC2_recZc7)))))))
  show Uint256.replace 1 (Uint256.iterate (Uint256.recipStep FieldInt.MODULUS ((FieldInt.MODULUS + 1) % W / 2)) 512 ⟨FieldInt.MODULUS, 1, 0, 1⟩).a (decide (1 ≠ 0)) = 1
  rw [show ((FieldInt.MODULUS + 1) % W / 2) = 57896044618658097711785492504343953926634992332820282019728792003954417335832 from by rfl]
  rw [h]
  rfl

theorem evalC2_norm : CurvePoint.normalize ⟨55066263022277343669578718895168534326250603453777594175500187360389116729240, 32670510020758816978083085130507043184471273380659243275938904335757337482424, 1⟩ = ⟨55066263022277343669578718895168534326250603453777594175500187360389116729240, 32670510020758816978083085130507043184471273380659243275938904335757337482424, 1⟩ :=
  (CurvePoint.normalize_eval 55066263022277343669578718895168534326250603453777594175500187360389116729240 32670510020758816978083085130507043184471273380659243275938904335757337482424 1 1 evalC2_recZ).trans (by rfl)

theorem evalC2_pub : CurvePoint.privateExponentToPublicPoint 1 = ⟨55066263022277343669578718895168534326250603453777594175500187360389116729240, 32670510020758816978083085130507043184471273380659243275938904335757337482424, 1⟩ :=
  CurvePoint.pub_eval 1 ⟨55066263022277343669578718895168534326250603453777594175500187360389116729240, 32670510020758816978083085130507043184471273380659243275938904335757337482424, 1⟩ ⟨55066263022277343669578718895168534326250603453777594175500187360389116729240, 32670510020758816978083085130507043184471273380659243275938904335757337482424, 1⟩ evalC2_mul evalC2_norm

theorem evalC2_signR : Ecdsa.signR 1 = 55066263022277343669578718895168534326250603453777594175500187360389116729240 :=
  (Ecdsa.signR_eval 1 ⟨55066263022277343669578718895168534326250603453777594175500187360389116729240, 32670510020758816978083085130507043184471273380659243275938904335757337482424, 1⟩ evalC2_pub).trans (by rfl)

theorem evalC2_mmoc0 : Uint256.iterate (Ecdsa.mmoLoop 55066263022277343669578718895168534326250603453777594175500187360389116729240 102292441076079717484810683648744116131775059853544164836559860322781770096707) 32 (256, 0) = (224, 11984310559119970483946045537365090248911425562676589682364578179260609463725) := by rfl

theorem evalC2_mmoc1 : Uint256.iterate (Ecdsa.mmoLoop 55066263022277343669578718895168534326250603453777594175500187360389116729240 102292441076079717484810683648744116131775059853544164836559860322781770096707) 32 (224, 11984310559119970483946045537365090248911425562676589682364578179260609463725) = (192, 60178981773764040130865659151418498063723805344612022671736641524844477003635) := by rfl

theorem evalC2_mmoc2 : Uint256.iterate (Ecdsa.mmoLoop 55066263022277343669578718895168534326250603453777594175500187360389116729240 102292441076079717484810683648744116131775059853544164836559860322781770096707) 32 (192, 60178981773764040130865659151418498063723805344612022671736641524844477003635) = (160, 84398786739004199623520188758320974419702745490304251345912795281921800563668) := by rfl

theorem evalC2_mmoc3 : Uint256.iterate (Ecdsa.mmoLoop 55066263022277343669578718895168534326250603453777594175500187360389116729240 102292441076079717484810683648744116131775059853544164836559860322781770096707) 32 (160, 84398786739004199623520188758320974419702745490304251345912795281921800563668) = (128, 64052544062289698114117330717564387844437029483536225700121915015278761543053) := by rfl

theorem evalC2_mmoc4 : Uint256.iterate (Ecdsa.mmoLoop 55066263022277343669578718895168534326250603453777594175500187360389116729240 102292441076079717484810683648744116131775059853544164836559860322781770096707) 32 (128, 64052544062289698114117330717564387844437029483536225700121915015278761543053) = (96, 89400598356350668023975067254399188482610736091651370640148110033386022922777) := by rfl

theorem evalC2_mmoc5 : Uint256.iterate (Ecdsa.mmoLoop 55066263022277343669578718895168534326250603453777594175500187360389116729240 102292441076079717484810683648744116131775059853544164836559860322781770096707) 32 (96, 89400598356350668023975067254399188482610736091651370640148110033386022922777) = (64, 111790688486096326770311776639352351984385563930230003060934890529913252511997) := by rfl

theorem evalC2_mmoc6 : Uint256.iterate (Ecdsa.mmoLoop 55066263022277343669578718895168534326250603453777594175500187360389116729240 102292441076079717484810683648744116131775059853544164836559860322781770096707) 32 (64, 111790688486096326770311776639352351984385563930230003060934890529913252511997) = (32, 32165386341166854337870903084249693343690134575409534001805374140508132658828) := by rfl

theorem evalC2_mmoc7 : Uint256.iterate (Ecdsa.mmoLoop 55066263022277343669578718895168534326250603453777594175500187360389116729240 102292441076079717484810683648744116131775059853544164836559860322781770096707) 32 (32, 32165386341166854337870903084249693343690134575409534001805374140508132658828) = (0, 115792089237316195423570985008687907852837564279074904382605163141518161494336) := by rfl

theorem evalC2_mmo : Ecdsa.multiplyModOrder 55066263022277343669578718895168534326250603453777594175500187360389116729240 102292441076079717484810683648744116131775059853544164836559860322781770096707 = 115792089237316195423570985008687907852837564279074904382605163141518161494336 := by
  have h : Uint256.iterate (Ecdsa.mmoLoop 55066263022277343669578718895168534326250603453777594175500187360389116729240 102292441076079717484810683648744116131775059853544164836559860322781770096707) 256 (256, 0) = (0, 115792089237316195423570985008687907852837564279074904382605163141518161494336) := (Uint256.iterate_glue (Ecdsa.mmoLoop 55066263022277343669578718895168534326250603453777594175500187360389116729240 102292441076079717484810683648744116131775059853544164836559860322781770096707) 32 224 evalC2_mmoc0 (Uint256.iterate_glue (Ecdsa.mmoLoop 55066263022277343669578718895168534326250603453777594175500187360389116729240 102292441076079717484810683648744116131775059853544164836559860322781770096707) 32 192 evalC2_mmoc1 (Uint256.iterate_glue (Ecdsa.mmoLoop 55066263022277343669578718895168534326250603453777594175500187360389116729240 102292441076079717484810683648744116131775059853544164836559860322781770096707) 32 160 evalC2_mmoc2 (Uint256.iterate_glue (Ecdsa.mmoLoop 55066263022277343669578718895168534326250603453777594175500187360389116729240 102292441076079717484810683648744116131775059853544164836559860322781770096707) 32 128 evalC2_mmoc3 (Uint256.iterate_glue (Ecdsa.mmoLoop 55066263022277343669578718895168534326250603453777594175500187360389116729240 102292441076079717484810683648744116131775059853544164836559860322781770096707) 32 96 evalC2_mmoc4 (Uint256.iterate_glue (Ecdsa.mmoLoop 55066263022277343669578718895168534326250603453777594175500187360389116729240 102292441076079717484810683648744116131775059853544164836559860322781770096707) 32 64 evalC2_mmoc5 (Uint256.iterate_glue (Ecdsa.mmoLoop 55066263022277343669578718895168534326250603453777594175500187360389116729240 102292441076079717484810683648744116131775059853544164836559860322781770096707) 32 32 evalC2_mmoc6 evalC2_mmoc7)))))))
  show (Uint256.iterate (Ecdsa.mmoLoop 55066263022277343669578718895168534326250603453777594175500187360389116729240 102292441076079717484810683648744116131775059853544164836559860322781770096707) 256 (256, 0)).2 = 115792089237316195423570985008687907852837564279074904382605163141518161494336
  rw [h]

theorem evalC2_inter : Ecdsa.signInter 102292441076079717484810683648744116131775059853544164836559860322781770096707 115792089237316195423570985008687907853269984665640564039457584007913129639935 1 = 115792089237316195423570985008687907853269984665640564039457584007913129639934 :=
  (Ecdsa.signInter_eval 102292441076079717484810683648744116131775059853544164836559860322781770096707 115792089237316195423570985008687907853269984665640564039457584007913129639935 1 55066263022277343669578718895168534326250603453777594175500187360389116729240 115792089237316195423570985008687907852837564279074904382605163141518161494336 evalC2_signR evalC2_mmo).trans (by rfl)

theorem evalC3_mulKc0 : Uint256.iterate (CurvePoint.windowStep tblG 105768646951723913941853410995499900226228655448451400499528392497076046348923) 4 (64, CurvePoint.ZERO) = (60, ⟨48779761506034975227890662580175179404735921993855041405003665020726007743451, 98561832244955660942584893457959226340934800004852561109513150520263419926209, 51281560401190238146258438160807704477196447125685929334292854962328410994106⟩) := by rfl

theorem evalC3_mulKc1 : Uint256.iterate (CurvePoint.windowStep tblG 105768646951723913941853410995499900226228655448451400499528392497076046348923) 4 (60, ⟨48779761506034975227890662580175179404735921993855041405003665020726007743451, 98561832244955660942584893457959226340934800004852561109513150520263419926209, 51281560401190238146258438160807704477196447125685929334292854962328410994106⟩) = (56, ⟨75783947121373538962787328362397452187550000943459202278928091189547719479691, 26144963698084084312338554053098152746656508158094814639243680248283648167692, 61166199520994272226717639716736959306857579387391152038574886914191271064946⟩) := by rfl

theorem evalC3_mulKc2 : Uint256.iterate (CurvePoint.windowStep tblG 105768646951723913941853410995499900226228655448451400499528392497076046348923) 4 (56, ⟨75783947121373538962787328362397452187550000943459202278928091189547719479691, 26144963698084084312338554053098152746656508158094814639243680248283648167692, 61166199520994272226717639716736959306857579387391152038574886914191271064946⟩) = (52, ⟨64012814640770793172087330313508551750925722951420314161465020541301738819114, 21396038918873083629921666249705496722585985613700071357421213116902756074165, 113844946305175507660314747651597530473693722981250083305447378316790580031525⟩) := by rfl

theorem evalC3_mulKc3 : Uint256.iterate (CurvePoint.windowStep tblG 105768646951723913941853410995499900226228655448451400499528392497076046348923) 4 (52, ⟨64012814640770793172087330313508551750925722951420314161465020541301738819114, 21396038918873083629921666249705496722585985613700071357421213116902756074165, 113844946305175507660314747651597530473693722981250083305447378316790580031525⟩) = (48, ⟨65028776929111566009772587362827484469131625375298445443676897681875129173342, 13289703852338595211840655077305511659017880647386650045113958540430296240697, 53292527420576278083765506160895189652454454261681185106924259185744957327764⟩) := by rfl

theorem evalC3_mulKc4 : Uint256.iterate (CurvePoint.windowStep tblG 105768646951723913941853410995499900226228655448451400499528392497076046348923) 4 (48, ⟨65028776929111566009772587362827484469131625375298445443676897681875129173342, 13289703852338595211840655077305511659017880647386650045113958540430296240697, 53292527420576278083765506160895189652454454261681185106924259185744957327764⟩) = (44, ⟨103141746011434499327441776631069661163042071118340289227715291627700979468925, 52934706683416170567877565431822035176862077199079174974394350744446552732080, 64863490170040959863623406230873334696374622630328804152348696825873008019882⟩) := by rfl

theorem evalC3_mulKc5 : Uint256.iterate (CurvePoint.windowStep tblG 105768646951723913941853410995499900226228655448451400499528392497076046348923) 4 (44, ⟨103141746011434499327441776631069661163042071118340289227715291627700979468925, 52934706683416170567877565431822035176862077199079174974394350744446552732080, 64863490170040959863623406230873334696374622630328804152348696825873008019882⟩) = (40, ⟨78884680602305672589622313412436702857301262033850020272575161342294341122262, 78989091642274754733317895246367161014649927005474450472246455000390847153338, 73212566929273410662025959605076895884144830710833064860476205087290683892637⟩) := by rfl

theorem evalC3_mulKc6 : Uint256.iterate (CurvePoint.windowStep tblG 105768646951723913941853410995499900226228655448451400499528392497076046348923) 4 (40, ⟨78884680602305672589622313412436702857301262033850020272575161342294341122262, 78989091642274754733317895246367161014649927005474450472246455000390847153338, 73212566929273410662025959605076895884144830710833064860476205087290683892637⟩) = (36, ⟨42250667591493053773768973758321075567595205827512017766777244972344729513536, 100913081703430169150755066511950105052204164675423883221949210040899684892157, 63738089197740684047638596755853221868554120474845799814021825888622286480633⟩) := by rfl

theorem evalC3_mulKc7 : Uint256.iterate (CurvePoint.windowStep tblG 105768646951723913941853410995499900226228655448451400499528392497076046348923) 4 (36, ⟨42250667591493053773768973758321075567595205827512017766777244972344729513536, 100913081703430169150755066511950105052204164675423883221949210040899684892157, 63738089197740684047638596755853221868554120474845799814021825888622286480633⟩) = (32, ⟨42734569688961563273087947151096611009632383628268600734953481474407436568865, 113729287903614326376776066366903129839403855492769645339902636853682300357364, 109496405004418149090217429977471832496897003979682179541576572482557010224209⟩) := by rfl

theorem evalC3_mulKc8 : Uint256.iterate (CurvePoint.windowStep tblG 105768646951723913941853410995499900226228655448451400499528392497076046348923) 4 (32, ⟨42734569688961563273087947151096611009632383628268600734953481474407436568865, 113729287903614326376776066366903129839403855492769645339902636853682300357364, 109496405004418149090217429977471832496897003979682179541576572482557010224209⟩) = (28, ⟨34549723970404599194919227613214315899542733459923792411840418777558861203766, 105870733339553142224719334105107806405234713568893797592433177015167848261180, 43330769083882784860311833845946347159351701231413923742946939627811950174721⟩) := by rfl

theorem evalC3_mulKc9 : Uint256.iterate (CurvePoint.windowStep tblG 105768646951723913941853410995499900226228655448451400499528392497076046348923) 4 (28, ⟨34549723970404599194919227613214315899542733459923792411840418777558861203766, 105870733339553142224719334105107806405234713568893797592433177015167848261180, 43330769083882784860311833845946347159351701231413923742946939627811950174721⟩) = (24, ⟨12286038883723631257821724225863432106604490517312201153039157365370908210469, 55490244130672543075640991679688277278920992050573404447050201161153570061030, 24825170665809013390977423426394679941399909836594770755939353865716133626041⟩) := by rfl

theorem evalC3_mulKc10 : Uint256.iterate (CurvePoint.windowStep tblG 105768646951723913941853410995499900226228655448451400499528392497076046348923) 4 (24, ⟨12286038883723631257821724225863432106604490517312201153039157365370908210469, 55490244130672543075640991679688277278920992050573404447050201161153570061030, 24825170665809013390977423426394679941399909836594770755939353865716133626041⟩) = (20, ⟨94930011586732357852910260385508046031676618106758560892920208648894379707088, 35688332361896611275520302021823315252861021658837896593592354197344962346453, 71227286583289566533037864448666545190936581186639854904572115075518027109685⟩) := by rfl

theorem evalC3_mulKc11 : Uint256.iterate (CurvePoint.windowStep tblG 105768646951723913941853410995499900226228655448451400499528392497076046348923) 4 (20, ⟨94930011586732357852910260385508046031676618106758560892920208648894379707088, 35688332361896611275520302021823315252861021658837896593592354197344962346453, 71227286583289566533037864448666545190936581186639854904572115075518027109685⟩) = (16, ⟨40769994635093103116424605695750704736528909221567814714412392958396280263444, 42632712113188901686056113980935230257109775098451725583549255668785395390447, 81558511269447523098379463594901523842517639018876386019773787666393136183018⟩) := by rfl

theorem evalC3_mulKc12 : Uint256.iterate (CurvePoint.windowStep tblG 105768646951723913941853410995499900226228655448451400499528392497076046348923) 4 (16, ⟨40769994635093103116424605695750704736528909221567814714412392958396280263444, 42632712113188901686056113980935230257109775098451725583549255668785395390447, 81558511269447523098379463594901523842517639018876386019773787666393136183018⟩) = (12, ⟨100711298135141743327755025282645036951565552839939863300543698174524992847319, 82850671137891503411398798843733563285876237855522814443722837902428689167957, 93798643802256388433836109158487214750979920345832769903908553404538712844441⟩) := by rfl

theorem evalC3_mulKc13 : Uint256.iterate (CurvePoint.windowStep tblG 105768646951723913941853410995499900226228655448451400499528392497076046348923) 4 (12, ⟨100711298135141743327755025282645036951565552839939863300543698174524992847319, 82850671137891503411398798843733563285876237855522814443722837902428689167957, 93798643802256388433836109158487214750979920345832769903908553404538712844441⟩) = (8, ⟨78679221489950725276985912313250503524058969038426879120125433142098203927650, 56223294949394540631659241931248215771307698740427913420351344172718466501421, 11316270459973121982467869344630132480311111747583713525137583999480494185303⟩) := by rfl

theorem evalC3_mulKc14 : Uint256.iterate (CurvePoint.windowStep tblG 105768646951723913941853410995499900226228655448451400499528392497076046348923) 4 (8, ⟨78679221489950725276985912313250503524058969038426879120125433142098203927650, 56223294949394540631659241931248215771307698740427913420351344172718466501421, 11316270459973121982467869344630132480311111747583713525137583999480494185303⟩) = (4, ⟨38067890536803588946077024069210546008284225210821039759626801441141200670291, 106311427194104731357139540754296487604867159995382410478888035634648786142114, 15573391486331233663794438691320722265851787083709766632669835651255138859870⟩) := by rfl

theorem evalC3_mulKc15 : Uint256.iterate (CurvePoint.windowStep tblG 105768646951723913941853410995499900226228655448451400499528392497076046348923) 4 (4, ⟨38067890536803588946077024069210546008284225210821039759626801441141200670291, 106311427194104731357139540754296487604867159995382410478888035634648786142114, 15573391486331233663794438691320722265851787083709766632669835651255138859870⟩) = (0, ⟨53478968386758827662235947667876955449529708130985509731532311327407066112229, 51243130706668789783835953610391332855501780897187697613129755062490557060323, 33152197792677232444582944831331868130960413013682133184312604193078069128813⟩) := by rfl

theorem evalC3_mulK : CurvePoint.multiply CurvePoint.G 105768646951723913941853410995499900226228655448451400499528392497076046348923 = ⟨53478968386758827662235947667876955449529708130985509731532311327407066112229, 51243130706668789783835953610391332855501780897187697613129755062490557060323, 33152197792677232444582944831331868130960413013682133184312604193078069128813⟩ := by
  have ht : CurvePoint.table CurvePoint.G = tblG := by rfl
  have h : Uint256.iterate (CurvePoint.windowStep tblG 105768646951723913941853410995499900226228655448451400499528392497076046348923) 64 (64, CurvePoint.ZERO) = (0, ⟨53478968386758827662235947667876955449529708130985509731532311327407066112229, 51243130706668789783835953610391332855501780897187697613129755062490557060323, 33152197792677232444582944831331868130960413013682133184312604193078069128813⟩) := (Uint256.iterate_glue (CurvePoint.windowStep tblG 105768646951723913941853410995499900226228655448451400499528392497076046348923) 4 60 evalC3_mulKc0 (Uint256.iterate_glue (CurvePoint.windowStep tblG 105768646951723913941853410995499900226228655448451400499528392497076046348923) 4 56 evalC3_mulKc1 (Uint256.iterate_glue (CurvePoint.windowStep tblG 105768646951723913941853410995499900226228655448451400499528392497076046348923) 4 52 evalC3_mulKc2 (Uint256.iterate_glue (CurvePoint.windowStep tblG 105768646951723913941853410995499900226228655448451400499528392497076046348923) 4 48 evalC3_mulKc3 (Uint256.iterate_glue (CurvePoint.windowStep tblG 105768646951723913941853410995499900226228655448451400499528392497076046348923) 4 44 evalC3_mulKc4 (Uint256.iterate_glue (CurvePoint.windowStep tblG 105768646951723913941853410995499900226228655448451400499528392497076046348923) 4 40 evalC3_mulKc5 (Uint256.iterate_glue (CurvePoint.windowStep tblG 105768646951723913941853410995499900226228655448451400499528392497076046348923) 4 36 evalC3_mulKc6 (Uint256.iterate_glue (CurvePoint.windowStep tblG 105768646951723913941853410995499900226228655448451400499528392497076046348923) 4 32 evalC3_mulKc7 (Uint256.iterate_glue (CurvePoint.windowStep tblG 105768646951723913941853410995499900226228655448451400499528392497076046348923) 4 28 evalC3_mulKc8 (Uint256.iterate_glue (CurvePoint.windowStep tblG 105768646951723913941853410995499900226228655448451400499528392497076046348923) 4 24 evalC3_mulKc9 (Uint256.iterate_glue (CurvePoint.windowStep tblG 105768646951723913941853410995499900226228655448451400499528392497076046348923) 4 20 evalC3_mulKc10 (Uint256.iterate_glue (CurvePoint.windowStep tblG 105768646951723913941853410995499900226228655448451400499528392497076046348923) 4 16 evalC3_mulKc11 (Uint256.iterate_glue (CurvePoint.windowStep tblG 105768646951723913941853410995499900226228655448451400499528392497076046348923) 4 12 evalC3_mulKc12 (Uint256.iterate_glue (CurvePoint.windowStep tblG 105768646951723913941853410995499900226228655448451400499528392497076046348923) 4 8 evalC3_mulKc13 (Uint256.iterate_glue (CurvePoint.windowStep tblG 105768646951723913941853410995499900226228655448451400499528392497076046348923) 4 4 evalC3_mulKc14 evalC3_mulKc15)))))))))))))))
  show (Uint256.iterate (CurvePoint.windowStep (CurvePoint.table CurvePoint.G) 105768646951723913941853410995499900226228655448451400499528392497076046348923) 64 (64, CurvePoint.ZERO)).2 = ⟨53478968386758827662235947667876955449529708130985509731532311327407066112229, 51243130706668789783835953610391332855501780897187697613129755062490557060323, 33152197792677232444582944831331868130960413013682133184312604193078069128813⟩
  rw [ht, h]

theorem evalC3_recZKc0 : Uint256.iterate (Uint256.recipStep FieldInt.MODULUS 57896044618658097711785492504343953926634992332820282019728792003954417335832) 64 ⟨FieldInt.MODULUS, 33152197792677232444582944831331868130960413013682133184312604193078069128813, 0, 1⟩ = ⟨8762712791962507693626505309812451370552147182497607343493608167, 2966887401598808837735388378937183120748822152604223411212132082, 87878586228406584604125039250073721585564280869121013212710181076553707190453, 69648284522047026289809304358460465563981546239386353349336341056535279203711⟩ := by rfl

theorem evalC3_recZKc1 : Uint256.iterate (Uint256.recipStep FieldInt.MODULUS 57896044618658097711785492504343953926634992332820282019728792003954417335832) 64 ⟨8762712791962507693626505309812451370552147182497607343493608167, 2966887401598808837735388378937183120748822152604223411212132082, 87878586228406584604125039250073721585564280869121013212710181076553707190453, 69648284522047026289809304358460465563981546239386353349336341056535279203711⟩ = ⟨93622481227282035368582716337930979112204109599495, 191730851858005131067734297692731062695376222014112, 13666044811186952855885195516113875723088040988423360443987547889412300425854, 76912029937274223964533509459412234462952021856399826986965938549099026797286⟩ := by rfl

theorem evalC3_recZKc2 : Uint256.iterate (Uint256.recipStep FieldInt.MODULUS 57896044618658097711785492504343953926634992332820282019728792003954417335832) 64 ⟨93622481227282035368582716337930979112204109599495, 191730851858005131067734297692731062695376222014112, 13666044811186952855885195516113875723088040988423360443987547889412300425854, 76912029937274223964533509459412234462952021856399826986965938549099026797286⟩ = ⟨2691792376790244734266016962328489127, 15480313503826913209776698335685041714, 89418670485920686398804039218415739426734966377910625818118567431235156496516, 6525287733004249245635175872760227993975341334383393491640074964766026813747⟩ := by rfl

theorem evalC3_recZKc3 : Uint256.iterate (Uint256.recipStep FieldInt.MODULUS 57896044618658097711785492504343953926634992332820282019728792003954417335832) 64 ⟨2691792376790244734266016962328489127, 15480313503826913209776698335685041714, 89418670485920686398804039218415739426734966377910625818118567431235156496516, 6525287733004249245635175872760227993975341334383393491640074964766026813747⟩ = ⟨1164180861013522339083563, 1000072787309052179219840, 4678403477079286092454549539935988357612210447629464734012970223079205575659, 103952086895624961510042195343841051502213600518373834222825268478696279372744⟩ := by rfl

theorem evalC3_recZKc4 : Uint256.iterate (Uint256.recipStep FieldInt.MODULUS 57896044618658097711785492504343953926634992332820282019728792003954417335832) 64 ⟨1164180861013522339083563, 1000072787309052179219840, 4678403477079286092454549539935988357612210447629464734012970223079205575659, 103952086895624961510042195343841051502213600518373834222825268478696279372744⟩ = ⟨278143945723, 13060526886, 4570977589237602647428751357431068992245417409236748435896117799823217789591, 50858570131145260720098371202871497362552076967073400901650183819491346916196⟩ := by rfl

theorem evalC3_recZKc5 : Uint256.iterate (Uint256.recipStep FieldInt.MODULUS 57896044618658097711785492504343953926634992332820282019728792003954417335832) 64 ⟨278143945723, 13060526886, 4570977589237602647428751357431068992245417409236748435896117799823217789591, 50858570131145260720098371202871497362552076967073400901650183819491346916196⟩ = ⟨1, 0, 108581335086355215110082601496315851548320557561662952536959314697068678642651, 0⟩ := by rfl

theorem evalC3_recZKc6 : Uint256.iterate (Uint256.recipStep FieldInt.MODULUS 57896044618658097711785492504343953926634992332820282019728792003954417335832) 64 ⟨1, 0, 108581335086355215110082601496315851548320557561662952536959314697068678642651, 0⟩ = ⟨1, 0, 108581335086355215110082601496315851548320557561662952536959314697068678642651, 0⟩ := by rfl

theorem evalC3_recZKc7 : Uint256.iterate (Uint256.recipStep FieldInt.MODULUS 57896044618658097711785492504343953926634992332820282019728792003954417335832) 64 ⟨1, 0, 108581335086355215110082601496315851548320557561662952536959314697068678642651, 0⟩ = ⟨1, 0, 108581335086355215110082601496315851548320557561662952536959314697068678642651, 0⟩ := by rfl

theorem evalC3_recZK : Uint256.reciprocal 33152197792677232444582944831331868130960413013682133184312604193078069128813 FieldInt.MODULUS = 108581335086355215110082601496315851548320557561662952536959314697068678642651 := by
  have h : Uint256.iterate (Uint256.recipStep FieldInt.MODULUS 57896044618658097711785492504343953926634992332820282019728792003954417335832) 512 ⟨FieldInt.MODULUS, 33152197792677232444582944831331868130960413013682133184312604193078069128813, 0, 1⟩ = ⟨1, 0, 108581335086355215110082601496315851548320557561662952536959314697068678642651, 0⟩ := (Uint256.iterate_glue (Uint256.recipStep FieldInt.MODULUS 57896044618658097711785492504343953926634992332820282019728792003954417335832) 64 448 evalC3_recZKc0 (Uint256.iterate_glue (Uint256.recipStep FieldInt.MODULUS 57896044618658097711785492504343953926634992332820282019728792003954417335832) 64 384 evalC3_recZKc1 (Uint256.iterate_glue (Uint256.recipStep FieldInt.MODULUS 57896044618658097711785492504343953926634992332820282019728792003954417335832) 64 320 evalC3_recZKc2 (Uint256.iterate_glue (Uint256.recipStep FieldInt.MODULUS 57896044618658097711785492504343953926634992332820282019728792003954417335832) 64 256 evalC3_recZKc3 (Uint256.iterate_glue (Uint256.recipStep FieldInt.MODULUS 57896044618658097711785492504343953926634992332820282019728792003954417335832) 64 192 evalC3_recZKc4 (Uint256.iterate_glue (Uint256.recipStep FieldInt.MODULUS 57896044618658097711785492504343953926634992332820282019728792003954417335832) 64 128 evalC3_recZKc5 (Uint256.iterate_glue (Uint256.recipStep FieldInt.MODULUS 57896044618658097711785492504343953926634992332820282019728792003954417335832) 64 64 evalC3_recZKc6 evalC3_recZKc7)))))))
  show Uint256.replace 33152197792677232444582944831331868130960413013682133184312604193078069128813 (Uint256.iterate (Uint256.recipStep FieldInt.MODULUS ((FieldInt.MODULUS + 1) % W / 2)) 512 ⟨FieldInt.MODULUS, 33152197792677232444582944831331868130960413013682133184312604193078069128813, 0, 1⟩).a (decide (33152197792677232444582944831331868130960413013682133184312604193078069128813 ≠ 0)) = 108581335086355215110082601496315851548320557561662952536959314697068678642651
  rw [show ((FieldInt.MODULUS + 1) % W / 2) = 57896044618658097711785492504343953926634992332820282019728792003954417335832 from by rfl]
  rw [h]
  rfl

theorem evalC3_normK : CurvePoint.normalize ⟨53478968386758827662235947667876955449529708130985509731532311327407066112229, 51243130706668789783835953610391332855501780897187697613129755062490557060323, 33152197792677232444582944831331868130960413013682133184312604193078069128813⟩ = ⟨8860096921603464971976595934696543225392041326055525752222777777046320639136, 66356533448524810495847335281860370284447252942933908210378672487352829181082, 1⟩ :=
  (CurvePoint.normalize_eval 53478968386758827662235947667876955449529708130985509731532311327407066112229 51243130706668789783835953610391332855501780897187697613129755062490557060323 33152197792677232444582944831331868130960413013682133184312604193078069128813 108581335086355215110082601496315851548320557561662952536959314697068678642651 evalC3_recZK).trans (by rfl)

theorem evalC3_pubK : CurvePoint.privateExponentToPublicPoint 105768646951723913941853410995499900226228655448451400499528392497076046348923 = ⟨8860096921603464971976595934696543225392041326055525752222777777046320639136, 66356533448524810495847335281860370284447252942933908210378672487352829181082, 1⟩ :=
  CurvePoint.pub_eval 105768646951723913941853410995499900226228655448451400499528392497076046348923 ⟨53478968386758827662235947667876955449529708130985509731532311327407066112229, 51243130706668789783835953610391332855501780897187697613129755062490557060323, 33152197792677232444582944831331868130960413013682133184312604193078069128813⟩ ⟨8860096921603464971976595934696543225392041326055525752222777777046320639136, 66356533448524810495847335281860370284447252942933908210378672487352829181082, 1⟩ evalC3_mulK evalC3_normK

theorem evalC3_signR : Ecdsa.signR 105768646951723913941853410995499900226228655448451400499528392497076046348923 = 8860096921603464971976595934696543225392041326055525752222777777046320639136 :=
  (Ecdsa.signR_eval 105768646951723913941853410995499900226228655448451400499528392497076046348923 ⟨8860096921603464971976595934696543225392041326055525752222777777046320639136, 66356533448524810495847335281860370284447252942933908210378672487352829181082, 1⟩ evalC3_pubK).trans (by rfl)

theorem evalC3_mmo1c0 : Uint256.iterate (Ecdsa.mmoLoop 8860096921603464971976595934696543225392041326055525752222777777046320639136 21366308377510324815430457770613618840831374495454790736540387140414652221115) 32 (256, 0) = (224, 52624224194938628687273257853945561211158062516453198046598706787536754113109) := by rfl

theorem evalC3_mmo1c1 : Uint256.iterate (Ecdsa.mmoLoop 8860096921603464971976595934696543225392041326055525752222777777046320639136 21366308377510324815430457770613618840831374495454790736540387140414652221115) 32 (224, 52624224194938628687273257853945561211158062516453198046598706787536754113109) = (192, 28267228452753434851196700017920213051814231385426002424781518686662313079088) := by rfl

theorem evalC3_mmo1c2 : Uint256.iterate (Ecdsa.mmoLoop 8860096921603464971976595934696543225392041326055525752222777777046320639136 21366308377510324815430457770613618840831374495454790736540387140414652221115) 32 (192, 28267228452753434851196700017920213051814231385426002424781518686662313079088) = (160, 34019096007856689285057569800332016173503935340564124741953370198793986730091) := by rfl

theorem evalC3_mmo1c3 : Uint256.iterate (Ecdsa.mmoLoop 8860096921603464971976595934696543225392041326055525752222777777046320639136 21366308377510324815430457770613618840831374495454790736540387140414652221115) 32 (160, 34019096007856689285057569800332016173503935340564124741953370198793986730091) = (128, 65224406674611447058009281541698623549487184282825660393226907226471772994264) := by rfl

theorem evalC3_mmo1c4 : Uint256.iterate (Ecdsa.mmoLoop 8860096921603464971976595934696543225392041326055525752222777777046320639136 21366308377510324815430457770613618840831374495454790736540387140414652221115) 32 (128, 65224406674611447058009281541698623549487184282825660393226907226471772994264) = (96, 87640740436990147363561142158612695154444830503011418366102813928863678520146) := by rfl

theorem evalC3_mmo1c5 : Uint256.iterate (Ecdsa.mmoLoop 8860096921603464971976595934696543225392041326055525752222777777046320639136 21366308377510324815430457770613618840831374495454790736540387140414652221115) 32 (96, 87640740436990147363561142158612695154444830503011418366102813928863678520146) = (64, 78024060651751387006976805790653861629462346595835869037801521851908621996790) := by rfl

theorem evalC3_mmo1c6 : Uint256.iterate (Ecdsa.mmoLoop 8860096921603464971976595934696543225392041326055525752222777777046320639136 21366308377510324815430457770613618840831374495454790736540387140414652221115) 32 (64, 78024060651751387006976805790653861629462346595835869037801521851908621996790) = (32, 47242755489961559046619568673207694627384897095279280783064401695176317583663) := by rfl

theorem evalC3_mmo1c7 : Uint256.iterate (Ecdsa.mmoLoop 8860096921603464971976595934696543225392041326055525752222777777046320639136 21366308377510324815430457770613618840831374495454790736540387140414652221115) 32 (32, 47242755489961559046619568673207694627384897095279280783064401695176317583663) = (0, 115792089237316195423570985008687907852837564279074904382605163141518161494336) := by rfl

theorem evalC3_mmo1 : Ecdsa.multiplyModOrder 8860096921603464971976595934696543225392041326055525752222777777046320639136 21366308377510324815430457770613618840831374495454790736540387140414652221115 = 115792089237316195423570985008687907852837564279074904382605163141518161494336 := by
  have h : Uint256.iterate (Ecdsa.mmoLoop 8860096921603464971976595934696543225392041326055525752222777777046320639136 21366308377510324815430457770613618840831374495454790736540387140414652221115) 256 (256, 0) = (0, 115792089237316195423570985008687907852837564279074904382605163141518161494336) := (Uint256.iterate_glue (Ecdsa.mmoLoop 8860096921603464971976595934696543225392041326055525752222777777046320639136 21366308377510324815430457770613618840831374495454790736540387140414652221115) 32 224 evalC3_mmo1c0 (Uint256.iterate_glue (Ecdsa.mmoLoop 8860096921603464971976595934696543225392041326055525752222777777046320639136 21366308377510324815430457770613618840831374495454790736540387140414652221115) 32 192 evalC3_mmo1c1 (Uint256.iterate_glue (Ecdsa.mmoLoop 8860096921603464971976595934696543225392041326055525752222777777046320639136 21366308377510324815430457770613618840831374495454790736540387140414652221115) 32 160 evalC3_mmo1c2 (Uint256.iterate_glue (Ecdsa.mmoLoop 8860096921603464971976595934696543225392041326055525752222777777046320639136 21366308377510324815430457770613618840831374495454790736540387140414652221115) 32 128 evalC3_mmo1c3 (Uint256.iterate_glue (Ecdsa.mmoLoop 8860096921603464971976595934696543225392041326055525752222777777046320639136 21366308377510324815430457770613618840831374495454790736540387140414652221115) 32 96 evalC3_mmo1c4 (Uint256.iterate_glue (Ecdsa.mmoLoop 8860096921603464971976595934696543225392041326055525752222777777046320639136 21366308377510324815430457770613618840831374495454790736540387140414652221115) 32 64 evalC3_mmo1c5 (Uint256.iterate_glue (Ecdsa.mmoLoop 8860096921603464971976595934696543225392041326055525752222777777046320639136 21366308377510324815430457770613618840831374495454790736540387140414652221115) 32 32 evalC3_mmo1c6 evalC3_mmo1c7)))))))
  show (Uint256.iterate (Ecdsa.mmoLoop 8860096921603464971976595934696543225392041326055525752222777777046320639136 21366308377510324815430457770613618840831374495454790736540387140414652221115) 256 (256, 0)).2 = 115792089237316195423570985008687907852837564279074904382605163141518161494336
  rw [h]

theorem evalC3_inter : Ecdsa.signInter 21366308377510324815430457770613618840831374495454790736540387140414652221115 115792089237316195423570985008687907853269984665640564039457584007913129639935 105768646951723913941853410995499900226228655448451400499528392497076046348923 = 115792089237316195423570985008687907853269984665640564039457584007913129639934 :=
  (Ecdsa.signInter_eval 21366308377510324815430457770613618840831374495454790736540387140414652221115 115792089237316195423570985008687907853269984665640564039457584007913129639935 105768646951723913941853410995499900226228655448451400499528392497076046348923 8860096921603464971976595934696543225392041326055525752222777777046320639136 115792089237316195423570985008687907852837564279074904382605163141518161494336 evalC3_signR evalC3_mmo1).trans (by rfl)

theorem evalC3_kinvc0 : Uint256.iterate (Uint256.recipStep CurvePoint.ORDER 57896044618658097711785492504343953926418782139537452191302581570759080747169) 64 ⟨CurvePoint.ORDER, 105768646951723913941853410995499900226228655448451400499528392497076046348923, 0, 1⟩ = ⟨538200474224647605767220891917991839991943525579480287812786956981, 304559315857437832837851153905582590496494360798374763111374823354, 106211527785002660463675030235327781540655754899968368188926711333711180625309, 72593525748202036007385126805666862478812562979452285663968235396138528077488⟩ := by rfl

theorem evalC3_kinvc1 : Uint256.iterate (Uint256.recipStep CurvePoint.ORDER 57896044618658097711785492504343953926418782139537452191302581570759080747169) 64 ⟨538200474224647605767220891917991839991943525579480287812786956981, 304559315857437832837851153905582590496494360798374763111374823354, 106211527785002660463675030235327781540655754899968368188926711333711180625309, 72593525748202036007385126805666862478812562979452285663968235396138528077488⟩ = ⟨108812969664286475238991604018619680863551023932207, 1571163876605928261808693540533985524213356475342078, 43867849965499507971765722808274841076297718324585399704235877031687797780083, 87232345822750902162339382076874322342632797709117548611915366701533888614999⟩ := by rfl

theorem evalC3_kinvc2 : Uint256.iterate (Uint256.recipStep CurvePoint.ORDER 57896044618658097711785492504343953926418782139537452191302581570759080747169) 64 ⟨108812969664286475238991604018619680863551023932207, 1571163876605928261808693540533985524213356475342078, 43867849965499507971765722808274841076297718324585399704235877031687797780083, 87232345822750902162339382076874322342632797709117548611915366701533888614999⟩ = ⟨20163872943014612345144474376235297685, 12175522534432053395653578222583810242, 55716227185488291782191464034238174886967507513161870429245211191804996525387, 114475853197071693199087781491128878464122895878780570540231625226278880179298⟩ := by rfl

theorem evalC3_kinvc3 : Uint256.iterate (Uint256.recipStep CurvePoint.ORDER 57896044618658097711785492504343953926418782139537452191302581570759080747169) 64 ⟨20163872943014612345144474376235297685, 12175522534432053395653578222583810242, 55716227185488291782191464034238174886967507513161870429245211191804996525387, 114475853197071693199087781491128878464122895878780570540231625226278880179298⟩ = ⟨733653905895746828877641, 602258972664900571769636, 57896044618658018400059025439041454401665493644675016617832497283869600334102, 115792089237316130316306643217120114252398750448032872540547282246839156462160⟩ := by rfl

theorem evalC3_kinvc4 : Uint256.iterate (Uint256.recipStep CurvePoint.ORDER 57896044618658097711785492504343953926418782139537452191302581570759080747169) 64 ⟨733653905895746828877641, 602258972664900571769636, 57896044618658018400059025439041454401665493644675016617832497283869600334102, 115792089237316130316306643217120114252398750448032872540547282246839156462160⟩ = ⟨10705958705, 3506952408, 40839863920541683191168143137334412542575384475196772191584314393208757122454, 86874549796962622826055791433738102183706416430375658682507145000020667779462⟩ := by rfl

theorem evalC3_kinvc5 : Uint256.iterate (Uint256.recipStep CurvePoint.ORDER 57896044618658097711785492504343953926418782139537452191302581570759080747169) 64 ⟨10705958705, 3506952408, 40839863920541683191168143137334412542575384475196772191584314393208757122454, 86874549796962622826055791433738102183706416430375658682507145000020667779462⟩ = ⟨1, 0, 115734275042480446062414653308177288583681973079027140526823612372054931579379, 0⟩ := by rfl

theorem evalC3_kinvc6 : Uint256.iterate (Uint256.recipStep CurvePoint.ORDER 57896044618658097711785492504343953926418782139537452191302581570759080747169) 64 ⟨1, 0, 115734275042480446062414653308177288583681973079027140526823612372054931579379, 0⟩ = ⟨1, 0, 115734275042480446062414653308177288583681973079027140526823612372054931579379, 0⟩ := by rfl

theorem evalC3_kinvc7 : Uint256.iterate (Uint256.recipStep CurvePoint.ORDER 57896044618658097711785492504343953926418782139537452191302581570759080747169) 64 ⟨1, 0, 115734275042480446062414653308177288583681973079027140526823612372054931579379, 0⟩ = ⟨1, 0, 115734275042480446062414653308177288583681973079027140526823612372054931579379, 0⟩ := by rfl

theorem evalC3_kinv : Uint256.reciprocal 105768646951723913941853410995499900226228655448451400499528392497076046348923 CurvePoint.ORDER = 115734275042480446062414653308177288583681973079027140526823612372054931579379 := by
  have h : Uint256.iterate (Uint256.recipStep CurvePoint.ORDER 57896044618658097711785492504343953926418782139537452191302581570759080747169) 512 ⟨CurvePoint.ORDER, 105768646951723913941853410995499900226228655448451400499528392497076046348923, 0, 1⟩ = ⟨1, 0, 115734275042480446062414653308177288583681973079027140526823612372054931579379, 0⟩ := (Uint256.iterate_glue (Uint256.recipStep CurvePoint.ORDER 57896044618658097711785492504343953926418782139537452191302581570759080747169) 64 448 evalC3_kinvc0 (Uint256.iterate_glue (Uint256.recipStep CurvePoint.ORDER 57896044618658097711785492504343953926418782139537452191302581570759080747169) 64 384 evalC3_kinvc1 (Uint256.iterate_glue (Uint256.recipStep CurvePoint.ORDER 57896044618658097711785492504343953926418782139537452191302581570759080747169) 64 320 evalC3_kinvc2 (Uint256.iterate_glue (Uint256.recipStep CurvePoint.ORDER 57896044618658097711785492504343953926418782139537452191302581570759080747169) 64 256 evalC3_kinvc3 (Uint256.iterate_glue (Uint256.recipStep CurvePoint.ORDER 57896044618658097711785492504343953926418782139537452191302581570759080747169) 64 192 evalC3_kinvc4 (Uint256.iterate_glue (Uint256.recipStep CurvePoint.ORDER 57896044618658097711785492504343953926418782139537452191302581570759080747169) 64 128 evalC3_kinvc5 (Uint256.iterate_glue (Uint256.recipStep CurvePoint.ORDER 57896044618658097711785492504343953926418782139537452191302581570759080747169) 64 64 evalC3_kinvc6 evalC3_kinvc7)))))))
  show Uint256.replace 105768646951723913941853410995499900226228655448451400499528392497076046348923 (Uint256.iterate (Uint256.recipStep CurvePoint.ORDER ((CurvePoint.ORDER + 1) % W / 2)) 512 ⟨CurvePoint.ORDER, 105768646951723913941853410995499900226228655448451400499528392497076046348923, 0, 1⟩).a (decide (105768646951723913941853410995499900226228655448451400499528392497076046348923 ≠ 0)) = 115734275042480446062414653308177288583681973079027140526823612372054931579379
  rw [show ((CurvePoint.ORDER + 1) % W / 2) = 57896044618658097711785492504343953926418782139537452191302581570759080747169 from by rfl]
  rw [h]
  rfl

theorem evalC3_mmo2c0 : Uint256.iterate (Ecdsa.mmoLoop 115792089237316195423570985008687907853269984665640564039457584007913129639934 115734275042480446062414653308177288583681973079027140526823612372054931579379) 32 (256, 0) = (224, 1856304115390056027127912059372274647650992200256) := by rfl

theorem evalC3_mmo2c1 : Uint256.iterate (Ecdsa.mmoLoop 115792089237316195423570985008687907853269984665640564039457584007913129639934 115734275042480446062414653308177288583681973079027140526823612372054931579379) 32 (224, 1856304115390056027127912059372274647650992200256) = (192, 7972765467641868026445720692261243480649648405188256305525) := by rfl

theorem evalC3_mmo2c2 : Uint256.iterate (Ecdsa.mmoLoop 115792089237316195423570985008687907853269984665640564039457584007913129639934 115734275042480446062414653308177288583681973079027140526823612372054931579379) 32 (192, 7972765467641868026445720692261243480649648405188256305525) = (160, 34242766942199969415300812632500606819361235271293213319200104757267) := by rfl

theorem evalC3_mmo2c3 : Uint256.iterate (Ecdsa.mmoLoop 115792089237316195423570985008687907853269984665640564039457584007913129639934 115734275042480446062414653308177288583681973079027140526823612372054931579379) 32 (160, 34242766942199969415300812632500606819361235271293213319200104757267) = (128, 31279474903982595507346247250262727991149723308354375415215074223026303193991) := by rfl

theorem evalC3_mmo2c4 : Uint256.iterate (Ecdsa.mmoLoop 115792089237316195423570985008687907853269984665640564039457584007913129639934 115734275042480446062414653308177288583681973079027140526823612372054931579379) 32 (128, 31279474903982595507346247250262727991149723308354375415215074223026303193991) = (96, 4776519478460678782234562883591907576125207861876299598937757800170048255752) := by rfl

theorem evalC3_mmo2c5 : Uint256.iterate (Ecdsa.mmoLoop 115792089237316195423570985008687907853269984665640564039457584007913129639934 115734275042480446062414653308177288583681973079027140526823612372054931579379) 32 (96, 4776519478460678782234562883591907576125207861876299598937757800170048255752) = (64, 32867149048814047885173763128850184783586430095589346013213519716377316238803) := by rfl

theorem evalC3_mmo2c6 : Uint256.iterate (Ecdsa.mmoLoop 115792089237316195423570985008687907853269984665640564039457584007913129639934 115734275042480446062414653308177288583681973079027140526823612372054931579379) 32 (64, 32867149048814047885173763128850184783586430095589346013213519716377316238803) = (32, 8593275732084289380431369658975518270039732063968137980407414995060461713756) := by rfl

theorem evalC3_mmo2c7 : Uint256.iterate (Ecdsa.mmoLoop 115792089237316195423570985008687907853269984665640564039457584007913129639934 115734275042480446062414653308177288583681973079027140526823612372054931579379) 32 (32, 8593275732084289380431369658975518270039732063968137980407414995060461713756) = (0, 115792089237316195423570985008687907853053774472357734211031373574715643828864) := by rfl

theorem evalC3_mmo2 : Ecdsa.multiplyModOrder 115792089237316195423570985008687907853269984665640564039457584007913129639934 115734275042480446062414653308177288583681973079027140526823612372054931579379 = 115792089237316195423570985008687907853053774472357734211031373574715643828864 := by
  have h : Uint256.iterate (Ecdsa.mmoLoop 115792089237316195423570985008687907853269984665640564039457584007913129639934 115734275042480446062414653308177288583681973079027140526823612372054931579379) 256 (256, 0) = (0, 115792089237316195423570985008687907853053774472357734211031373574715643828864) := (Uint256.iterate_glue (Ecdsa.mmoLoop 115792089237316195423570985008687907853269984665640564039457584007913129639934 115734275042480446062414653308177288583681973079027140526823612372054931579379) 32 224 evalC3_mmo2c0 (Uint256.iterate_glue (Ecdsa.mmoLoop 115792089237316195423570985008687907853269984665640564039457584007913129639934 115734275042480446062414653308177288583681973079027140526823612372054931579379) 32 192 evalC3_mmo2c1 (Uint256.iterate_glue (Ecdsa.mmoLoop 115792089237316195423570985008687907853269984665640564039457584007913129639934 115734275042480446062414653308177288583681973079027140526823612372054931579379) 32 160 evalC3_mmo2c2 (Uint256.iterate_glue (Ecdsa.mmoLoop 115792089237316195423570985008687907853269984665640564039457584007913129639934 115734275042480446062414653308177288583681973079027140526823612372054931579379) 32 128 evalC3_mmo2c3 (Uint256.iterate_glue (Ecdsa.mmoLoop 115792089237316195423570985008687907853269984665640564039457584007913129639934 115734275042480446062414653308177288583681973079027140526823612372054931579379) 32 96 evalC3_mmo2c4 (Uint256.iterate_glue (Ecdsa.mmoLoop 115792089237316195423570985008687907853269984665640564039457584007913129639934 115734275042480446062414653308177288583681973079027140526823612372054931579379) 32 64 evalC3_mmo2c5 (Uint256.iterate_glue (Ecdsa.mmoLoop 115792089237316195423570985008687907853269984665640564039457584007913129639934 115734275042480446062414653308177288583681973079027140526823612372054931579379) 32 32 evalC3_mmo2c6 evalC3_mmo2c7)))))))
  show (Uint256.iterate (Ecdsa.mmoLoop 115792089237316195423570985008687907853269984665640564039457584007913129639934 115734275042480446062414653308177288583681973079027140526823612372054931579379) 256 (256, 0)).2 = 115792089237316195423570985008687907853053774472357734211031373574715643828864
  rw [h]

theorem evalC3_sign : Ecdsa.sign 21366308377510324815430457770613618840831374495454790736540387140414652221115 115792089237316195423570985008687907853269984665640564039457584007913129639935 105768646951723913941853410995499900226228655448451400499528392497076046348923 = some (8860096921603464971976595934696543225392041326055525752222777777046320639136, 115792089237316195423570985008687907853053774472357734211031373574715643828864) :=
  (Ecdsa.sign_eval 21366308377510324815430457770613618840831374495454790736540387140414652221115 115792089237316195423570985008687907853269984665640564039457584007913129639935 105768646951723913941853410995499900226228655448451400499528392497076046348923 8860096921603464971976595934696543225392041326055525752222777777046320639136 115734275042480446062414653308177288583681973079027140526823612372054931579379 115792089237316195423570985008687907853269984665640564039457584007913129639934 115792089237316195423570985008687907853053774472357734211031373574715643828864 evalC3_signR evalC3_kinv evalC3_inter evalC3_mmo2).trans (by rfl)

theorem evalC1_mulKc0 : Uint256.iterate (CurvePoint.windowStep tblG 23467992804240594785186505512618808108223488863310577349995960783396303152050) 4 (64, CurvePoint.ZERO) = (60, ⟨2934006350962419112988304241164282572374357755676777478325530876455944548564, 92495370681738242853762867799586890339628093773279339098247303292451714376068, 55444909143834659936232439540359481452021904536698142090193128793258207588395⟩) := by rfl

theorem evalC1_mulKc1 : Uint256.iterate (CurvePoint.windowStep tblG 23467992804240594785186505512618808108223488863310577349995960783396303152050) 4 (60, ⟨2934006350962419112988304241164282572374357755676777478325530876455944548564, 92495370681738242853762867799586890339628093773279339098247303292451714376068, 55444909143834659936232439540359481452021904536698142090193128793258207588395⟩) = (56, ⟨108050765262899505611213582256795509674783023122712213325099804197610078717740, 115658188365658468638414377048507247327750343702499704477087201582494669148029, 77235973283570212308172793905133770855575663211767665044152728044928085964679⟩) := by rfl

theorem evalC1_mulKc2 : Uint256.iterate (CurvePoint.windowStep tblG 23467992804240594785186505512618808108223488863310577349995960783396303152050) 4 (56, ⟨108050765262899505611213582256795509674783023122712213325099804197610078717740, 115658188365658468638414377048507247327750343702499704477087201582494669148029, 77235973283570212308172793905133770855575663211767665044152728044928085964679⟩) = (52, ⟨78272117897946986676981214562552381071178463851054172948510272180839252391559, 103687088487254347677761343002694921465936714700728418323882973546875528931114, 23206816344423984936555748040429024124246361737036833963047395401989444912774⟩) := by rfl

theorem evalC1_mulKc3 : Uint256.iterate (CurvePoint.windowStep tblG 23467992804240594785186505512618808108223488863310577349995960783396303152050) 4 (52, ⟨78272117897946986676981214562552381071178463851054172948510272180839252391559, 103687088487254347677761343002694921465936714700728418323882973546875528931114, 23206816344423984936555748040429024124246361737036833963047395401989444912774⟩) = (48, ⟨14070626752618440072577316939193749769698464919523492881773410548356946301706, 71384610464701070625861803494790943673184410383589096466385717718031201839530, 80199248870987451934144394303326498977577788333173435780559494779788739101401⟩) := by rfl

theorem evalC1_mulKc4 : Uint256.iterate (CurvePoint.windowStep tblG 23467992804240594785186505512618808108223488863310577349995960783396303152050) 4 (48, ⟨14070626752618440072577316939193749769698464919523492881773410548356946301706, 71384610464701070625861803494790943673184410383589096466385717718031201839530, 80199248870987451934144394303326498977577788333173435780559494779788739101401⟩) = (44, ⟨46174559064567725700493041749023958456417337780848846554868940902334926376253, 33853923187165533467838779733784023512260768518519510725654140016550121686722, 105766126787291900834111337817592434697705964749484150425006583362159772792439⟩) := by rfl

theorem evalC1_mulKc5 : Uint256.iterate (CurvePoint.windowStep tblG 23467992804240594785186505512618808108223488863310577349995960783396303152050) 4 (44, ⟨46174559064567725700493041749023958456417337780848846554868940902334926376253, 33853923187165533467838779733784023512260768518519510725654140016550121686722, 105766126787291900834111337817592434697705964749484150425006583362159772792439⟩) = (40, ⟨66368680626082882124106085288235696265430290447410015457063897740361942695989, 91491981525554460517786055017848922897995587511007424101548619476911593480781, 25927640612837551479459669190668323858633566553453794104330982086475772969872⟩) := by rfl

theorem evalC1_mulKc6 : Uint256.iterate (CurvePoint.windowStep tblG 23467992804240594785186505512618808108223488863310577349995960783396303152050) 4 (40, ⟨66368680626082882124106085288235696265430290447410015457063897740361942695989, 91491981525554460517786055017848922897995587511007424101548619476911593480781, 25927640612837551479459669190668323858633566553453794104330982086475772969872⟩) = (36, ⟨48451922816413890598405853354071743804031249962268519208297998753022172900102, 8072489318435673295204099537776074348000454653105514203098746770056443209794, 44138933010389718286294493779021044569918997034839049502131543066504438689249⟩) := by rfl

theorem evalC1_mulKc7 : Uint256.iterate (CurvePoint.windowStep tblG 23467992804240594785186505512618808108223488863310577349995960783396303152050) 4 (36, ⟨48451922816413890598405853354071743804031249962268519208297998753022172900102, 8072489318435673295204099537776074348000454653105514203098746770056443209794, 44138933010389718286294493779021044569918997034839049502131543066504438689249⟩) = (32, ⟨36463652167186365907838944138886840461862277044804846789958736050602329527404, 15947857168195549666496209972343761244935313143888531781932935275549066143149, 51802289085822184638139673748674272544160925893152883085073195001516478650628⟩) := by rfl

theorem evalC1_mulKc8 : Uint256.iterate (CurvePoint.windowStep tblG 23467992804240594785186505512618808108223488863310577349995960783396303152050) 4 (32, ⟨36463652167186365907838944138886840461862277044804846789958736050602329527404, 15947857168195549666496209972343761244935313143888531781932935275549066143149, 51802289085822184638139673748674272544160925893152883085073195001516478650628⟩) = (28, ⟨64819133583614271164166858550113063414941228078718760237124967089087600524392, 98342351357226224523477809937911687799024170276570709914076831565885709258301, 43644657353263712578949468568528395119209353776274027672662170902707443872427⟩) := by rfl

theorem evalC1_mulKc9 : Uint256.iterate (CurvePoint.windowStep tblG 23467992804240594785186505512618808108223488863310577349995960783396303152050) 4 (28, ⟨64819133583614271164166858550113063414941228078718760237124967089087600524392, 98342351357226224523477809937911687799024170276570709914076831565885709258301, 43644657353263712578949468568528395119209353776274027672662170902707443872427⟩) = (24, ⟨23358108931859297509196539335990001693759106438870659853027311857072400189666, 10167210341553799107878200267581418903176875182330446470048333280124129720360, 88011293147341923037310618752990770543433847721554312313390180284988101390884⟩) := by rfl

theorem evalC1_mulKc10 : Uint256.iterate (CurvePoint.windowStep tblG 23467992804240594785186505512618808108223488863310577349995960783396303152050) 4 (24, ⟨23358108931859297509196539335990001693759106438870659853027311857072400189666, 10167210341553799107878200267581418903176875182330446470048333280124129720360, 88011293147341923037310618752990770543433847721554312313390180284988101390884⟩) = (20, ⟨6950667493187355931947146220753204406989799268484669987980183369232664166143, 34038303132163722904299482330678530448980258044873173272815074457215402956874, 44725958280229965675602850951408172781147662966993026414811542312458968115285⟩) := by rfl

theorem evalC1_mulKc11 : Uint256.iterate (CurvePoint.windowStep tblG 23467992804240594785186505512618808108223488863310577349995960783396303152050) 4 (20, ⟨6950667493187355931947146220753204406989799268484669987980183369232664166143, 34038303132163722904299482330678530448980258044873173272815074457215402956874, 44725958280229965675602850951408172781147662966993026414811542312458968115285⟩) = (16, ⟨20697984377316201925054919586040297868293018407882240783887394104687071073505, 6469285624780014105433277673462083037546186851527803662650471086290991019322, 90594924685984145101012396070478607772796079487346047117388510113100263299213⟩) := by rfl

theorem evalC1_mulKc12 : Uint256.iterate (CurvePoint.windowStep tblG 23467992804240594785186505512618808108223488863310577349995960783396303152050) 4 (16, ⟨20697984377316201925054919586040297868293018407882240783887394104687071073505, 6469285624780014105433277673462083037546186851527803662650471086290991019322, 90594924685984145101012396070478607772796079487346047117388510113100263299213⟩) = (12, ⟨78175519874455409359172128309907291285084059293126538427380123256937566080547, 42539572069450054225981154206539263140652817332658894341449996324564768024065, 57738595760417785397510276733451346647828312222791072436390252571781819849821⟩) := by rfl

theorem evalC1_mulKc13 : Uint256.iterate (CurvePoint.windowStep tblG 23467992804240594785186505512618808108223488863310577349995960783396303152050) 4 (12, ⟨78175519874455409359172128309907291285084059293126538427380123256937566080547, 42539572069450054225981154206539263140652817332658894341449996324564768024065, 57738595760417785397510276733451346647828312222791072436390252571781819849821⟩) = (8, ⟨109748639838374731541374385223021557738507795042291279321533473069399016915751, 28664208413990484161714965458760444445686102222999913409478244390124403457380, 80059625255501909044403917279940731884624534885441254789677285563177741162466⟩) := by rfl

theorem evalC1_mulKc14 : Uint256.iterate (CurvePoint.windowStep tblG 23467992804240594785186505512618808108223488863310577349995960783396303152050) 4 (8, ⟨109748639838374731541374385223021557738507795042291279321533473069399016915751, 28664208413990484161714965458760444445686102222999913409478244390124403457380, 80059625255501909044403917279940731884624534885441254789677285563177741162466⟩) = (4, ⟨111674116191145191936163850565615256483463222231021291640738809136800884890876, 67806616161364575124049453577432828447100117410710530819841816090930711333658, 19033805672090850568976239957507652376760738096116559866579355210631490428510⟩) := by rfl

theorem evalC1_mulKc15 : Uint256.iterate (CurvePoint.windowStep tblG 23467992804240594785186505512618808108223488863310577349995960783396303152050) 4 (4, ⟨111674116191145191936163850565615256483463222231021291640738809136800884890876, 67806616161364575124049453577432828447100117410710530819841816090930711333658, 19033805672090850568976239957507652376760738096116559866579355210631490428510⟩) = (0, ⟨56821015831946840522403758056291331887028103213468673491397312883757413572191, 50938609151931143834818918083770924219375619082438502182547457829889798433474, 109315523941774232476217270404532901828680329227475291150792692394470966412887⟩) := by rfl

theorem evalC1_mulK : CurvePoint.multiply CurvePoint.G 23467992804240594785186505512618808108223488863310577349995960783396303152050 = ⟨56821015831946840522403758056291331887028103213468673491397312883757413572191, 50938609151931143834818918083770924219375619082438502182547457829889798433474, 109315523941774232476217270404532901828680329227475291150792692394470966412887⟩ := by
  have ht : CurvePoint.table CurvePoint.G = tblG := by rfl
  have h : Uint256.iterate (CurvePoint.windowStep tblG 23467992804240594785186505512618808108223488863310577349995960783396303152050) 64 (64, CurvePoint.ZERO) = (0, ⟨56821015831946840522403758056291331887028103213468673491397312883757413572191, 50938609151931143834818918083770924219375619082438502182547457829889798433474, 109315523941774232476217270404532901828680329227475291150792692394470966412887⟩) := (Uint256.iterate_glue (CurvePoint.windowStep tblG 23467992804240594785186505512618808108223488863310577349995960783396303152050) 4 60 evalC1_mulKc0 (Uint256.iterate_glue (CurvePoint.windowStep tblG 23467992804240594785186505512618808108223488863310577349995960783396303152050) 4 56 evalC1_mulKc1 (Uint256.iterate_glue (CurvePoint.windowStep tblG 23467992804240594785186505512618808108223488863310577349995960783396303152050) 4 52 evalC1_mulKc2 (Uint256.iterate_glue (CurvePoint.windowStep tblG 23467992804240594785186505512618808108223488863310577349995960783396303152050) 4 48 evalC1_mulKc3 (Uint256.iterate_glue (CurvePoint.windowStep tblG 23467992804240594785186505512618808108223488863310577349995960783396303152050) 4 44 evalC1_mulKc4 (Uint256.iterate_glue (CurvePoint.windowStep tblG 23467992804240594785186505512618808108223488863310577349995960783396303152050) 4 40 evalC1_mulKc5 (Uint256.iterate_glue (CurvePoint.windowStep tblG 23467992804240594785186505512618808108223488863310577349995960783396303152050) 4 36 evalC1_mulKc6 (Uint256.iterate_glue (CurvePoint.windowStep tblG 23467992804240594785186505512618808108223488863310577349995960783396303152050) 4 32 evalC1_mulKc7 (Uint256.iterate_glue (CurvePoint.windowStep tblG 23467992804240594785186505512618808108223488863310577349995960783396303152050) 4 28 evalC1_mulKc8 (Uint256.iterate_glue (CurvePoint.windowStep tblG 23467992804240594785186505512618808108223488863310577349995960783396303152050) 4 24 evalC1_mulKc9 (Uint256.iterate_glue (CurvePoint.windowStep tblG 23467992804240594785186505512618808108223488863310577349995960783396303152050) 4 20 evalC1_mulKc10 (Uint256.iterate_glue (CurvePoint.windowStep tblG 23467992804240594785186505512618808108223488863310577349995960783396303152050) 4 16 evalC1_mulKc11 (Uint256.iterate_glue (CurvePoint.windowStep tblG 23467992804240594785186505512618808108223488863310577349995960783396303152050) 4 12 evalC1_mulKc12 (Uint256.iterate_glue (CurvePoint.windowStep tblG 23467992804240594785186505512618808108223488863310577349995960783396303152050) 4 8 evalC1_mulKc13 (Uint256.iterate_glue (CurvePoint.windowStep tblG 23467992804240594785186505512618808108223488863310577349995960783396303152050) 4 4 evalC1_mulKc14 evalC1_mulKc15)))))))))))))))
  show (Uint256.iterate (CurvePoint.windowStep (CurvePoint.table CurvePoint.G) 23467992804240594785186505512618808108223488863310577349995960783396303152050) 64 (64, CurvePoint.ZERO)).2 = ⟨56821015831946840522403758056291331887028103213468673491397312883757413572191, 50938609151931143834818918083770924219375619082438502182547457829889798433474, 109315523941774232476217270404532901828680329227475291150792692394470966412887⟩
  rw [ht, h]

theorem evalC1_recZKc0 : Uint256.iterate (Uint256.recipStep FieldInt.MODULUS 57896044618658097711785492504343953926634992332820282019728792003954417335832) 64 ⟨FieldInt.MODULUS, 109315523941774232476217270404532901828680329227475291150792692394470966412887, 0, 1⟩ = ⟨3170993675578075838183604522758925125528178850801296982683590061, 2908795971006715754328806316796431322191027623545558294989158468, 8936919144625731860659311151664969838150639221985764123247560200637747421634, 9370025332122731309845972179985833891018488509845959688072935985701724930205⟩ := by rfl

theorem evalC1_recZKc1 : Uint256.iterate (Uint256.recipStep FieldInt.MODULUS 57896044618658097711785492504343953926634992332820282019728792003954417335832) 64 ⟨3170993675578075838183604522758925125528178850801296982683590061, 2908795971006715754328806316796431322191027623545558294989158468, 8936919144625731860659311151664969838150639221985764123247560200637747421634, 9370025332122731309845972179985833891018488509845959688072935985701724930205⟩ = ⟨271139711312859231313880930116248743120912511601417, 512699884698283847718162917265967683358777597158, 92376445885471590286775890639217984266434612419918621822476556692997334681032, 3197843560032245987833822519691086156100244944128795542735215222022636180883⟩ := by rfl

theorem evalC1_recZKc2 : Uint256.iterate (Uint256.recipStep FieldInt.MODULUS 57896044618658097711785492504343953926634992332820282019728792003954417335832) 64 ⟨271139711312859231313880930116248743120912511601417, 512699884698283847718162917265967683358777597158, 92376445885471590286775890639217984266434612419918621822476556692997334681032, 3197843560032245987833822519691086156100244944128795542735215222022636180883⟩ = ⟨12385891953295315461848283589349713447, 987956757202939571969244402071214142, 73813307699009947945539716658094822741704417269072734674492606519619563234188, 11161148396960274300744551239675952056758109945433737109815581482587195114287⟩ := by rfl

theorem evalC1_recZKc3 : Uint256.iterate (Uint256.recipStep FieldInt.MODULUS 57896044618658097711785492504343953926634992332820282019728792003954417335832) 64 ⟨12385891953295315461848283589349713447, 987956757202939571969244402071214142, 73813307699009947945539716658094822741704417269072734674492606519619563234188, 11161148396960274300744551239675952056758109945433737109815581482587195114287⟩ = ⟨787384988647619349995467, 162989562670974449765924, 29403573233699774713205483981331759426276308259114939429380102429803103227085, 31597558312503995483064086601287098763681579722140105792877209818476001323627⟩ := by rfl

theorem evalC1_recZKc4 : Uint256.iterate (Uint256.recipStep FieldInt.MODULUS 57896044618658097711785492504343953926634992332820282019728792003954417335832) 64 ⟨787384988647619349995467, 162989562670974449765924, 29403573233699774713205483981331759426276308259114939429380102429803103227085, 31597558312503995483064086601287098763681579722140105792877209818476001323627⟩ = ⟨5223874083, 41977613846, 62595779054777124889384917415922596672905682246021270721240477318252928142434, 22979226569433057384309953898763517546000954169814422921526479530074142459995⟩ := by rfl

theorem evalC1_recZKc5 : Uint256.iterate (Uint256.recipStep FieldInt.MODULUS 57896044618658097711785492504343953926634992332820282019728792003954417335832) 64 ⟨5223874083, 41977613846, 62595779054777124889384917415922596672905682246021270721240477318252928142434, 22979226569433057384309953898763517546000954169814422921526479530074142459995⟩ = ⟨1, 0, 102678798769933488440313146556645064609126742431598545079716206131110299964423, 0⟩ := by rfl

theorem evalC1_recZKc6 : Uint256.iterate (Uint256.recipStep FieldInt.MODULUS 57896044618658097711785492504343953926634992332820282019728792003954417335832) 64 ⟨1, 0, 102678798769933488440313146556645064609126742431598545079716206131110299964423, 0⟩ = ⟨1, 0, 102678798769933488440313146556645064609126742431598545079716206131110299964423, 0⟩ := by rfl

theorem evalC1_recZKc7 : Uint256.iterate (Uint256.recipStep FieldInt.MODULUS 57896044618658097711785492504343953926634992332820282019728792003954417335832) 64 ⟨1, 0, 102678798769933488440313146556645064609126742431598545079716206131110299964423, 0⟩ = ⟨1, 0, 102678798769933488440313146556645064609126742431598545079716206131110299964423, 0⟩ := by rfl

theorem evalC1_recZK : Uint256.reciprocal 109315523941774232476217270404532901828680329227475291150792692394470966412887 FieldInt.MODULUS = 102678798769933488440313146556645064609126742431598545079716206131110299964423 := by
  have h : Uint256.iterate (Uint256.recipStep FieldInt.MODULUS 57896044618658097711785492504343953926634992332820282019728792003954417335832) 512 ⟨FieldInt.MODULUS, 109315523941774232476217270404532901828680329227475291150792692394470966412887, 0, 1⟩ = ⟨1, 0, 102678798769933488440313146556645064609126742431598545079716206131110299964423, 0⟩ := (Uint256.iterate_glue (Uint256.recipStep FieldInt.MODULUS 57896044618658097711785492504343953926634992332820282019728792003954417335832) 64 448 evalC1_recZKc0 (Uint256.iterate_glue (Uint256.recipStep FieldInt.MODULUS 57896044618658097711785492504343953926634992332820282019728792003954417335832) 64 384 evalC1_recZKc1 (Uint256.iterate_glue (Uint256.recipStep FieldInt.MODULUS 57896044618658097711785492504343953926634992332820282019728792003954417335832) 64 320 evalC1_recZKc2 (Uint256.iterate_glue (Uint256.recipStep FieldInt.MODULUS 57896044618658097711785492504343953926634992332820282019728792003954417335832) 64 256 evalC1_recZKc3 (Uint256.iterate_glue (Uint256.recipStep FieldInt.MODULUS 57896044618658097711785492504343953926634992332820282019728792003954417335832) 64 192 evalC1_recZKc4 (Uint256.iterate_glue (Uint256.recipStep FieldInt.MODULUS 57896044618658097711785492504343953926634992332820282019728792003954417335832) 64 128 evalC1_recZKc5 (Uint256.iterate_glue (Uint256.recipStep FieldInt.MODULUS 57896044618658097711785492504343953926634992332820282019728792003954417335832) 64 64 evalC1_recZKc6 evalC1_recZKc7)))))))
  show Uint256.replace 109315523941774232476217270404532901828680329227475291150792692394470966412887 (Uint256.iterate (Uint256.recipStep FieldInt.MODULUS ((FieldInt.MODULUS + 1) % W / 2)) 512 ⟨FieldInt.MODULUS, 109315523941774232476217270404532901828680329227475291150792692394470966412887, 0, 1⟩).a (decide (109315523941774232476217270404532901828680329227475291150792692394470966412887 ≠ 0)) = 102678798769933488440313146556645064609126742431598545079716206131110299964423
  rw [show ((FieldInt.MODULUS + 1) % W / 2) = 57896044618658097711785492504343953926634992332820282019728792003954417335832 from by rfl]
  rw [h]
  rfl

theorem evalC1_normK : CurvePoint.normalize ⟨56821015831946840522403758056291331887028103213468673491397312883757413572191, 50938609151931143834818918083770924219375619082438502182547457829889798433474, 109315523941774232476217270404532901828680329227475291150792692394470966412887⟩ = ⟨112243646385000477525928989106902976049026426196646608009573930773579701902386, 19647992889711371683576882640080610834643977331449072989590075446205412329890, 1⟩ :=
  (CurvePoint.normalize_eval 56821015831946840522403758056291331887028103213468673491397312883757413572191 50938609151931143834818918083770924219375619082438502182547457829889798433474 109315523941774232476217270404532901828680329227475291150792692394470966412887 102678798769933488440313146556645064609126742431598545079716206131110299964423 evalC1_recZK).trans (by rfl)

theorem evalC1_pubK : CurvePoint.privateExponentToPublicPoint 23467992804240594785186505512618808108223488863310577349995960783396303152050 = ⟨112243646385000477525928989106902976049026426196646608009573930773579701902386, 19647992889711371683576882640080610834643977331449072989590075446205412329890, 1⟩ :=
  CurvePoint.pub_eval 23467992804240594785186505512618808108223488863310577349995960783396303152050 ⟨56821015831946840522403758056291331887028103213468673491397312883757413572191, 50938609151931143834818918083770924219375619082438502182547457829889798433474, 109315523941774232476217270404532901828680329227475291150792692394470966412887⟩ ⟨112243646385000477525928989106902976049026426196646608009573930773579701902386, 19647992889711371683576882640080610834643977331449072989590075446205412329890, 1⟩ evalC1_mulK evalC1_normK

theorem evalC1_signR : Ecdsa.signR 23467992804240594785186505512618808108223488863310577349995960783396303152050 = 112243646385000477525928989106902976049026426196646608009573930773579701902386 :=
  (Ecdsa.signR_eval 23467992804240594785186505512618808108223488863310577349995960783396303152050 ⟨112243646385000477525928989106902976049026426196646608009573930773579701902386, 19647992889711371683576882640080610834643977331449072989590075446205412329890, 1⟩ evalC1_pubK).trans (by rfl)

theorem evalC1_mmo1c0 : Uint256.iterate (Ecdsa.mmoLoop 112243646385000477525928989106902976049026426196646608009573930773579701902386 56056446464596941830801519848505790838817306750243800424875657921708621230623) 32 (256, 0) = (224, 28577400656833376765914498398534542448932416952147937941570014236700914691296) := by rfl

theorem evalC1_mmo1c1 : Uint256.iterate (Ecdsa.mmoLoop 112243646385000477525928989106902976049026426196646608009573930773579701902386 56056446464596941830801519848505790838817306750243800424875657921708621230623) 32 (224, 28577400656833376765914498398534542448932416952147937941570014236700914691296) = (192, 17548710814800653207708004318096640443594958361739266859883080408916786827488) := by rfl

theorem evalC1_mmo1c2 : Uint256.iterate (Ecdsa.mmoLoop 112243646385000477525928989106902976049026426196646608009573930773579701902386 56056446464596941830801519848505790838817306750243800424875657921708621230623) 32 (192, 17548710814800653207708004318096640443594958361739266859883080408916786827488) = (160, 53306022155976256694037668123797719855832957723106682172491765004556706822679) := by rfl

theorem evalC1_mmo1c3 : Uint256.iterate (Ecdsa.mmoLoop 112243646385000477525928989106902976049026426196646608009573930773579701902386 56056446464596941830801519848505790838817306750243800424875657921708621230623) 32 (160, 53306022155976256694037668123797719855832957723106682172491765004556706822679) = (128, 110195426802480237846821694469036320844753977550915012798189471206753841585553) := by rfl

theorem evalC1_mmo1c4 : Uint256.iterate (Ecdsa.mmoLoop 112243646385000477525928989106902976049026426196646608009573930773579701902386 56056446464596941830801519848505790838817306750243800424875657921708621230623) 32 (128, 110195426802480237846821694469036320844753977550915012798189471206753841585553) = (96, 9036520428915936621017393999315224198000556825700528210064428490957483903928) := by rfl

theorem evalC1_mmo1c5 : Uint256.iterate (Ecdsa.mmoLoop 112243646385000477525928989106902976049026426196646608009573930773579701902386 56056446464596941830801519848505790838817306750243800424875657921708621230623) 32 (96, 9036520428915936621017393999315224198000556825700528210064428490957483903928) = (64, 84365697157899848815203522690436345193636393790554970734749544213064617075849) := by rfl

theorem evalC1_mmo1c6 : Uint256.iterate (Ecdsa.mmoLoop 112243646385000477525928989106902976049026426196646608009573930773579701902386 56056446464596941830801519848505790838817306750243800424875657921708621230623) 32 (64, 84365697157899848815203522690436345193636393790554970734749544213064617075849) = (32, 61836985259386013142015644188294892584879387711623424166043021278230866527540) := by rfl

theorem evalC1_mmo1c7 : Uint256.iterate (Ecdsa.mmoLoop 112243646385000477525928989106902976049026426196646608009573930773579701902386 56056446464596941830801519848505790838817306750243800424875657921708621230623) 32 (32, 61836985259386013142015644188294892584879387711623424166043021278230866527540) = (0, 115792089237316195423570985008687907852837564279074904382605163141518161494336) := by rfl

theorem evalC1_mmo1 : Ecdsa.multiplyModOrder 112243646385000477525928989106902976049026426196646608009573930773579701902386 56056446464596941830801519848505790838817306750243800424875657921708621230623 = 115792089237316195423570985008687907852837564279074904382605163141518161494336 := by
  have h : Uint256.iterate (Ecdsa.mmoLoop 112243646385000477525928989106902976049026426196646608009573930773579701902386 56056446464596941830801519848505790838817306750243800424875657921708621230623) 256 (256, 0) = (0, 115792089237316195423570985008687907852837564279074904382605163141518161494336) := (Uint256.iterate_glue (Ecdsa.mmoLoop 112243646385000477525928989106902976049026426196646608009573930773579701902386 56056446464596941830801519848505790838817306750243800424875657921708621230623) 32 224 evalC1_mmo1c0 (Uint256.iterate_glue (Ecdsa.mmoLoop 112243646385000477525928989106902976049026426196646608009573930773579701902386 56056446464596941830801519848505790838817306750243800424875657921708621230623) 32 192 evalC1_mmo1c1 (Uint256.iterate_glue (Ecdsa.mmoLoop 112243646385000477525928989106902976049026426196646608009573930773579701902386 56056446464596941830801519848505790838817306750243800424875657921708621230623) 32 160 evalC1_mmo1c2 (Uint256.iterate_glue (Ecdsa.mmoLoop 112243646385000477525928989106902976049026426196646608009573930773579701902386 56056446464596941830801519848505790838817306750243800424875657921708621230623) 32 128 evalC1_mmo1c3 (Uint256.iterate_glue (Ecdsa.mmoLoop 112243646385000477525928989106902976049026426196646608009573930773579701902386 56056446464596941830801519848505790838817306750243800424875657921708621230623) 32 96 evalC1_mmo1c4 (Uint256.iterate_glue (Ecdsa.mmoLoop 112243646385000477525928989106902976049026426196646608009573930773579701902386 56056446464596941830801519848505790838817306750243800424875657921708621230623) 32 64 evalC1_mmo1c5 (Uint256.iterate_glue (Ecdsa.mmoLoop 112243646385000477525928989106902976049026426196646608009573930773579701902386 56056446464596941830801519848505790838817306750243800424875657921708621230623) 32 32 evalC1_mmo1c6 evalC1_mmo1c7)))))))
  show (Uint256.iterate (Ecdsa.mmoLoop 112243646385000477525928989106902976049026426196646608009573930773579701902386 56056446464596941830801519848505790838817306750243800424875657921708621230623) 256 (256, 0)).2 = 115792089237316195423570985008687907852837564279074904382605163141518161494336
  rw [h]

theorem evalC1_inter : Ecdsa.signInter 56056446464596941830801519848505790838817306750243800424875657921708621230623 115792089237316195423570985008687907853269984665640564039457584007913129639935 23467992804240594785186505512618808108223488863310577349995960783396303152050 = 115792089237316195423570985008687907853269984665640564039457584007913129639934 :=
  (Ecdsa.signInter_eval 56056446464596941830801519848505790838817306750243800424875657921708621230623 115792089237316195423570985008687907853269984665640564039457584007913129639935 23467992804240594785186505512618808108223488863310577349995960783396303152050 112243646385000477525928989106902976049026426196646608009573930773579701902386 115792089237316195423570985008687907852837564279074904382605163141518161494336 evalC1_signR evalC1_mmo1).trans (by rfl)

theorem evalC1_kinvc0 : Uint256.iterate (Uint256.recipStep CurvePoint.ORDER 57896044618658097711785492504343953926418782139537452191302581570759080747169) 64 ⟨CurvePoint.ORDER, 23467992804240594785186505512618808108223488863310577349995960783396303152050, 0, 1⟩ = ⟨1797461483212725838432004368351507011748616533268826495746060197, 1635917219892826860614243275417055701511164440774062484788759150, 15084407216162754137911361431392984769128119639443668349427756852248012861049, 21116750245476904826576835753048280378867534734270363577226953318723926024405⟩ := by rfl

theorem evalC1_kinvc1 : Uint256.iterate (Uint256.recipStep CurvePoint.ORDER 57896044618658097711785492504343953926418782139537452191302581570759080747169) 64 ⟨1797461483212725838432004368351507011748616533268826495746060197, 1635917219892826860614243275417055701511164440774062484788759150, 15084407216162754137911361431392984769128119639443668349427756852248012861049, 21116750245476904826576835753048280378867534734270363577226953318723926024405⟩ = ⟨563546156027465734806151641030136045690443376583043, 4352430830836338959683814709032899352644587906177874, 93430234328105555367532883053637887585490538286135552563959819455577109293755, 37229582829580403537147753959532500828181686991503817958538713324265530910519⟩ := by rfl

theorem evalC1_kinvc2 : Uint256.iterate (Uint256.recipStep CurvePoint.ORDER 57896044618658097711785492504343953926418782139537452191302581570759080747169) 64 ⟨563546156027465734806151641030136045690443376583043, 4352430830836338959683814709032899352644587906177874, 93430234328105555367532883053637887585490538286135552563959819455577109293755, 37229582829580403537147753959532500828181686991503817958538713324265530910519⟩ = ⟨124895433250032563250465065140181981257, 10696396449274131610301595777385420122, 75286590592617727849701277559459115466630450742357953237407391900035824840446, 112323084321725193415028791731438370782113935475459516538336777822836559871779⟩ := by rfl

theorem evalC1_kinvc3 : Uint256.iterate (Uint256.recipStep CurvePoint.ORDER 57896044618658097711785492504343953926418782139537452191302581570759080747169) 64 ⟨124895433250032563250465065140181981257, 10696396449274131610301595777385420122, 75286590592617727849701277559459115466630450742357953237407391900035824840446, 112323084321725193415028791731438370782113935475459516538336777822836559871779⟩ = ⟨7451391689885564503722571, 10842592302377581581631508, 115792089237313778823314743323215602224862156760675309118607940974459673640079, 57896044618654581293319412634472376593885415713404820469854906734536817754711⟩ := by rfl

theorem evalC1_kinvc4 : Uint256.iterate (Uint256.recipStep CurvePoint.ORDER 57896044618658097711785492504343953926418782139537452191302581570759080747169) 64 ⟨7451391689885564503722571, 10842592302377581581631508, 115792089237313778823314743323215602224862156760675309118607940974459673640079, 57896044618654581293319412634472376593885415713404820469854906734536817754711⟩ = ⟨593397662367, 39265705271998, 77226392098984214439190886194827733300846168632046562750668292719033909639619, 103006892083799686256038341305802547977187221154452206799363923127998642895848⟩ := by rfl

theorem evalC1_kinvc5 : Uint256.iterate (Uint256.recipStep CurvePoint.ORDER 57896044618658097711785492504343953926418782139537452191302581570759080747169) 64 ⟨593397662367, 39265705271998, 77226392098984214439190886194827733300846168632046562750668292719033909639619, 103006892083799686256038341305802547977187221154452206799363923127998642895848⟩ = ⟨1, 0, 95586307569009634989487468848325130130207808344805399279320756546993144575906, 0⟩ := by rfl

theorem evalC1_kinvc6 : Uint256.iterate (Uint256.recipStep CurvePoint.ORDER 57896044618658097711785492504343953926418782139537452191302581570759080747169) 64 ⟨1, 0, 95586307569009634989487468848325130130207808344805399279320756546993144575906, 0⟩ = ⟨1, 0, 95586307569009634989487468848325130130207808344805399279320756546993144575906, 0⟩ := by rfl

theorem evalC1_kinvc7 : Uint256.iterate (Uint256.recipStep CurvePoint.ORDER 57896044618658097711785492504343953926418782139537452191302581570759080747169) 64 ⟨1, 0, 95586307569009634989487468848325130130207808344805399279320756546993144575906, 0⟩ = ⟨1, 0, 95586307569009634989487468848325130130207808344805399279320756546993144575906, 0⟩ := by rfl

theorem evalC1_kinv : Uint256.reciprocal 23467992804240594785186505512618808108223488863310577349995960783396303152050 CurvePoint.ORDER = 95586307569009634989487468848325130130207808344805399279320756546993144575906 := by
  have h : Uint256.iterate (Uint256.recipStep CurvePoint.ORDER 57896044618658097711785492504343953926418782139537452191302581570759080747169) 512 ⟨CurvePoint.ORDER, 23467992804240594785186505512618808108223488863310577349995960783396303152050, 0, 1⟩ = ⟨1, 0, 95586307569009634989487468848325130130207808344805399279320756546993144575906, 0⟩ := (Uint256.iterate_glue (Uint256.recipStep CurvePoint.ORDER 57896044618658097711785492504343953926418782139537452191302581570759080747169) 64 448 evalC1_kinvc0 (Uint256.iterate_glue (Uint256.recipStep CurvePoint.ORDER 57896044618658097711785492504343953926418782139537452191302581570759080747169) 64 384 evalC1_kinvc1 (Uint256.iterate_glue (Uint256.recipStep CurvePoint.ORDER 57896044618658097711785492504343953926418782139537452191302581570759080747169) 64 320 evalC1_kinvc2 (Uint256.iterate_glue (Uint256.recipStep CurvePoint.ORDER 57896044618658097711785492504343953926418782139537452191302581570759080747169) 64 256 evalC1_kinvc3 (Uint256.iterate_glue (Uint256.recipStep CurvePoint.ORDER 57896044618658097711785492504343953926418782139537452191302581570759080747169) 64 192 evalC1_kinvc4 (Uint256.iterate_glue (Uint256.recipStep CurvePoint.ORDER 57896044618658097711785492504343953926418782139537452191302581570759080747169) 64 128 evalC1_kinvc5 (Uint256.iterate_glue (Uint256.recipStep CurvePoint.ORDER 57896044618658097711785492504343953926418782139537452191302581570759080747169) 64 64 evalC1_kinvc6 evalC1_kinvc7)))))))
  show Uint256.replace 23467992804240594785186505512618808108223488863310577349995960783396303152050 (Uint256.iterate (Uint256.recipStep CurvePoint.ORDER ((CurvePoint.ORDER + 1) % W / 2)) 512 ⟨CurvePoint.ORDER, 23467992804240594785186505512618808108223488863310577349995960783396303152050, 0, 1⟩).a (decide (23467992804240594785186505512618808108223488863310577349995960783396303152050 ≠ 0)) = 95586307569009634989487468848325130130207808344805399279320756546993144575906
  rw [show ((CurvePoint.ORDER + 1) % W / 2) = 57896044618658097711785492504343953926418782139537452191302581570759080747169 from by rfl]
  rw [h]
  rfl

theorem evalC1_mmo2c0 : Uint256.iterate (Ecdsa.mmoLoop 115792089237316195423570985008687907853269984665640564039457584007913129639934 95586307569009634989487468848325130130207808344805399279320756546993144575906) 32 (256, 0) = (224, 1533143539677497280318931928489047208035805294803) := by rfl

theorem evalC1_mmo2c1 : Uint256.iterate (Ecdsa.mmoLoop 115792089237316195423570985008687907853269984665640564039457584007913129639934 95586307569009634989487468848325130130207808344805399279320756546993144575906) 32 (224, 1533143539677497280318931928489047208035805294803) = (192, 6584801364037310750572258644566928859813346636118574602839) := by rfl

theorem evalC1_mmo2c2 : Uint256.iterate (Ecdsa.mmoLoop 115792089237316195423570985008687907853269984665640564039457584007913129639934 95586307569009634989487468848325130130207808344805399279320756546993144575906) 32 (192, 6584801364037310750572258644566928859813346636118574602839) = (160, 28281506509196440198075273797578710086510947205693686160974425443463) := by rfl

theorem evalC1_mmo2c3 : Uint256.iterate (Ecdsa.mmoLoop 115792089237316195423570985008687907853269984665640564039457584007913129639934 95586307569009634989487468848325130130207808344805399279320756546993144575906) 32 (160, 28281506509196440198075273797578710086510947205693686160974425443463) = (128, 5676056301293638466782078099438560313886901520712975291881292234910352099714) := by rfl

theorem evalC1_mmo2c4 : Uint256.iterate (Ecdsa.mmoLoop 115792089237316195423570985008687907853269984665640564039457584007913129639934 95586307569009634989487468848325130130207808344805399279320756546993144575906) 32 (128, 5676056301293638466782078099438560313886901520712975291881292234910352099714) = (96, 51419166916092745470067764677586788725043105825440746205947411421981090758121) := by rfl

theorem evalC1_mmo2c5 : Uint256.iterate (Ecdsa.mmoLoop 115792089237316195423570985008687907853269984665640564039457584007913129639934 95586307569009634989487468848325130130207808344805399279320756546993144575906) 32 (96, 51419166916092745470067764677586788725043105825440746205947411421981090758121) = (64, 102353699882858746966661806199632911717053385243045218357585205725806038723144) := by rfl

theorem evalC1_mmo2c6 : Uint256.iterate (Ecdsa.mmoLoop 115792089237316195423570985008687907853269984665640564039457584007913129639934 95586307569009634989487468848325130130207808344805399279320756546993144575906) 32 (64, 102353699882858746966661806199632911717053385243045218357585205725806038723144) = (32, 59186044959866748564974641325163316393739274087298206812064771797816757373132) := by rfl

theorem evalC1_mmo2c7 : Uint256.iterate (Ecdsa.mmoLoop 115792089237316195423570985008687907853269984665640564039457584007913129639934 95586307569009634989487468848325130130207808344805399279320756546993144575906) 32 (32, 59186044959866748564974641325163316393739274087298206812064771797816757373132) = (0, 216210193282829828426210433197483974039) := by rfl

theorem evalC1_mmo2 : Ecdsa.multiplyModOrder 115792089237316195423570985008687907853269984665640564039457584007913129639934 95586307569009634989487468848325130130207808344805399279320756546993144575906 = 216210193282829828426210433197483974039 := by
  have h : Uint256.iterate (Ecdsa.mmoLoop 115792089237316195423570985008687907853269984665640564039457584007913129639934 95586307569009634989487468848325130130207808344805399279320756546993144575906) 256 (256, 0) = (0, 216210193282829828426210433197483974039) := (Uint256.iterate_glue (Ecdsa.mmoLoop 115792089237316195423570985008687907853269984665640564039457584007913129639934 95586307569009634989487468848325130130207808344805399279320756546993144575906) 32 224 evalC1_mmo2c0 (Uint256.iterate_glue (Ecdsa.mmoLoop 115792089237316195423570985008687907853269984665640564039457584007913129639934 95586307569009634989487468848325130130207808344805399279320756546993144575906) 32 192 evalC1_mmo2c1 (Uint256.iterate_glue (Ecdsa.mmoLoop 115792089237316195423570985008687907853269984665640564039457584007913129639934 95586307569009634989487468848325130130207808344805399279320756546993144575906) 32 160 evalC1_mmo2c2 (Uint256.iterate_glue (Ecdsa.mmoLoop 115792089237316195423570985008687907853269984665640564039457584007913129639934 95586307569009634989487468848325130130207808344805399279320756546993144575906) 32 128 evalC1_mmo2c3 (Uint256.iterate_glue (Ecdsa.mmoLoop 115792089237316195423570985008687907853269984665640564039457584007913129639934 95586307569009634989487468848325130130207808344805399279320756546993144575906) 32 96 evalC1_mmo2c4 (Uint256.iterate_glue (Ecdsa.mmoLoop 115792089237316195423570985008687907853269984665640564039457584007913129639934 95586307569009634989487468848325130130207808344805399279320756546993144575906) 32 64 evalC1_mmo2c5 (Uint256.iterate_glue (Ecdsa.mmoLoop 115792089237316195423570985008687907853269984665640564039457584007913129639934 95586307569009634989487468848325130130207808344805399279320756546993144575906) 32 32 evalC1_mmo2c6 evalC1_mmo2c7)))))))
  show (Uint256.iterate (Ecdsa.mmoLoop 115792089237316195423570985008687907853269984665640564039457584007913129639934 95586307569009634989487468848325130130207808344805399279320756546993144575906) 256 (256, 0)).2 = 216210193282829828426210433197483974039
  rw [h]

theorem evalC1_sign : Ecdsa.sign 56056446464596941830801519848505790838817306750243800424875657921708621230623 115792089237316195423570985008687907853269984665640564039457584007913129639935 23467992804240594785186505512618808108223488863310577349995960783396303152050 = some (112243646385000477525928989106902976049026426196646608009573930773579701902386, 216210193282829828426210433197483974039) :=
  (Ecdsa.sign_eval 56056446464596941830801519848505790838817306750243800424875657921708621230623 115792089237316195423570985008687907853269984665640564039457584007913129639935 23467992804240594785186505512618808108223488863310577349995960783396303152050 112243646385000477525928989106902976049026426196646608009573930773579701902386 95586307569009634989487468848325130130207808344805399279320756546993144575906 115792089237316195423570985008687907853269984665640564039457584007913129639934 216210193282829828426210433197483974039 evalC1_signR evalC1_kinv evalC1_inter evalC1_mmo2).trans (by rfl)

theorem evalC1_mulDc0 : Uint256.iterate (CurvePoint.windowStep tblG 56056446464596941830801519848505790838817306750243800424875657921708621230623) 4 (64, CurvePoint.ZERO) = (60, ⟨20193790059658364479370711264262579254315432163386980488353320915994794978464, 44870275340547935451430487469702774330369466847636217181510784090616085963223, 23036477812563887139345575471597077113738996614296158889104346488269221989796⟩) := by rfl

theorem evalC1_mulDc1 : Uint256.iterate (CurvePoint.windowStep tblG 56056446464596941830801519848505790838817306750243800424875657921708621230623) 4 (60, ⟨20193790059658364479370711264262579254315432163386980488353320915994794978464, 44870275340547935451430487469702774330369466847636217181510784090616085963223, 23036477812563887139345575471597077113738996614296158889104346488269221989796⟩) = (56, ⟨14255056193491613296335521368825275404991675311955502064506906760103193639087, 103659772063242893528782007244888703471197394304500461154215419585581263368364, 67004271927534854456748656443442881784190689456855124900892824591333190230576⟩) := by rfl

theorem evalC1_mulDc2 : Uint256.iterate (CurvePoint.windowStep tblG 56056446464596941830801519848505790838817306750243800424875657921708621230623) 4 (56, ⟨14255056193491613296335521368825275404991675311955502064506906760103193639087, 103659772063242893528782007244888703471197394304500461154215419585581263368364, 67004271927534854456748656443442881784190689456855124900892824591333190230576⟩) = (52, ⟨72779782429580947642824712261756835219640061578342194293454184614931738917403, 67761362918279937998268385018300961451651222337908361049898481821403352182568, 91213380113969681927525931803205907182731948720629536259360493591683952736601⟩) := by rfl

theorem evalC1_mulDc3 : Uint256.iterate (CurvePoint.windowStep tblG 56056446464596941830801519848505790838817306750243800424875657921708621230623) 4 (52, ⟨72779782429580947642824712261756835219640061578342194293454184614931738917403, 67761362918279937998268385018300961451651222337908361049898481821403352182568, 91213380113969681927525931803205907182731948720629536259360493591683952736601⟩) = (48, ⟨76101649408880717354990617011845306197862268603504266392348433447338098984299, 25113936589513030868499343717320805989037679267855452506157973657686966906794, 79166672751552895860320933692848376522280962171653131495250405883864323960676⟩) := by rfl

theorem evalC1_mulDc4 : Uint256.iterate (CurvePoint.windowStep tblG 56056446464596941830801519848505790838817306750243800424875657921708621230623) 4 (48, ⟨76101649408880717354990617011845306197862268603504266392348433447338098984299, 25113936589513030868499343717320805989037679267855452506157973657686966906794, 79166672751552895860320933692848376522280962171653131495250405883864323960676⟩) = (44, ⟨37591568182056241282652074536153169398399056660907811121020034121333598659357, 10970913940844523730367130497647562097650897828158869380646656418253685103402, 33262079588214438601921679440259474300099525670690723961048706358698153520903⟩) := by rfl

theorem evalC1_mulDc5 : Uint256.iterate (CurvePoint.windowStep tblG 56056446464596941830801519848505790838817306750243800424875657921708621230623) 4 (44, ⟨37591568182056241282652074536153169398399056660907811121020034121333598659357, 10970913940844523730367130497647562097650897828158869380646656418253685103402, 33262079588214438601921679440259474300099525670690723961048706358698153520903⟩) = (40, ⟨37827867317838497393676601929481812069799998622830371378522209749103203373000, 59198679097083192228947658043533283575246435175618341342362157946913464484946, 10103241032516433841007384597723955129905304366651833713645908370767070416691⟩) := by rfl

theorem evalC1_mulDc6 : Uint256.iterate (CurvePoint.windowStep tblG 56056446464596941830801519848505790838817306750243800424875657921708621230623) 4 (40, ⟨37827867317838497393676601929481812069799998622830371378522209749103203373000, 59198679097083192228947658043533283575246435175618341342362157946913464484946, 10103241032516433841007384597723955129905304366651833713645908370767070416691⟩) = (36, ⟨27678499846674369751798753728775099282810719429132452450961905622021124478290, 49699151857934122355215825381663485684130555875980244809953719263820137126444, 59159975811465248775683927069867478159890413037634991856219700862458263106627⟩) := by rfl

theorem evalC1_mulDc7 : Uint256.iterate (CurvePoint.windowStep tblG 56056446464596941830801519848505790838817306750243800424875657921708621230623) 4 (36, ⟨27678499846674369751798753728775099282810719429132452450961905622021124478290, 49699151857934122355215825381663485684130555875980244809953719263820137126444, 59159975811465248775683927069867478159890413037634991856219700862458263106627⟩) = (32, ⟨50758617152514724638365211566498276248562898370501391904261451193263332230347, 9836685835827783864216374933666411432758061782439834473055390726298842535950, 10625167285838481108197306423333580785852888900498550412673687861933356719415⟩) := by rfl

theorem evalC1_mulDc8 : Uint256.iterate (CurvePoint.windowStep tblG 56056446464596941830801519848505790838817306750243800424875657921708621230623) 4 (32, ⟨50758617152514724638365211566498276248562898370501391904261451193263332230347, 9836685835827783864216374933666411432758061782439834473055390726298842535950, 10625167285838481108197306423333580785852888900498550412673687861933356719415⟩) = (28, ⟨69716554276063374698438105933440587572479369477584386122947276371613909395810, 93420809623561565747698742103419796497467833843724017924079217906561468121252, 96439544364403350513948463213449367101499942844973711329475720364986647319391⟩) := by rfl

theorem evalC1_mulDc9 : Uint256.iterate (CurvePoint.windowStep tblG 56056446464596941830801519848505790838817306750243800424875657921708621230623) 4 (28, ⟨69716554276063374698438105933440587572479369477584386122947276371613909395810, 93420809623561565747698742103419796497467833843724017924079217906561468121252, 96439544364403350513948463213449367101499942844973711329475720364986647319391⟩) = (24, ⟨28554350933490472036669765371453682928671461144768421831222419817190769502558, 75392746462742617206395719389458496946558390227216689658019586743697214049260, 37265225683124519095001163415780769452868809588245338313629511075978087913056⟩) := by rfl

theorem evalC1_mulDc10 : Uint256.iterate (CurvePoint.windowStep tblG 56056446464596941830801519848505790838817306750243800424875657921708621230623) 4 (24, ⟨28554350933490472036669765371453682928671461144768421831222419817190769502558, 75392746462742617206395719389458496946558390227216689658019586743697214049260, 37265225683124519095001163415780769452868809588245338313629511075978087913056⟩) = (20, ⟨40144361997877693720331445786321689789361352304201168583769098667546837794139, 19369069601263312346056792691118457895444077815392497312899798028546252325125, 57208234644082881503173517865700114339994916906605634760571657899995584892178⟩) := by rfl

theorem evalC1_mulDc11 : Uint256.iterate (CurvePoint.windowStep tblG 56056446464596941830801519848505790838817306750243800424875657921708621230623) 4 (20, ⟨40144361997877693720331445786321689789361352304201168583769098667546837794139, 19369069601263312346056792691118457895444077815392497312899798028546252325125, 57208234644082881503173517865700114339994916906605634760571657899995584892178⟩) = (16, ⟨13619359949574231419754220479444963191369435170218258863887827891101940019545, 105990569405204559111660699478581239250209293191266008065095193149181109491714, 4798125629314375096901464544235006598074559124261282589461477460913624555967⟩) := by rfl

theorem evalC1_mulDc12 : Uint256.iterate (CurvePoint.windowStep tblG 56056446464596941830801519848505790838817306750243800424875657921708621230623) 4 (16, ⟨13619359949574231419754220479444963191369435170218258863887827891101940019545, 105990569405204559111660699478581239250209293191266008065095193149181109491714, 4798125629314375096901464544235006598074559124261282589461477460913624555967⟩) = (12, ⟨99378690808339072429426905111313034465617141138825546552249287841978826082698, 86097420880542345857451855503435755062222791216945234678712148051317504954978, 68563621261593906673835890325687287186824760260631659224600364549715607335133⟩) := by rfl

theorem evalC1_mulDc13 : Uint256.iterate (CurvePoint.windowStep tblG 56056446464596941830801519848505790838817306750243800424875657921708621230623) 4 (12, ⟨99378690808339072429426905111313034465617141138825546552249287841978826082698, 86097420880542345857451855503435755062222791216945234678712148051317504954978, 68563621261593906673835890325687287186824760260631659224600364549715607335133⟩) = (8, ⟨3700789636571496869265389697570797800554018916353423044357914782946895504550, 82437522122139534586786643425002772761131005924841201695309173614606860652938, 42332849211710181568123262977696567234720350337227381248656934707067727775738⟩) := by rfl

theorem evalC1_mulDc14 : Uint256.iterate (CurvePoint.windowStep tblG 56056446464596941830801519848505790838817306750243800424875657921708621230623) 4 (8, ⟨3700789636571496869265389697570797800554018916353423044357914782946895504550, 82437522122139534586786643425002772761131005924841201695309173614606860652938, 42332849211710181568123262977696567234720350337227381248656934707067727775738⟩) = (4, ⟨73416610075048732188103154749013003930565986873707593916281518984538178565181, 87075150224618447960020768335837446284707039401420250394268313032940743024644, 1634649842874804931697777307408166723229375062766414493753896571458030858824⟩) := by rfl

theorem evalC1_mulDc15 : Uint256.iterate (CurvePoint.windowStep tblG 56056446464596941830801519848505790838817306750243800424875657921708621230623) 4 (4, ⟨73416610075048732188103154749013003930565986873707593916281518984538178565181, 87075150224618447960020768335837446284707039401420250394268313032940743024644, 1634649842874804931697777307408166723229375062766414493753896571458030858824⟩) = (0, ⟨16928347849287059228100824192565649367822550560305186560436374951595863039014, 52109203846314808758033173036860691100849805832548323778729178066894769083268, 73357947046210823580816514550829609658942154650841710050977629894941520025570⟩) := by rfl

theorem evalC1_mulD : CurvePoint.multiply CurvePoint.G 56056446464596941830801519848505790838817306750243800424875657921708621230623 = ⟨16928347849287059228100824192565649367822550560305186560436374951595863039014, 52109203846314808758033173036860691100849805832548323778729178066894769083268, 73357947046210823580816514550829609658942154650841710050977629894941520025570⟩ := by
  have ht : CurvePoint.table CurvePoint.G = tblG := by rfl
  have h : Uint256.iterate (CurvePoint.windowStep tblG 56056446464596941830801519848505790838817306750243800424875657921708621230623) 64 (64, CurvePoint.ZERO) = (0, ⟨16928347849287059228100824192565649367822550560305186560436374951595863039014, 52109203846314808758033173036860691100849805832548323778729178066894769083268, 73357947046210823580816514550829609658942154650841710050977629894941520025570⟩) := (Uint256.iterate_glue (CurvePoint.windowStep tblG 56056446464596941830801519848505790838817306750243800424875657921708621230623) 4 60 evalC1_mulDc0 (Uint256.iterate_glue (CurvePoint.windowStep tblG 56056446464596941830801519848505790838817306750243800424875657921708621230623) 4 56 evalC1_mulDc1 (Uint256.iterate_glue (CurvePoint.windowStep tblG 56056446464596941830801519848505790838817306750243800424875657921708621230623) 4 52 evalC1_mulDc2 (Uint256.iterate_glue (CurvePoint.windowStep tblG 56056446464596941830801519848505790838817306750243800424875657921708621230623) 4 48 evalC1_mulDc3 (Uint256.iterate_glue (CurvePoint.windowStep tblG 56056446464596941830801519848505790838817306750243800424875657921708621230623) 4 44 evalC1_mulDc4 (Uint256.iterate_glue (CurvePoint.windowStep tblG 56056446464596941830801519848505790838817306750243800424875657921708621230623) 4 40 evalC1_mulDc5 (Uint256.iterate_glue (CurvePoint.windowStep tblG 56056446464596941830801519848505790838817306750243800424875657921708621230623) 4 36 evalC1_mulDc6 (Uint256.iterate_glue (CurvePoint.windowStep tblG 56056446464596941830801519848505790838817306750243800424875657921708621230623) 4 32 evalC1_mulDc7 (Uint256.iterate_glue (CurvePoint.windowStep tblG 56056446464596941830801519848505790838817306750243800424875657921708621230623) 4 28 evalC1_mulDc8 (Uint256.iterate_glue (CurvePoint.windowStep tblG 56056446464596941830801519848505790838817306750243800424875657921708621230623) 4 24 evalC1_mulDc9 (Uint256.iterate_glue (CurvePoint.windowStep tblG 56056446464596941830801519848505790838817306750243800424875657921708621230623) 4 20 evalC1_mulDc10 (Uint256.iterate_glue (CurvePoint.windowStep tblG 56056446464596941830801519848505790838817306750243800424875657921708621230623) 4 16 evalC1_mulDc11 (Uint256.iterate_glue (CurvePoint.windowStep tblG 56056446464596941830801519848505790838817306750243800424875657921708621230623) 4 12 evalC1_mulDc12 (Uint256.iterate_glue (CurvePoint.windowStep tblG 56056446464596941830801519848505790838817306750243800424875657921708621230623) 4 8 evalC1_mulDc13 (Uint256.iterate_glue (CurvePoint.windowStep tblG 56056446464596941830801519848505790838817306750243800424875657921708621230623) 4 4 evalC1_mulDc14 evalC1_mulDc15)))))))))))))))
  show (Uint256.iterate (CurvePoint.windowStep (CurvePoint.table CurvePoint.G) 56056446464596941830801519848505790838817306750243800424875657921708621230623) 64 (64, CurvePoint.ZERO)).2 = ⟨16928347849287059228100824192565649367822550560305186560436374951595863039014, 52109203846314808758033173036860691100849805832548323778729178066894769083268, 73357947046210823580816514550829609658942154650841710050977629894941520025570⟩
  rw [ht, h]

theorem evalC1_recZDc0 : Uint256.iterate (Uint256.recipStep FieldInt.MODULUS 57896044618658097711785492504343953926634992332820282019728792003954417335832) 64 ⟨FieldInt.MODULUS, 73357947046210823580816514550829609658942154650841710050977629894941520025570, 0, 1⟩ = ⟨132726996867858701891515420849372355398981906945918767150863239, 71892578215839446824009633109540232543738407965351496461731966108, 88765449297771523697742590054947079580746907597102420365781549283390328440402, 49099177175319951601263538422418272822619338782213492648450890200373152372766⟩ := by rfl

theorem evalC1_recZDc1 : Uint256.iterate (Uint256.recipStep FieldInt.MODULUS 57896044618658097711785492504343953926634992332820282019728792003954417335832) 64 ⟨132726996867858701891515420849372355398981906945918767150863239, 71892578215839446824009633109540232543738407965351496461731966108, 88765449297771523697742590054947079580746907597102420365781549283390328440402, 49099177175319951601263538422418272822619338782213492648450890200373152372766⟩ = ⟨54232497853591430286930224903537014199047468420607, 4032785395450785344446861440297161998993086708042, 73096267694506030690470521603419232302777555786418205734453713484711517812766, 26960888796412056649795537344323021872702499504071759623787177342647262293147⟩ := by rfl

theorem evalC1_recZDc2 : Uint256.iterate (Uint256.recipStep FieldInt.MODULUS 57896044618658097711785492504343953926634992332820282019728792003954417335832) 64 ⟨54232497853591430286930224903537014199047468420607, 4032785395450785344446861440297161998993086708042, 73096267694506030690470521603419232302777555786418205734453713484711517812766, 26960888796412056649795537344323021872702499504071759623787177342647262293147⟩ = ⟨78364122342842639499413497800779760453, 46319209085821013493201808243175465992, 68707879792619008255946491738406860975030617509323459026787920767834507490709, 1023790935822983853742959172181249056981764144810797685335454390785027116547⟩ := by rfl

theorem evalC1_recZDc3 : Uint256.iterate (Uint256.recipStep FieldInt.MODULUS 57896044618658097711785492504343953926634992332820282019728792003954417335832) 64 ⟨78364122342842639499413497800779760453, 46319209085821013493201808243175465992, 68707879792619008255946491738406860975030617509323459026787920767834507490709, 1023790935822983853742959172181249056981764144810797685335454390785027116547⟩ = ⟨10532437722630821335588587, 12995732013294027791773096, 37362907033146725630646744222028360355088763899082345213214505968974502724853, 89922407970186253602885724079089144750882653155505229484681108268720183484509⟩ := by rfl

theorem evalC1_recZDc4 : Uint256.iterate (Uint256.recipStep FieldInt.MODULUS 57896044618658097711785492504343953926634992332820282019728792003954417335832) 64 ⟨10532437722630821335588587, 12995732013294027791773096, 37362907033146725630646744222028360355088763899082345213214505968974502724853, 89922407970186253602885724079089144750882653155505229484681108268720183484509⟩ = ⟨134188406879, 319150128778, 2326707234188955486128259751391442239455544662250759464185177006665489255344, 75463816179533828820550481044986207362436191788519108967893060121864477114304⟩ := by rfl

theorem evalC1_recZDc5 : Uint256.iterate (Uint256.recipStep FieldInt.MODULUS 57896044618658097711785492504343953926634992332820282019728792003954417335832) 64 ⟨134188406879, 319150128778, 2326707234188955486128259751391442239455544662250759464185177006665489255344, 75463816179533828820550481044986207362436191788519108967893060121864477114304⟩ = ⟨1, 0, 77342260571749246485415760229932512695136185888605282128989668313536698144023, 0⟩ := by rfl

theorem evalC1_recZDc6 : Uint256.iterate (Uint256.recipStep FieldInt.MODULUS 57896044618658097711785492504343953926634992332820282019728792003954417335832) 64 ⟨1, 0, 77342260571749246485415760229932512695136185888605282128989668313536698144023, 0⟩ = ⟨1, 0, 77342260571749246485415760229932512695136185888605282128989668313536698144023, 0⟩ := by rfl

theorem evalC1_recZDc7 : Uint256.iterate (Uint256.recipStep FieldInt.MODULUS 57896044618658097711785492504343953926634992332820282019728792003954417335832) 64 ⟨1, 0, 77342260571749246485415760229932512695136185888605282128989668313536698144023, 0⟩ = ⟨1, 0, 77342260571749246485415760229932512695136185888605282128989668313536698144023, 0⟩ := by rfl

theorem evalC1_recZD : Uint256.reciprocal 73357947046210823580816514550829609658942154650841710050977629894941520025570 FieldInt.MODULUS = 77342260571749246485415760229932512695136185888605282128989668313536698144023 := by
  have h : Uint256.iterate (Uint256.recipStep FieldInt.MODULUS 57896044618658097711785492504343953926634992332820282019728792003954417335832) 512 ⟨FieldInt.MODULUS, 73357947046210823580816514550829609658942154650841710050977629894941520025570, 0, 1⟩ = ⟨1, 0, 77342260571749246485415760229932512695136185888605282128989668313536698144023, 0⟩ := (Uint256.iterate_glue (Uint256.recipStep FieldInt.MODULUS 57896044618658097711785492504343953926634992332820282019728792003954417335832) 64 448 evalC1_recZDc0 (Uint256.iterate_glue (Uint256.recipStep FieldInt.MODULUS 57896044618658097711785492504343953926634992332820282019728792003954417335832) 64 384 evalC1_recZDc1 (Uint256.iterate_glue (Uint256.recipStep FieldInt.MODULUS 57896044618658097711785492504343953926634992332820282019728792003954417335832) 64 320 evalC1_recZDc2 (Uint256.iterate_glue (Uint256.recipStep FieldInt.MODULUS 57896044618658097711785492504343953926634992332820282019728792003954417335832) 64 256 evalC1_recZDc3 (Uint256.iterate_glue (Uint256.recipStep FieldInt.MODULUS 57896044618658097711785492504343953926634992332820282019728792003954417335832) 64 192 evalC1_recZDc4 (Uint256.iterate_glue (Uint256.recipStep FieldInt.MODULUS 57896044618658097711785492504343953926634992332820282019728792003954417335832) 64 128 evalC1_recZDc5 (Uint256.iterate_glue (Uint256.recipStep FieldInt.MODULUS 57896044618658097711785492504343953926634992332820282019728792003954417335832) 64 64 evalC1_recZDc6 evalC1_recZDc7)))))))
  show Uint256.replace 73357947046210823580816514550829609658942154650841710050977629894941520025570 (Uint256.iterate (Uint256.recipStep FieldInt.MODULUS ((FieldInt.MODULUS + 1) % W / 2)) 512 ⟨FieldInt.MODULUS, 73357947046210823580816514550829609658942154650841710050977629894941520025570, 0, 1⟩).a (decide (73357947046210823580816514550829609658942154650841710050977629894941520025570 ≠ 0)) = 77342260571749246485415760229932512695136185888605282128989668313536698144023
  rw [show ((FieldInt.MODULUS + 1) % W / 2) = 57896044618658097711785492504343953926634992332820282019728792003954417335832 from by rfl]
  rw [h]
  rfl

theorem evalC1_normD : CurvePoint.normalize ⟨16928347849287059228100824192565649367822550560305186560436374951595863039014, 52109203846314808758033173036860691100849805832548323778729178066894769083268, 73357947046210823580816514550829609658942154650841710050977629894941520025570⟩ = ⟨110131914628909843887527015709277618292067400090353988390355590382136303927197, 87982058461631509175987196024672419241324887612402882210567295520400057757314, 1⟩ :=
  (CurvePoint.normalize_eval 16928347849287059228100824192565649367822550560305186560436374951595863039014 52109203846314808758033173036860691100849805832548323778729178066894769083268 73357947046210823580816514550829609658942154650841710050977629894941520025570 77342260571749246485415760229932512695136185888605282128989668313536698144023 evalC1_recZD).trans (by rfl)

theorem evalC1_pubD : CurvePoint.privateExponentToPublicPoint 56056446464596941830801519848505790838817306750243800424875657921708621230623 = ⟨110131914628909843887527015709277618292067400090353988390355590382136303927197, 87982058461631509175987196024672419241324887612402882210567295520400057757314, 1⟩ :=
  CurvePoint.pub_eval 56056446464596941830801519848505790838817306750243800424875657921708621230623 ⟨16928347849287059228100824192565649367822550560305186560436374951595863039014, 52109203846314808758033173036860691100849805832548323778729178066894769083268, 73357947046210823580816514550829609658942154650841710050977629894941520025570⟩ ⟨110131914628909843887527015709277618292067400090353988390355590382136303927197, 87982058461631509175987196024672419241324887612402882210567295520400057757314, 1⟩ evalC1_mulD evalC1_normD

theorem evalC1_q0c0 : Uint256.iterate (CurvePoint.windowStep tblPub1 CurvePoint.ORDER) 4 (64, CurvePoint.ZERO) = (60, ⟨88803091447183782019440547163225503357769376350721048253565991270625200728143, 14321142710779366747851160741606450360967623132514939656557235236912983526173, 73993023486560424377210278828363687303498290375946264539329150124351750143220⟩) := by rfl

theorem evalC1_q0c1 : Uint256.iterate (CurvePoint.windowStep tblPub1 CurvePoint.ORDER) 4 (60, ⟨88803091447183782019440547163225503357769376350721048253565991270625200728143, 14321142710779366747851160741606450360967623132514939656557235236912983526173, 73993023486560424377210278828363687303498290375946264539329150124351750143220⟩) = (56, ⟨101047807254537704662238381550623553048486667944112259307045259812504746979793, 55163317948378359123106916266608925232054855303861606484389560622116831182701, 67426957977760230023494529295717612308533060282718154588761264943259150172895⟩) := by rfl

theorem evalC1_q0c2 : Uint256.iterate (CurvePoint.windowStep tblPub1 CurvePoint.ORDER) 4 (56, ⟨101047807254537704662238381550623553048486667944112259307045259812504746979793, 55163317948378359123106916266608925232054855303861606484389560622116831182701, 67426957977760230023494529295717612308533060282718154588761264943259150172895⟩) = (52, ⟨82547272920622803263687629502239355696770551285850680385626071438374273626890, 31648848945274935449888337285527622936145164701369608860570040054064800724539, 1024261455094294786892582822508921071333526936132758013952053681670494164150⟩) := by rfl

theorem evalC1_q0c3 : Uint256.iterate (CurvePoint.windowStep tblPub1 CurvePoint.ORDER) 4 (52, ⟨82547272920622803263687629502239355696770551285850680385626071438374273626890, 31648848945274935449888337285527622936145164701369608860570040054064800724539, 1024261455094294786892582822508921071333526936132758013952053681670494164150⟩) = (48, ⟨60977392318338874415375119890701488265674270030686393429758342486178947785637, 13542020765190579887935790183356968488433593244728324962779150881128139723122, 42331919631154456780655705730240013615538342747708131639006503994062908075478⟩) := by rfl

theorem evalC1_q0c4 : Uint256.iterate (CurvePoint.windowStep tblPub1 CurvePoint.ORDER) 4 (48, ⟨60977392318338874415375119890701488265674270030686393429758342486178947785637, 13542020765190579887935790183356968488433593244728324962779150881128139723122, 42331919631154456780655705730240013615538342747708131639006503994062908075478⟩) = (44, ⟨6965910860413842051860341295966764082204511599415234255047588949980173674424, 6885149450504167658892755592821051038007319630245406747773387723761321017315, 23642481258905294990474136712649115917021762088308015632959298105011987571513⟩) := by rfl

theorem evalC1_q0c5 : Uint256.iterate (CurvePoint.windowStep tblPub1 CurvePoint.ORDER) 4 (44, ⟨6965910860413842051860341295966764082204511599415234255047588949980173674424, 6885149450504167658892755592821051038007319630245406747773387723761321017315, 23642481258905294990474136712649115917021762088308015632959298105011987571513⟩) = (40, ⟨42524560802533024236807026116941860066838543607364875736870986077568250080580, 42532424031337821806898549005073642597561998878892687725329753250151155321732, 62100156400733683491493374250474708013546225498878699760749327220363523098195⟩) := by rfl

theorem evalC1_q0c6 : Uint256.iterate (CurvePoint.windowStep tblPub1 CurvePoint.ORDER) 4 (40, ⟨42524560802533024236807026116941860066838543607364875736870986077568250080580, 42532424031337821806898549005073642597561998878892687725329753250151155321732, 62100156400733683491493374250474708013546225498878699760749327220363523098195⟩) = (36, ⟨32039115795735904580135370892261772918620973310132771313454269539905108757732, 28535741159098724410644640147624303288110545042236383010019527287403069743878, 115124580377107553513073181186589048193231543355169871180269668445143716243219⟩) := by rfl

theorem evalC1_q0c7 : Uint256.iterate (CurvePoint.windowStep tblPub1 CurvePoint.ORDER) 4 (36, ⟨32039115795735904580135370892261772918620973310132771313454269539905108757732, 28535741159098724410644640147624303288110545042236383010019527287403069743878, 115124580377107553513073181186589048193231543355169871180269668445143716243219⟩) = (32, ⟨36269926046186999531497859245743843347023999306206128219429673318831035044292, 101109053689330761763095822534566211976116292028743157851038296136764412128686, 44533120120863847896156650043329708675118239979346018707485181719522156924766⟩) := by rfl

theorem evalC1_q0c8 : Uint256.iterate (CurvePoint.windowStep tblPub1 CurvePoint.ORDER) 4 (32, ⟨36269926046186999531497859245743843347023999306206128219429673318831035044292, 101109053689330761763095822534566211976116292028743157851038296136764412128686, 44533120120863847896156650043329708675118239979346018707485181719522156924766⟩) = (28, ⟨66111478304417396358083453275225826752908001210430045080550033765540783558060, 81302021208285539198628856911915897950366853522300964727207457838234386681863, 45426181437432158977671691230435474209477176977694117268382829140918419256122⟩) := by rfl

theorem evalC1_q0c9 : Uint256.iterate (CurvePoint.windowStep tblPub1 CurvePoint.ORDER) 4 (28, ⟨66111478304417396358083453275225826752908001210430045080550033765540783558060, 81302021208285539198628856911915897950366853522300964727207457838234386681863, 45426181437432158977671691230435474209477176977694117268382829140918419256122⟩) = (24, ⟨61375200067999308181990232566932448610934485153909139141726679521954894062016, 76580250754853206760557367229171114599182870568115152107851086338033136088341, 81572656964237234127499612787106497611307035628990007590331262551803085031738⟩) := by rfl

theorem evalC1_q0c10 : Uint256.iterate (CurvePoint.windowStep tblPub1 CurvePoint.ORDER) 4 (24, ⟨61375200067999308181990232566932448610934485153909139141726679521954894062016, 76580250754853206760557367229171114599182870568115152107851086338033136088341, 81572656964237234127499612787106497611307035628990007590331262551803085031738⟩) = (20, ⟨50249884303074966443050724634791197550567012693060455823289959669909946465640, 19684970645164241877005805757259078502299383503024026974583928944040409863335, 20513618588477415607793194837742863576836771280936237214475335787351792954010⟩) := by rfl

theorem evalC1_q0c11 : Uint256.iterate (CurvePoint.windowStep tblPub1 CurvePoint.ORDER) 4 (20, ⟨50249884303074966443050724634791197550567012693060455823289959669909946465640, 19684970645164241877005805757259078502299383503024026974583928944040409863335, 20513618588477415607793194837742863576836771280936237214475335787351792954010⟩) = (16, ⟨111213319280474414425400395408172951185070427985734901457511360374177852437216, 74162879428324587079936903645747360555148312389785317293145350972880156078156, 81673743608981928810769933802011077056891927683903185184037498693847341414286⟩) := by rfl

theorem evalC1_q0c12 : Uint256.iterate (CurvePoint.windowStep tblPub1 CurvePoint.ORDER) 4 (16, ⟨111213319280474414425400395408172951185070427985734901457511360374177852437216, 74162879428324587079936903645747360555148312389785317293145350972880156078156, 81673743608981928810769933802011077056891927683903185184037498693847341414286⟩) = (12, ⟨76130719695732696544801071046882690517403026309254190715771216863277401502237, 1885020314887408905740560525637661819187824710858284575967384653481789209692, 43475755075856461276040076114995553425204240731240130256295444002018876821442⟩) := by rfl

theorem evalC1_q0c13 : Uint256.iterate (CurvePoint.windowStep tblPub1 CurvePoint.ORDER) 4 (12, ⟨76130719695732696544801071046882690517403026309254190715771216863277401502237, 1885020314887408905740560525637661819187824710858284575967384653481789209692, 43475755075856461276040076114995553425204240731240130256295444002018876821442⟩) = (8, ⟨61271734516365121603145448962035890921974754021572365311759484151057564112417, 79557534490619843144438893375929132734471972493466368048263145834401976969845, 100547420185228024049170325261669117186179719417404075868692615972754291236404⟩) := by rfl

theorem evalC1_q0c14 : Uint256.iterate (CurvePoint.windowStep tblPub1 CurvePoint.ORDER) 4 (8, ⟨61271734516365121603145448962035890921974754021572365311759484151057564112417, 79557534490619843144438893375929132734471972493466368048263145834401976969845, 100547420185228024049170325261669117186179719417404075868692615972754291236404⟩) = (4, ⟨14800284006113113366113533458419567359601883552293530506707777185762386586406, 90791529209638887305392985022642944014818002676148695483252444751483178303483, 91434400283533083013825124497605746426653618825480995693919318144724546497884⟩) := by rfl

theorem evalC1_q0c15 : Uint256.iterate (CurvePoint.windowStep tblPub1 CurvePoint.ORDER) 4 (4, ⟨14800284006113113366113533458419567359601883552293530506707777185762386586406, 90791529209638887305392985022642944014818002676148695483252444751483178303483, 91434400283533083013825124497605746426653618825480995693919318144724546497884⟩) = (0, ⟨0, 1, 0⟩) := by rfl

theorem evalC1_q0 : CurvePoint.multiply ⟨110131914628909843887527015709277618292067400090353988390355590382136303927197, 87982058461631509175987196024672419241324887612402882210567295520400057757314, 1⟩ CurvePoint.ORDER = ⟨0, 1, 0⟩ := by
  have ht : CurvePoint.table ⟨110131914628909843887527015709277618292067400090353988390355590382136303927197, 87982058461631509175987196024672419241324887612402882210567295520400057757314, 1⟩ = tblPub1 := by rfl
  have h : Uint256.iterate (CurvePoint.windowStep tblPub1 CurvePoint.ORDER) 64 (64, CurvePoint.ZERO) = (0, ⟨0, 1, 0⟩) := (Uint256.iterate_glue (CurvePoint.windowStep tblPub1 CurvePoint.ORDER) 4 60 evalC1_q0c0 (Uint256.iterate_glue (CurvePoint.windowStep tblPub1 CurvePoint.ORDER) 4 56 evalC1_q0c1 (Uint256.iterate_glue (CurvePoint.windowStep tblPub1 CurvePoint.ORDER) 4 52 evalC1_q0c2 (Uint256.iterate_glue (CurvePoint.windowStep tblPub1 CurvePoint.ORDER) 4 48 evalC1_q0c3 (Uint256.iterate_glue (CurvePoint.windowStep tblPub1 CurvePoint.ORDER) 4 44 evalC1_q0c4 (Uint256.iterate_glue (CurvePoint.windowStep tblPub1 CurvePoint.ORDER) 4 40 evalC1_q0c5 (Uint256.iterate_glue (CurvePoint.windowStep tblPub1 CurvePoint.ORDER) 4 36 evalC1_q0c6 (Uint256.iterate_glue (CurvePoint.windowStep tblPub1 CurvePoint.ORDER) 4 32 evalC1_q0c7 (Uint256.iterate_glue (CurvePoint.windowStep tblPub1 CurvePoint.ORDER) 4 28 evalC1_q0c8 (Uint256.iterate_glue (CurvePoint.windowStep tblPub1 CurvePoint.ORDER) 4 24 evalC1_q0c9 (Uint256.iterate_glue (CurvePoint.windowStep tblPub1 CurvePoint.ORDER) 4 20 evalC1_q0c10 (Uint256.iterate_glue (CurvePoint.windowStep tblPub1 CurvePoint.ORDER) 4 16 evalC1_q0c11 (Uint256.iterate_glue (CurvePoint.windowStep tblPub1 CurvePoint.ORDER) 4 12 evalC1_q0c12 (Uint256.iterate_glue (CurvePoint.windowStep tblPub1 CurvePoint.ORDER) 4 8 evalC1_q0c13 (Uint256.iterate_glue (CurvePoint.windowStep tblPub1 CurvePoint.ORDER) 4 4 evalC1_q0c14 evalC1_q0c15)))))))))))))))
  show (Uint256.iterate (CurvePoint.windowStep (CurvePoint.table ⟨110131914628909843887527015709277618292067400090353988390355590382136303927197, 87982058461631509175987196024672419241324887612402882210567295520400057757314, 1⟩) CurvePoint.ORDER) 64 (64, CurvePoint.ZERO)).2 = ⟨0, 1, 0⟩
  rw [ht, h]

theorem evalC1_wc0 : Uint256.iterate (Uint256.recipStep CurvePoint.ORDER 57896044618658097711785492504343953926418782139537452191302581570759080747169) 64 ⟨CurvePoint.ORDER, 216210193282829828426210433197483974039, 0, 1⟩ = ⟨216210193282829828426210433197483974039, 12554203470773361527609707481244813550629581923406551878902, 1, 20529492204247115024928916761940333469937334610647015823266484088530356920288⟩ := by rfl

theorem evalC1_wc1 : Uint256.iterate (Uint256.recipStep CurvePoint.ORDER 57896044618658097711785492504343953926418782139537452191302581570759080747169) 64 ⟨216210193282829828426210433197483974039, 12554203470773361527609707481244813550629581923406551878902, 1, 20529492204247115024928916761940333469937334610647015823266484088530356920288⟩ = ⟨216210193282829828426210433197483974039, 620222942348386614890243949933686536634, 1, 20069894597948149585793172149591091142406073163149830192257277041850924872904⟩ := by rfl

theorem evalC1_wc2 : Uint256.iterate (Uint256.recipStep CurvePoint.ORDER 57896044618658097711785492504343953926418782139537452191302581570759080747169) 64 ⟨216210193282829828426210433197483974039, 620222942348386614890243949933686536634, 1, 20069894597948149585793172149591091142406073163149830192257277041850924872904⟩ = ⟨3041550383508941396780215, 3934942174640143735719004, 75571659766351102335222314513558480901374036664785139727832824757285831568130, 50777786591706490152862651814415394630139861371828162604478457380513202176770⟩ := by rfl

theorem evalC1_wc3 : Uint256.iterate (Uint256.recipStep CurvePoint.ORDER 57896044618658097711785492504343953926418782139537452191302581570759080747169) 64 ⟨3041550383508941396780215, 3934942174640143735719004, 75571659766351102335222314513558480901374036664785139727832824757285831568130, 50777786591706490152862651814415394630139861371828162604478457380513202176770⟩ = ⟨30840892543, 557645494954, 99809789993808154100150108662694653639871223956741890267994765500865499427044, 34838281900128225551442605543363120161196410655324242352747120262418395740878⟩ := by rfl

theorem evalC1_wc4 : Uint256.iterate (Uint256.recipStep CurvePoint.ORDER 57896044618658097711785492504343953926418782139537452191302581570759080747169) 64 ⟨30840892543, 557645494954, 99809789993808154100150108662694653639871223956741890267994765500865499427044, 34838281900128225551442605543363120161196410655324242352747120262418395740878⟩ = ⟨1, 0, 41313576244261161145652152761654969881903873135674962397373387559942588276009, 0⟩ := by rfl

theorem evalC1_wc5 : Uint256.iterate (Uint256.recipStep CurvePoint.ORDER 57896044618658097711785492504343953926418782139537452191302581570759080747169) 64 ⟨1, 0, 41313576244261161145652152761654969881903873135674962397373387559942588276009, 0⟩ = ⟨1, 0, 41313576244261161145652152761654969881903873135674962397373387559942588276009, 0⟩ := by rfl

theorem evalC1_wc6 : Uint256.iterate (Uint256.recipStep CurvePoint.ORDER 57896044618658097711785492504343953926418782139537452191302581570759080747169) 64 ⟨1, 0, 41313576244261161145652152761654969881903873135674962397373387559942588276009, 0⟩ = ⟨1, 0, 41313576244261161145652152761654969881903873135674962397373387559942588276009, 0⟩ := by rfl

theorem evalC1_wc7 : Uint256.iterate (Uint256.recipStep CurvePoint.ORDER 57896044618658097711785492504343953926418782139537452191302581570759080747169) 64 ⟨1, 0, 41313576244261161145652152761654969881903873135674962397373387559942588276009, 0⟩ = ⟨1, 0, 41313576244261161145652152761654969881903873135674962397373387559942588276009, 0⟩ := by rfl

theorem evalC1_w : Uint256.reciprocal 216210193282829828426210433197483974039 CurvePoint.ORDER = 41313576244261161145652152761654969881903873135674962397373387559942588276009 := by
  have h : Uint256.iterate (Uint256.recipStep CurvePoint.ORDER 57896044618658097711785492504343953926418782139537452191302581570759080747169) 512 ⟨CurvePoint.ORDER, 216210193282829828426210433197483974039, 0, 1⟩ = ⟨1, 0, 41313576244261161145652152761654969881903873135674962397373387559942588276009, 0⟩ := (Uint256.iterate_glue (Uint256.recipStep CurvePoint.ORDER 57896044618658097711785492504343953926418782139537452191302581570759080747169) 64 448 evalC1_wc0 (Uint256.iterate_glue (Uint256.recipStep CurvePoint.ORDER 57896044618658097711785492504343953926418782139537452191302581570759080747169) 64 384 evalC1_wc1 (Uint256.iterate_glue (Uint256.recipStep CurvePoint.ORDER 57896044618658097711785492504343953926418782139537452191302581570759080747169) 64 320 evalC1_wc2 (Uint256.iterate_glue (Uint256.recipStep CurvePoint.ORDER 57896044618658097711785492504343953926418782139537452191302581570759080747169) 64 256 evalC1_wc3 (Uint256.iterate_glue (Uint256.recipStep CurvePoint.ORDER 57896044618658097711785492504343953926418782139537452191302581570759080747169) 64 192 evalC1_wc4 (Uint256.iterate_glue (Uint256.recipStep CurvePoint.ORDER 57896044618658097711785492504343953926418782139537452191302581570759080747169) 64 128 evalC1_wc5 (Uint256.iterate_glue (Uint256.recipStep CurvePoint.ORDER 57896044618658097711785492504343953926418782139537452191302581570759080747169) 64 64 evalC1_wc6 evalC1_wc7)))))))
  show Uint256.replace 216210193282829828426210433197483974039 (Uint256.iterate (Uint256.recipStep CurvePoint.ORDER ((CurvePoint.ORDER + 1) % W / 2)) 512 ⟨CurvePoint.ORDER, 216210193282829828426210433197483974039, 0, 1⟩).a (decide (216210193282829828426210433197483974039 ≠ 0)) = 41313576244261161145652152761654969881903873135674962397373387559942588276009
  rw [show ((CurvePoint.ORDER + 1) % W / 2) = 57896044618658097711785492504343953926418782139537452191302581570759080747169 from by rfl]
  rw [h]
  rfl

theorem evalC1_u1c0 : Uint256.iterate (Ecdsa.mmoLoop 41313576244261161145652152761654969881903873135674962397373387559942588276009 115792089237316195423570985008687907853269984665640564039457584007913129639935) 32 (256, 0) = (224, 88497735616744681540014276115345024247806644253465316799769299980484936661385) := by rfl

theorem evalC1_u1c1 : Uint256.iterate (Ecdsa.mmoLoop 41313576244261161145652152761654969881903873135674962397373387559942588276009 115792089237316195423570985008687907853269984665640564039457584007913129639935) 32 (224, 88497735616744681540014276115345024247806644253465316799769299980484936661385) = (192, 55541745910620942687805265215245270199916940802944603103315357304702435060684) := by rfl

theorem evalC1_u1c2 : Uint256.iterate (Ecdsa.mmoLoop 41313576244261161145652152761654969881903873135674962397373387559942588276009 115792089237316195423570985008687907853269984665640564039457584007913129639935) 32 (192, 55541745910620942687805265215245270199916940802944603103315357304702435060684) = (160, 32446415155657621316792490627444266971380554405632029005860685408451421990377) := by rfl

theorem evalC1_u1c3 : Uint256.iterate (Ecdsa.mmoLoop 41313576244261161145652152761654969881903873135674962397373387559942588276009 115792089237316195423570985008687907853269984665640564039457584007913129639935) 32 (160, 32446415155657621316792490627444266971380554405632029005860685408451421990377) = (128, 45796873754456063796567392257859400268581216154693337327338224574513863442078) := by rfl

theorem evalC1_u1c4 : Uint256.iterate (Ecdsa.mmoLoop 41313576244261161145652152761654969881903873135674962397373387559942588276009 115792089237316195423570985008687907853269984665640564039457584007913129639935) 32 (128, 45796873754456063796567392257859400268581216154693337327338224574513863442078) = (96, 102721372035053692117754716186397996911652425092441440216348238817071710636127) := by rfl

theorem evalC1_u1c5 : Uint256.iterate (Ecdsa.mmoLoop 41313576244261161145652152761654969881903873135674962397373387559942588276009 115792089237316195423570985008687907853269984665640564039457584007913129639935) 32 (96, 102721372035053692117754716186397996911652425092441440216348238817071710636127) = (64, 41569562029733510085515052939477170536804071485443280365800611503089447773327) := by rfl

theorem evalC1_u1c6 : Uint256.iterate (Ecdsa.mmoLoop 41313576244261161145652152761654969881903873135674962397373387559942588276009 115792089237316195423570985008687907853269984665640564039457584007913129639935) 32 (64, 41569562029733510085515052939477170536804071485443280365800611503089447773327) = (32, 44577592843934936920500779257936329941677740555670863295350345499848758733753) := by rfl

theorem evalC1_u1c7 : Uint256.iterate (Ecdsa.mmoLoop 41313576244261161145652152761654969881903873135674962397373387559942588276009 115792089237316195423570985008687907853269984665640564039457584007913129639935) 32 (32, 44577592843934936920500779257936329941677740555670863295350345499848758733753) = (0, 41674945080309403895186964826720960631354319272836173857848767650641286886281) := by rfl

theorem evalC1_u1 : Ecdsa.multiplyModOrder 41313576244261161145652152761654969881903873135674962397373387559942588276009 115792089237316195423570985008687907853269984665640564039457584007913129639935 = 41674945080309403895186964826720960631354319272836173857848767650641286886281 := by
  have h : Uint256.iterate (Ecdsa.mmoLoop 41313576244261161145652152761654969881903873135674962397373387559942588276009 115792089237316195423570985008687907853269984665640564039457584007913129639935) 256 (256, 0) = (0, 41674945080309403895186964826720960631354319272836173857848767650641286886281) := (Uint256.iterate_glue (Ecdsa.mmoLoop 41313576244261161145652152761654969881903873135674962397373387559942588276009 115792089237316195423570985008687907853269984665640564039457584007913129639935) 32 224 evalC1_u1c0 (Uint256.iterate_glue (Ecdsa.mmoLoop 41313576244261161145652152761654969881903873135674962397373387559942588276009 115792089237316195423570985008687907853269984665640564039457584007913129639935) 32 192 evalC1_u1c1 (Uint256.iterate_glue (Ecdsa.mmoLoop 41313576244261161145652152761654969881903873135674962397373387559942588276009 115792089237316195423570985008687907853269984665640564039457584007913129639935) 32 160 evalC1_u1c2 (Uint256.iterate_glue (Ecdsa.mmoLoop 41313576244261161145652152761654969881903873135674962397373387559942588276009 115792089237316195423570985008687907853269984665640564039457584007913129639935) 32 128 evalC1_u1c3 (Uint256.iterate_glue (Ecdsa.mmoLoop 41313576244261161145652152761654969881903873135674962397373387559942588276009 115792089237316195423570985008687907853269984665640564039457584007913129639935) 32 96 evalC1_u1c4 (Uint256.iterate_glue (Ecdsa.mmoLoop 41313576244261161145652152761654969881903873135674962397373387559942588276009 115792089237316195423570985008687907853269984665640564039457584007913129639935) 32 64 evalC1_u1c5 (Uint256.iterate_glue (Ecdsa.mmoLoop 41313576244261161145652152761654969881903873135674962397373387559942588276009 115792089237316195423570985008687907853269984665640564039457584007913129639935) 32 32 evalC1_u1c6 evalC1_u1c7)))))))
  show (Uint256.iterate (Ecdsa.mmoLoop 41313576244261161145652152761654969881903873135674962397373387559942588276009 115792089237316195423570985008687907853269984665640564039457584007913129639935) 256 (256, 0)).2 = 41674945080309403895186964826720960631354319272836173857848767650641286886281
  rw [h]

theorem evalC1_u2c0 : Uint256.iterate (Ecdsa.mmoLoop 41313576244261161145652152761654969881903873135674962397373387559942588276009 112243646385000477525928989106902976049026426196646608009573930773579701902386) 32 (256, 0) = (224, 77242470675485441077336378405819980334144657447222301676005737055929939735334) := by rfl

theorem evalC1_u2c1 : Uint256.iterate (Ecdsa.mmoLoop 41313576244261161145652152761654969881903873135674962397373387559942588276009 112243646385000477525928989106902976049026426196646608009573930773579701902386) 32 (224, 77242470675485441077336378405819980334144657447222301676005737055929939735334) = (192, 41045245022677362818454245171406536089355196135432953495086018506904238240696) := by rfl

theorem evalC1_u2c2 : Uint256.iterate (Ecdsa.mmoLoop 41313576244261161145652152761654969881903873135674962397373387559942588276009 112243646385000477525928989106902976049026426196646608009573930773579701902386) 32 (192, 41045245022677362818454245171406536089355196135432953495086018506904238240696) = (160, 42824890816444951175430504230101129393478239574550833592895159297656469575960) := by rfl

theorem evalC1_u2c3 : Uint256.iterate (Ecdsa.mmoLoop 41313576244261161145652152761654969881903873135674962397373387559942588276009 112243646385000477525928989106902976049026426196646608009573930773579701902386) 32 (160, 42824890816444951175430504230101129393478239574550833592895159297656469575960) = (128, 48568383440732768578649030621429912999384492795028290179325064733502355556129) := by rfl

theorem evalC1_u2c4 : Uint256.iterate (Ecdsa.mmoLoop 41313576244261161145652152761654969881903873135674962397373387559942588276009 112243646385000477525928989106902976049026426196646608009573930773579701902386) 32 (128, 48568383440732768578649030621429912999384492795028290179325064733502355556129) = (96, 26676012281451103980624365035959919620808306244320582837420645003480849405373) := by rfl

theorem evalC1_u2c5 : Uint256.iterate (Ecdsa.mmoLoop 41313576244261161145652152761654969881903873135674962397373387559942588276009 112243646385000477525928989106902976049026426196646608009573930773579701902386) 32 (96, 26676012281451103980624365035959919620808306244320582837420645003480849405373) = (64, 69641523540652772065147151828072288423435279272174591979903847213765909231845) := by rfl

theorem evalC1_u2c6 : Uint256.iterate (Ecdsa.mmoLoop 41313576244261161145652152761654969881903873135674962397373387559942588276009 112243646385000477525928989106902976049026426196646608009573930773579701902386) 32 (64, 69641523540652772065147151828072288423435279272174591979903847213765909231845) = (32, 12731036646255227034338781550296722003110618712784681189893765759992362943881) := by rfl

theorem evalC1_u2c7 : Uint256.iterate (Ecdsa.mmoLoop 41313576244261161145652152761654969881903873135674962397373387559942588276009 112243646385000477525928989106902976049026426196646608009573930773579701902386) 32 (32, 12731036646255227034338781550296722003110618712784681189893765759992362943881) = (0, 88280897097186924765026888957676943910789355863509977920018901867458903443585) := by rfl

theorem evalC1_u2 : Ecdsa.multiplyModOrder 41313576244261161145652152761654969881903873135674962397373387559942588276009 112243646385000477525928989106902976049026426196646608009573930773579701902386 = 88280897097186924765026888957676943910789355863509977920018901867458903443585 := by
  have h : Uint256.iterate (Ecdsa.mmoLoop 41313576244261161145652152761654969881903873135674962397373387559942588276009 112243646385000477525928989106902976049026426196646608009573930773579701902386) 256 (256, 0) = (0, 88280897097186924765026888957676943910789355863509977920018901867458903443585) := (Uint256.iterate_glue (Ecdsa.mmoLoop 41313576244261161145652152761654969881903873135674962397373387559942588276009 112243646385000477525928989106902976049026426196646608009573930773579701902386) 32 224 evalC1_u2c0 (Uint256.iterate_glue (Ecdsa.mmoLoop 41313576244261161145652152761654969881903873135674962397373387559942588276009 112243646385000477525928989106902976049026426196646608009573930773579701902386) 32 192 evalC1_u2c1 (Uint256.iterate_glue (Ecdsa.mmoLoop 41313576244261161145652152761654969881903873135674962397373387559942588276009 112243646385000477525928989106902976049026426196646608009573930773579701902386) 32 160 evalC1_u2c2 (Uint256.iterate_glue (Ecdsa.mmoLoop 41313576244261161145652152761654969881903873135674962397373387559942588276009 112243646385000477525928989106902976049026426196646608009573930773579701902386) 32 128 evalC1_u2c3 (Uint256.iterate_glue (Ecdsa.mmoLoop 41313576244261161145652152761654969881903873135674962397373387559942588276009 112243646385000477525928989106902976049026426196646608009573930773579701902386) 32 96 evalC1_u2c4 (Uint256.iterate_glue (Ecdsa.mmoLoop 41313576244261161145652152761654969881903873135674962397373387559942588276009 112243646385000477525928989106902976049026426196646608009573930773579701902386) 32 64 evalC1_u2c5 (Uint256.iterate_glue (Ecdsa.mmoLoop 41313576244261161145652152761654969881903873135674962397373387559942588276009 112243646385000477525928989106902976049026426196646608009573930773579701902386) 32 32 evalC1_u2c6 evalC1_u2c7)))))))
  show (Uint256.iterate (Ecdsa.mmoLoop 41313576244261161145652152761654969881903873135674962397373387559942588276009 112243646385000477525928989106902976049026426196646608009573930773579701902386) 256 (256, 0)).2 = 88280897097186924765026888957676943910789355863509977920018901867458903443585
  rw [h]

theorem evalC1_p1c0 : Uint256.iterate (CurvePoint.windowStep tblG 41674945080309403895186964826720960631354319272836173857848767650641286886281) 4 (64, CurvePoint.ZERO) = (60, ⟨65223510179042511806820077051268328177130125057045956206417413851640310594670, 81519749585670994946851198815483059778200665358365267549287129988526025261208, 11039822632010866039256178056082189471565405905348666470170512608498554526117⟩) := by rfl

theorem evalC1_p1c1 : Uint256.iterate (CurvePoint.windowStep tblG 41674945080309403895186964826720960631354319272836173857848767650641286886281) 4 (60, ⟨65223510179042511806820077051268328177130125057045956206417413851640310594670, 81519749585670994946851198815483059778200665358365267549287129988526025261208, 11039822632010866039256178056082189471565405905348666470170512608498554526117⟩) = (56, ⟨60663851741953732982030456357000588217713331665845669914973320147025601461658, 45184434028007613855934140491667864094888647929255626547507123724578578298659, 100450136387927778225083496766370718345974189553201857048152308163909161726561⟩) := by rfl

theorem evalC1_p1c2 : Uint256.iterate (CurvePoint.windowStep tblG 41674945080309403895186964826720960631354319272836173857848767650641286886281) 4 (56, ⟨60663851741953732982030456357000588217713331665845669914973320147025601461658, 45184434028007613855934140491667864094888647929255626547507123724578578298659, 100450136387927778225083496766370718345974189553201857048152308163909161726561⟩) = (52, ⟨44323510172049770025822970588667747814212531444736235127573925602898613299034, 62101448985447776094761952444878642116511384247712949576864070117299410761309, 66937208087942359849370331468556484682846623452272781918296323559871463749088⟩) := by rfl

theorem evalC1_p1c3 : Uint256.iterate (CurvePoint.windowStep tblG 41674945080309403895186964826720960631354319272836173857848767650641286886281) 4 (52, ⟨44323510172049770025822970588667747814212531444736235127573925602898613299034, 62101448985447776094761952444878642116511384247712949576864070117299410761309, 66937208087942359849370331468556484682846623452272781918296323559871463749088⟩) = (48, ⟨29630969162995883878337134000541484783663053027983267882373692951369970470787, 1314751209545230290539979506238902325976887431381262160007280026767056194243, 34919926381966569168733094254185681051766146878155047551857590237834546137217⟩) := by rfl

theorem evalC1_p1c4 : Uint256.iterate (CurvePoint.windowStep tblG 41674945080309403895186964826720960631354319272836173857848767650641286886281) 4 (48, ⟨29630969162995883878337134000541484783663053027983267882373692951369970470787, 1314751209545230290539979506238902325976887431381262160007280026767056194243, 34919926381966569168733094254185681051766146878155047551857590237834546137217⟩) = (44, ⟨45386851807200196848911838960402106510109905361753509952521620082931918089856, 94809375723492689154916757663132706926115075125741593829530405952812242570227, 46422334669567689582171014635954168646219423253112561867746315631751544991514⟩) := by rfl

theorem evalC1_p1c5 : Uint256.iterate (CurvePoint.windowStep tblG 41674945080309403895186964826720960631354319272836173857848767650641286886281) 4 (44, ⟨45386851807200196848911838960402106510109905361753509952521620082931918089856, 94809375723492689154916757663132706926115075125741593829530405952812242570227, 46422334669567689582171014635954168646219423253112561867746315631751544991514⟩) = (40, ⟨66674593584355896092870312810256416714229014144645755787505599514165920457559, 57484157476085121345054175331874376385391890891884406882569325179253733624951, 43610678631865910222519310405806101235843824293371699066255488765720155742574⟩) := by rfl

theorem evalC1_p1c6 : Uint256.iterate (CurvePoint.windowStep tblG 41674945080309403895186964826720960631354319272836173857848767650641286886281) 4 (40, ⟨66674593584355896092870312810256416714229014144645755787505599514165920457559, 57484157476085121345054175331874376385391890891884406882569325179253733624951, 43610678631865910222519310405806101235843824293371699066255488765720155742574⟩) = (36, ⟨28758349635596241405563343370460236678691790804928685845972457459345339366762, 11389589321438344852497703472107954293806072664033988908310101410168896051512, 75309043975444643765621827284281076728579599372722749555942823538678991181408⟩) := by rfl

theorem evalC1_p1c7 : Uint256.iterate (CurvePoint.windowStep tblG 41674945080309403895186964826720960631354319272836173857848767650641286886281) 4 (36, ⟨28758349635596241405563343370460236678691790804928685845972457459345339366762, 11389589321438344852497703472107954293806072664033988908310101410168896051512, 75309043975444643765621827284281076728579599372722749555942823538678991181408⟩) = (32, ⟨78833451820570367013712906307839983728085813852365399814174830746662716353868, 98417893774629708239155869556319881477730619759315841056194980040871527085014, 19503387493601628284740081422831677389148819154899508186658613996602149506748⟩) := by rfl

theorem evalC1_p1c8 : Uint256.iterate (CurvePoint.windowStep tblG 41674945080309403895186964826720960631354319272836173857848767650641286886281) 4 (32, ⟨78833451820570367013712906307839983728085813852365399814174830746662716353868, 98417893774629708239155869556319881477730619759315841056194980040871527085014, 19503387493601628284740081422831677389148819154899508186658613996602149506748⟩) = (28, ⟨69605808628318472431245600512429420000047600324613025042732330382006440968985, 111867846710849781977198779829250922236380212972990411221970319321161543279692, 46339503703500866470465603031830628165290339089524534818488519390399782627864⟩) := by rfl

theorem evalC1_p1c9 : Uint256.iterate (CurvePoint.windowStep tblG 41674945080309403895186964826720960631354319272836173857848767650641286886281) 4 (28, ⟨69605808628318472431245600512429420000047600324613025042732330382006440968985, 111867846710849781977198779829250922236380212972990411221970319321161543279692, 46339503703500866470465603031830628165290339089524534818488519390399782627864⟩) = (24, ⟨98192322944004580406227473136945908837770437442489254161804206790223200629996, 84257197876084189962108491343697107694560329457115793656283330721537050005215, 47402765978319600995247521333083929210955091186187508692331970169819893157697⟩) := by rfl

theorem evalC1_p1c10 : Uint256.iterate (CurvePoint.windowStep tblG 41674945080309403895186964826720960631354319272836173857848767650641286886281) 4 (24, ⟨98192322944004580406227473136945908837770437442489254161804206790223200629996, 84257197876084189962108491343697107694560329457115793656283330721537050005215, 47402765978319600995247521333083929210955091186187508692331970169819893157697⟩) = (20, ⟨103071351094974202603200061518144447230134030011381958045011949506969095930160, 82214678660647621021360310613889793552236295705884351457426549433686018257829, 9815057115749846510615702792635670913872356961170597050329037234861852980303⟩) := by rfl

theorem evalC1_p1c11 : Uint256.iterate (CurvePoint.windowStep tblG 41674945080309403895186964826720960631354319272836173857848767650641286886281) 4 (20, ⟨103071351094974202603200061518144447230134030011381958045011949506969095930160, 82214678660647621021360310613889793552236295705884351457426549433686018257829, 9815057115749846510615702792635670913872356961170597050329037234861852980303⟩) = (16, ⟨79404697462541796774954571090654174632456413368468349096039755202644614034344, 79038623563629079679152333220821760645461141721292056157572380132880961056709, 45383398614191650720804958824425458303937317925228879035174522674851475942379⟩) := by rfl

theorem evalC1_p1c12 : Uint256.iterate (CurvePoint.windowStep tblG 41674945080309403895186964826720960631354319272836173857848767650641286886281) 4 (16, ⟨79404697462541796774954571090654174632456413368468349096039755202644614034344, 79038623563629079679152333220821760645461141721292056157572380132880961056709, 45383398614191650720804958824425458303937317925228879035174522674851475942379⟩) = (12, ⟨77735862091912320811968172898571836734571148880991567564656837407878929233908, 21471905697002019490124733377156757138375366785063439901883518458590461559180, 29935640101056454883659533927864461109342937347440001897558800291633648035429⟩) := by rfl

theorem evalC1_p1c13 : Uint256.iterate (CurvePoint.windowStep tblG 41674945080309403895186964826720960631354319272836173857848767650641286886281) 4 (12, ⟨77735862091912320811968172898571836734571148880991567564656837407878929233908, 21471905697002019490124733377156757138375366785063439901883518458590461559180, 29935640101056454883659533927864461109342937347440001897558800291633648035429⟩) = (8, ⟨60106136319184860843025446063260887120116797252013023262911108077735178041702, 69430401362141062795170921317122708529030006171188721791998322691995685116749, 37274871710313762389710127011574246419098917325109296451273009244821159160615⟩) := by rfl

theorem evalC1_p1c14 : Uint256.iterate (CurvePoint.windowStep tblG 41674945080309403895186964826720960631354319272836173857848767650641286886281) 4 (8, ⟨60106136319184860843025446063260887120116797252013023262911108077735178041702, 69430401362141062795170921317122708529030006171188721791998322691995685116749, 37274871710313762389710127011574246419098917325109296451273009244821159160615⟩) = (4, ⟨106398709795063597662071743666737271344516808737248857493203530625532653299518, 97678400312403504237092620874428469698786526393704326156047333339423606724051, 19252230951423544689584590202493388095673165999124357480872596896669384231138⟩) := by rfl

theorem evalC1_p1c15 : Uint256.iterate (CurvePoint.windowStep tblG 41674945080309403895186964826720960631354319272836173857848767650641286886281) 4 (4, ⟨106398709795063597662071743666737271344516808737248857493203530625532653299518, 97678400312403504237092620874428469698786526393704326156047333339423606724051, 19252230951423544689584590202493388095673165999124357480872596896669384231138⟩) = (0, ⟨55106136645004720810913569101116042096178231212908745565972373497146085355699, 91993383543014536272973117898686586786433665244464940233859862632205024783340, 79923669191049539124985301781609201666821115267858551519216390400859517901929⟩) := by rfl

theorem evalC1_p1 : CurvePoint.multiply CurvePoint.G 41674945080309403895186964826720960631354319272836173857848767650641286886281 = ⟨55106136645004720810913569101116042096178231212908745565972373497146085355699, 91993383543014536272973117898686586786433665244464940233859862632205024783340, 79923669191049539124985301781609201666821115267858551519216390400859517901929⟩ := by
  have ht : CurvePoint.table CurvePoint.G = tblG := by rfl
  have h : Uint256.iterate (CurvePoint.windowStep tblG 41674945080309403895186964826720960631354319272836173857848767650641286886281) 64 (64, CurvePoint.ZERO) = (0, ⟨55106136645004720810913569101116042096178231212908745565972373497146085355699, 91993383543014536272973117898686586786433665244464940233859862632205024783340, 79923669191049539124985301781609201666821115267858551519216390400859517901929⟩) := (Uint256.iterate_glue (CurvePoint.windowStep tblG 41674945080309403895186964826720960631354319272836173857848767650641286886281) 4 60 evalC1_p1c0 (Uint256.iterate_glue (CurvePoint.windowStep tblG 41674945080309403895186964826720960631354319272836173857848767650641286886281) 4 56 evalC1_p1c1 (Uint256.iterate_glue (CurvePoint.windowStep tblG 41674945080309403895186964826720960631354319272836173857848767650641286886281) 4 52 evalC1_p1c2 (Uint256.iterate_glue (CurvePoint.windowStep tblG 41674945080309403895186964826720960631354319272836173857848767650641286886281) 4 48 evalC1_p1c3 (Uint256.iterate_glue (CurvePoint.windowStep tblG 41674945080309403895186964826720960631354319272836173857848767650641286886281) 4 44 evalC1_p1c4 (Uint256.iterate_glue (CurvePoint.windowStep tblG 41674945080309403895186964826720960631354319272836173857848767650641286886281) 4 40 evalC1_p1c5 (Uint256.iterate_glue (CurvePoint.windowStep tblG 41674945080309403895186964826720960631354319272836173857848767650641286886281) 4 36 evalC1_p1c6 (Uint256.iterate_glue (CurvePoint.windowStep tblG 41674945080309403895186964826720960631354319272836173857848767650641286886281) 4 32 evalC1_p1c7 (Uint256.iterate_glue (CurvePoint.windowStep tblG 41674945080309403895186964826720960631354319272836173857848767650641286886281) 4 28 evalC1_p1c8 (Uint256.iterate_glue (CurvePoint.windowStep tblG 41674945080309403895186964826720960631354319272836173857848767650641286886281) 4 24 evalC1_p1c9 (Uint256.iterate_glue (CurvePoint.windowStep tblG 41674945080309403895186964826720960631354319272836173857848767650641286886281) 4 20 evalC1_p1c10 (Uint256.iterate_glue (CurvePoint.windowStep tblG 41674945080309403895186964826720960631354319272836173857848767650641286886281) 4 16 evalC1_p1c11 (Uint256.iterate_glue (CurvePoint.windowStep tblG 41674945080309403895186964826720960631354319272836173857848767650641286886281) 4 12 evalC1_p1c12 (Uint256.iterate_glue (CurvePoint.windowStep tblG 41674945080309403895186964826720960631354319272836173857848767650641286886281) 4 8 evalC1_p1c13 (Uint256.iterate_glue (CurvePoint.windowStep tblG 41674945080309403895186964826720960631354319272836173857848767650641286886281) 4 4 evalC1_p1c14 evalC1_p1c15)))))))))))))))
  show (Uint256.iterate (CurvePoint.windowStep (CurvePoint.table CurvePoint.G) 41674945080309403895186964826720960631354319272836173857848767650641286886281) 64 (64, CurvePoint.ZERO)).2 = ⟨55106136645004720810913569101116042096178231212908745565972373497146085355699, 91993383543014536272973117898686586786433665244464940233859862632205024783340, 79923669191049539124985301781609201666821115267858551519216390400859517901929⟩
  rw [ht, h]

theorem evalC1_q1c0 : Uint256.iterate (CurvePoint.windowStep tblPub1 88280897097186924765026888957676943910789355863509977920018901867458903443585) 4 (64, CurvePoint.ZERO) = (60, ⟨28763164777086199079835810953952282634480865314354710597338786395353670215777, 84290661891287763734011114499917897814376388254339575825825333660451713099593, 57616378629355845863060462481465561679578605004691096284729150107261649206682⟩) := by rfl

theorem evalC1_q1c1 : Uint256.iterate (CurvePoint.windowStep tblPub1 88280897097186924765026888957676943910789355863509977920018901867458903443585) 4 (60, ⟨28763164777086199079835810953952282634480865314354710597338786395353670215777, 84290661891287763734011114499917897814376388254339575825825333660451713099593, 57616378629355845863060462481465561679578605004691096284729150107261649206682⟩) = (56, ⟨31078490693430788843223039484683187465549768535342404498362901511185077440423, 40105218775330847966794262297201956382241145832199577834880806304420066079011, 46760995005247692079705589563266390240414164610207151447411338869429574104886⟩) := by rfl

theorem evalC1_q1c2 : Uint256.iterate (CurvePoint.windowStep tblPub1 88280897097186924765026888957676943910789355863509977920018901867458903443585) 4 (56, ⟨31078490693430788843223039484683187465549768535342404498362901511185077440423, 40105218775330847966794262297201956382241145832199577834880806304420066079011, 46760995005247692079705589563266390240414164610207151447411338869429574104886⟩) = (52, ⟨97700376089618354759528471649812315228366353055282835138365245767327070424326, 73589082717196897477588532294190167766947546475519581549099653407655190954807, 17273600962298901829232233239901866141277363929547690594513630779796719116995⟩) := by rfl

theorem evalC1_q1c3 : Uint256.iterate (CurvePoint.windowStep tblPub1 88280897097186924765026888957676943910789355863509977920018901867458903443585) 4 (52, ⟨97700376089618354759528471649812315228366353055282835138365245767327070424326, 73589082717196897477588532294190167766947546475519581549099653407655190954807, 17273600962298901829232233239901866141277363929547690594513630779796719116995⟩) = (48, ⟨11214717051571803384130885878999160506792221707379422484861851389707255542109, 51450091639374565271432915643970934814205407890544010893674644089722346272484, 91637991490471459618921064066012744892282227631687393183085828054934411793777⟩) := by rfl

theorem evalC1_q1c4 : Uint256.iterate (CurvePoint.windowStep tblPub1 88280897097186924765026888957676943910789355863509977920018901867458903443585) 4 (48, ⟨11214717051571803384130885878999160506792221707379422484861851389707255542109, 51450091639374565271432915643970934814205407890544010893674644089722346272484, 91637991490471459618921064066012744892282227631687393183085828054934411793777⟩) = (44, ⟨14371620558746706353772266779948362302022101244325423175794907556199664628871, 16700932770291906036138554148460089394332874691301897765801659439250842827717, 51423931334010882609568116357759083934090571444539456699806703899006108036899⟩) := by rfl

theorem evalC1_q1c5 : Uint256.iterate (CurvePoint.windowStep tblPub1 88280897097186924765026888957676943910789355863509977920018901867458903443585) 4 (44, ⟨14371620558746706353772266779948362302022101244325423175794907556199664628871, 16700932770291906036138554148460089394332874691301897765801659439250842827717, 51423931334010882609568116357759083934090571444539456699806703899006108036899⟩) = (40, ⟨10793956774441452716996135078636191462880460550697844337540819559819734940718, 32160876566991754057827494076893746019949845531173402332431971681204244240670, 86975142828209107197924489360193109060175355115318740399598414740728699766983⟩) := by rfl

theorem evalC1_q1c6 : Uint256.iterate (CurvePoint.windowStep tblPub1 88280897097186924765026888957676943910789355863509977920018901867458903443585) 4 (40, ⟨10793956774441452716996135078636191462880460550697844337540819559819734940718, 32160876566991754057827494076893746019949845531173402332431971681204244240670, 86975142828209107197924489360193109060175355115318740399598414740728699766983⟩) = (36, ⟨23168220156812285762013125678721002708130481255823186167729870213503250828384, 71065875012514767874484087995998255650793557920568959087403748308748645730133, 53673689532731778435783790230468937580251292967992360135532755137295791445470⟩) := by rfl

theorem evalC1_q1c7 : Uint256.iterate (CurvePoint.windowStep tblPub1 88280897097186924765026888957676943910789355863509977920018901867458903443585) 4 (36, ⟨23168220156812285762013125678721002708130481255823186167729870213503250828384, 71065875012514767874484087995998255650793557920568959087403748308748645730133, 53673689532731778435783790230468937580251292967992360135532755137295791445470⟩) = (32, ⟨108122099273341191676663194310387026948870845756057680303776734239934323231019, 80958484044111552736980440348341471679949300139260971813704685076684140156246, 22934794339458527294500688445905238167175442881134757830573537269986725990341⟩) := by rfl

theorem evalC1_q1c8 : Uint256.iterate (CurvePoint.windowStep tblPub1 88280897097186924765026888957676943910789355863509977920018901867458903443585) 4 (32, ⟨108122099273341191676663194310387026948870845756057680303776734239934323231019, 80958484044111552736980440348341471679949300139260971813704685076684140156246, 22934794339458527294500688445905238167175442881134757830573537269986725990341⟩) = (28, ⟨34254349650751140156313578646703878142221316424632379868677498362109466857566, 36062956688063848713880637344088612604021475725129213017532371585571943656887, 44304030615180591965309704331002315089114690068233544987459129943175868819780⟩) := by rfl

theorem evalC1_q1c9 : Uint256.iterate (CurvePoint.windowStep tblPub1 88280897097186924765026888957676943910789355863509977920018901867458903443585) 4 (28, ⟨34254349650751140156313578646703878142221316424632379868677498362109466857566, 36062956688063848713880637344088612604021475725129213017532371585571943656887, 44304030615180591965309704331002315089114690068233544987459129943175868819780⟩) = (24, ⟨86432282052832255219993138168678226004108859068293970451795005020540674601159, 4778604904802787572709670286702774723620285687508709914229578121129216682858, 93598700577664992091020224856577634569399111201409177174301346453120878642657⟩) := by rfl

theorem evalC1_q1c10 : Uint256.iterate (CurvePoint.windowStep tblPub1 88280897097186924765026888957676943910789355863509977920018901867458903443585) 4 (24, ⟨86432282052832255219993138168678226004108859068293970451795005020540674601159, 4778604904802787572709670286702774723620285687508709914229578121129216682858, 93598700577664992091020224856577634569399111201409177174301346453120878642657⟩) = (20, ⟨57442269553042959924321431247570085550980522278231800982316148219145652874270, 22002338013608474832342873520078210005824411202558925597955370431985262906611, 6303364505036669388616759155020958596785944408635520722348949048982177074996⟩) := by rfl

theorem evalC1_q1c11 : Uint256.iterate (CurvePoint.windowStep tblPub1 88280897097186924765026888957676943910789355863509977920018901867458903443585) 4 (20, ⟨57442269553042959924321431247570085550980522278231800982316148219145652874270, 22002338013608474832342873520078210005824411202558925597955370431985262906611, 6303364505036669388616759155020958596785944408635520722348949048982177074996⟩) = (16, ⟨80279595251959481129390834781488881247236392595805515944422682373893023119897, 8984145240658681126342776297353668326301899569360375797769825579307725237946, 26760329368575136898103691799887049840885685380691918587617229259613896394579⟩) := by rfl

theorem evalC1_q1c12 : Uint256.iterate (CurvePoint.windowStep tblPub1 88280897097186924765026888957676943910789355863509977920018901867458903443585) 4 (16, ⟨80279595251959481129390834781488881247236392595805515944422682373893023119897, 8984145240658681126342776297353668326301899569360375797769825579307725237946, 26760329368575136898103691799887049840885685380691918587617229259613896394579⟩) = (12, ⟨95845740102846657659866026117990580349790238890286597441613737980982995108808, 48479151647582772295322028979873936687729041622183553149381532510138333546662, 27764314312854672087647893151044266408693549087022436293486286292905953047713⟩) := by rfl

theorem evalC1_q1c13 : Uint256.iterate (CurvePoint.windowStep tblPub1 88280897097186924765026888957676943910789355863509977920018901867458903443585) 4 (12, ⟨95845740102846657659866026117990580349790238890286597441613737980982995108808, 48479151647582772295322028979873936687729041622183553149381532510138333546662, 27764314312854672087647893151044266408693549087022436293486286292905953047713⟩) = (8, ⟨110997245879834066621465088576879870323628545408879585335359716713498686558708, 19129186603941281759442916324607831053756588374786367332955448184868768793765, 65794397680933863459607895104782288484054883118178400347879027622821026383387⟩) := by rfl

theorem evalC1_q1c14 : Uint256.iterate (CurvePoint.windowStep tblPub1 88280897097186924765026888957676943910789355863509977920018901867458903443585) 4 (8, ⟨110997245879834066621465088576879870323628545408879585335359716713498686558708, 19129186603941281759442916324607831053756588374786367332955448184868768793765, 65794397680933863459607895104782288484054883118178400347879027622821026383387⟩) = (4, ⟨40259452635005818885253393480948341276561854516054931504858899937790770207142, 69526550319593381025249449072528683302667672341046529225797507442473262162064, 27289368622063977826290024760983863466058633535149071260516219751159793648392⟩) := by rfl

theorem evalC1_q1c15 : Uint256.iterate (CurvePoint.windowStep tblPub1 88280897097186924765026888957676943910789355863509977920018901867458903443585) 4 (4, ⟨40259452635005818885253393480948341276561854516054931504858899937790770207142, 69526550319593381025249449072528683302667672341046529225797507442473262162064, 27289368622063977826290024760983863466058633535149071260516219751159793648392⟩) = (0, ⟨64772626037397989035858599519454447708331445419302933031342758585618263419953, 92379423629298632624680485417377894113685831793656000540238433083155887239855, 26637554317553417110067920015648379169240791303223813806129109537902908863821⟩) := by rfl

theorem evalC1_q1 : CurvePoint.multiply ⟨110131914628909843887527015709277618292067400090353988390355590382136303927197, 87982058461631509175987196024672419241324887612402882210567295520400057757314, 1⟩ 88280897097186924765026888957676943910789355863509977920018901867458903443585 = ⟨64772626037397989035858599519454447708331445419302933031342758585618263419953, 92379423629298632624680485417377894113685831793656000540238433083155887239855, 26637554317553417110067920015648379169240791303223813806129109537902908863821⟩ := by
  have ht : CurvePoint.table ⟨110131914628909843887527015709277618292067400090353988390355590382136303927197, 87982058461631509175987196024672419241324887612402882210567295520400057757314, 1⟩ = tblPub1 := by rfl
  have h : Uint256.iterate (CurvePoint.windowStep tblPub1 88280897097186924765026888957676943910789355863509977920018901867458903443585) 64 (64, CurvePoint.ZERO) = (0, ⟨64772626037397989035858599519454447708331445419302933031342758585618263419953, 92379423629298632624680485417377894113685831793656000540238433083155887239855, 26637554317553417110067920015648379169240791303223813806129109537902908863821⟩) := (Uint256.iterate_glue (CurvePoint.windowStep tblPub1 88280897097186924765026888957676943910789355863509977920018901867458903443585) 4 60 evalC1_q1c0 (Uint256.iterate_glue (CurvePoint.windowStep tblPub1 88280897097186924765026888957676943910789355863509977920018901867458903443585) 4 56 evalC1_q1c1 (Uint256.iterate_glue (CurvePoint.windowStep tblPub1 88280897097186924765026888957676943910789355863509977920018901867458903443585) 4 52 evalC1_q1c2 (Uint256.iterate_glue (CurvePoint.windowStep tblPub1 88280897097186924765026888957676943910789355863509977920018901867458903443585) 4 48 evalC1_q1c3 (Uint256.iterate_glue (CurvePoint.windowStep tblPub1 88280897097186924765026888957676943910789355863509977920018901867458903443585) 4 44 evalC1_q1c4 (Uint256.iterate_glue (CurvePoint.windowStep tblPub1 88280897097186924765026888957676943910789355863509977920018901867458903443585) 4 40 evalC1_q1c5 (Uint256.iterate_glue (CurvePoint.windowStep tblPub1 88280897097186924765026888957676943910789355863509977920018901867458903443585) 4 36 evalC1_q1c6 (Uint256.iterate_glue (CurvePoint.windowStep tblPub1 88280897097186924765026888957676943910789355863509977920018901867458903443585) 4 32 evalC1_q1c7 (Uint256.iterate_glue (CurvePoint.windowStep tblPub1 88280897097186924765026888957676943910789355863509977920018901867458903443585) 4 28 evalC1_q1c8 (Uint256.iterate_glue (CurvePoint.windowStep tblPub1 88280897097186924765026888957676943910789355863509977920018901867458903443585) 4 24 evalC1_q1c9 (Uint256.iterate_glue (CurvePoint.windowStep tblPub1 88280897097186924765026888957676943910789355863509977920018901867458903443585) 4 20 evalC1_q1c10 (Uint256.iterate_glue (CurvePoint.windowStep tblPub1 88280897097186924765026888957676943910789355863509977920018901867458903443585) 4 16 evalC1_q1c11 (Uint256.iterate_glue (CurvePoint.windowStep tblPub1 88280897097186924765026888957676943910789355863509977920018901867458903443585) 4 12 evalC1_q1c12 (Uint256.iterate_glue (CurvePoint.windowStep tblPub1 88280897097186924765026888957676943910789355863509977920018901867458903443585) 4 8 evalC1_q1c13 (Uint256.iterate_glue (CurvePoint.windowStep tblPub1 88280897097186924765026888957676943910789355863509977920018901867458903443585) 4 4 evalC1_q1c14 evalC1_q1c15)))))))))))))))
  show (Uint256.iterate (CurvePoint.windowStep (CurvePoint.table ⟨110131914628909843887527015709277618292067400090353988390355590382136303927197, 87982058461631509175987196024672419241324887612402882210567295520400057757314, 1⟩) 88280897097186924765026888957676943910789355863509977920018901867458903443585) 64 (64, CurvePoint.ZERO)).2 = ⟨64772626037397989035858599519454447708331445419302933031342758585618263419953, 92379423629298632624680485417377894113685831793656000540238433083155887239855, 26637554317553417110067920015648379169240791303223813806129109537902908863821⟩
  rw [ht, h]

theorem evalC1_add : CurvePoint.add ⟨55106136645004720810913569101116042096178231212908745565972373497146085355699, 91993383543014536272973117898686586786433665244464940233859862632205024783340, 79923669191049539124985301781609201666821115267858551519216390400859517901929⟩ ⟨64772626037397989035858599519454447708331445419302933031342758585618263419953, 92379423629298632624680485417377894113685831793656000540238433083155887239855, 26637554317553417110067920015648379169240791303223813806129109537902908863821⟩ = ⟨84390196395525081021429852297943707298167325267565825532449807903450742994361, 91642625444943848752744498767765405518707057273274840942273465448078440839992, 51966215583464268964445531923806539815480490594868061507879815917129719602227⟩ := by rfl

theorem evalC1_recZSc0 : Uint256.iterate (Uint256.recipStep FieldInt.MODULUS 57896044618658097711785492504343953926634992332820282019728792003954417335832) 64 ⟨FieldInt.MODULUS, 51966215583464268964445531923806539815480490594868061507879815917129719602227, 0, 1⟩ = ⟨2706070191330693329108192684591488130195907440692396629217709131, 11499756329014652480309358715869062694746114507978412750231416680, 103148828920412156355885846252148686691529735123452753557979250706370648068487, 40874599995960892414505715414599972963332514995543048841089481307886731774590⟩ := by rfl

theorem evalC1_recZSc1 : Uint256.iterate (Uint256.recipStep FieldInt.MODULUS 57896044618658097711785492504343953926634992332820282019728792003954417335832) 64 ⟨2706070191330693329108192684591488130195907440692396629217709131, 11499756329014652480309358715869062694746114507978412750231416680, 103148828920412156355885846252148686691529735123452753557979250706370648068487, 40874599995960892414505715414599972963332514995543048841089481307886731774590⟩ = ⟨20603712167119217840987522490980383227188351320775, 8107605786262970955546504220456502958370875570148, 79178994631507210820639318659733343223057112020994206945244733461012371620953, 42869273253907497017659910546213069781898564586947711816003374028602134288510⟩ := by rfl

theorem evalC1_recZSc2 : Uint256.iterate (Uint256.recipStep FieldInt.MODULUS 57896044618658097711785492504343953926634992332820282019728792003954417335832) 64 ⟨20603712167119217840987522490980383227188351320775, 8107605786262970955546504220456502958370875570148, 79178994631507210820639318659733343223057112020994206945244733461012371620953, 42869273253907497017659910546213069781898564586947711816003374028602134288510⟩ = ⟨3049755556161086060990069671027858885, 26911878516264780975404550289410662, 11023913726378968029647882697030589581943422532691843616312819703836334665533, 60340802423652585892261920980729982816477957332632032536001046740187022380784⟩ := by rfl

theorem evalC1_recZSc3 : Uint256.iterate (Uint256.recipStep FieldInt.MODULUS 57896044618658097711785492504343953926634992332820282019728792003954417335832) 64 ⟨3049755556161086060990069671027858885, 26911878516264780975404550289410662, 11023913726378968029647882697030589581943422532691843616312819703836334665533, 60340802423652585892261920980729982816477957332632032536001046740187022380784⟩ = ⟨868058285031727085727, 2506885890069064234318, 92136625298124175799449322381598815897723390370222305161228236029833493390368, 97970321646812452708492083365557828907264608882133203788936715174406727225219⟩ := by rfl

theorem evalC1_recZSc4 : Uint256.iterate (Uint256.recipStep FieldInt.MODULUS 57896044618658097711785492504343953926634992332820282019728792003954417335832) 64 ⟨868058285031727085727, 2506885890069064234318, 92136625298124175799449322381598815897723390370222305161228236029833493390368, 97970321646812452708492083365557828907264608882133203788936715174406727225219⟩ = ⟨1348361099, 914783458, 92505356285375042117171509118431609605564328027198767528535610609437023801265, 30355993966862911658225812943715946423715746535662424396766284820772418337719⟩ := by rfl

theorem evalC1_recZSc5 : Uint256.iterate (Uint256.recipStep FieldInt.MODULUS 57896044618658097711785492504343953926634992332820282019728792003954417335832) 64 ⟨1348361099, 914783458, 92505356285375042117171509118431609605564328027198767528535610609437023801265, 30355993966862911658225812943715946423715746535662424396766284820772418337719⟩ = ⟨1, 0, 84279647249201737507715691654321454890909825197646165317852178199002108766976, 0⟩ := by rfl

theorem evalC1_recZSc6 : Uint256.iterate (Uint256.recipStep FieldInt.MODULUS 57896044618658097711785492504343953926634992332820282019728792003954417335832) 64 ⟨1, 0, 84279647249201737507715691654321454890909825197646165317852178199002108766976, 0⟩ = ⟨1, 0, 84279647249201737507715691654321454890909825197646165317852178199002108766976, 0⟩ := by rfl

theorem evalC1_recZSc7 : Uint256.iterate (Uint256.recipStep FieldInt.MODULUS 57896044618658097711785492504343953926634992332820282019728792003954417335832) 64 ⟨1, 0, 84279647249201737507715691654321454890909825197646165317852178199002108766976, 0⟩ = ⟨1, 0, 84279647249201737507715691654321454890909825197646165317852178199002108766976, 0⟩ := by rfl

theorem evalC1_recZS : Uint256.reciprocal 51966215583464268964445531923806539815480490594868061507879815917129719602227 FieldInt.MODULUS = 84279647249201737507715691654321454890909825197646165317852178199002108766976 := by
  have h : Uint256.iterate (Uint256.recipStep FieldInt.MODULUS 57896044618658097711785492504343953926634992332820282019728792003954417335832) 512 ⟨FieldInt.MODULUS, 51966215583464268964445531923806539815480490594868061507879815917129719602227, 0, 1⟩ = ⟨1, 0, 84279647249201737507715691654321454890909825197646165317852178199002108766976, 0⟩ := (Uint256.iterate_glue (Uint256.recipStep FieldInt.MODULUS 57896044618658097711785492504343953926634992332820282019728792003954417335832) 64 448 evalC1_recZSc0 (Uint256.iterate_glue (Uint256.recipStep FieldInt.MODULUS 57896044618658097711785492504343953926634992332820282019728792003954417335832) 64 384 evalC1_recZSc1 (Uint256.iterate_glue (Uint256.recipStep FieldInt.MODULUS 57896044618658097711785492504343953926634992332820282019728792003954417335832) 64 320 evalC1_recZSc2 (Uint256.iterate_glue (Uint256.recipStep FieldInt.MODULUS 57896044618658097711785492504343953926634992332820282019728792003954417335832) 64 256 evalC1_recZSc3 (Uint256.iterate_glue (Uint256.recipStep FieldInt.MODULUS 57896044618658097711785492504343953926634992332820282019728792003954417335832) 64 192 evalC1_recZSc4 (Uint256.iterate_glue (Uint256.recipStep FieldInt.MODULUS 57896044618658097711785492504343953926634992332820282019728792003954417335832) 64 128 evalC1_recZSc5 (Uint256.iterate_glue (Uint256.recipStep FieldInt.MODULUS 57896044618658097711785492504343953926634992332820282019728792003954417335832) 64 64 evalC1_recZSc6 evalC1_recZSc7)))))))
  show Uint256.replace 51966215583464268964445531923806539815480490594868061507879815917129719602227 (Uint256.iterate (Uint256.recipStep FieldInt.MODULUS ((FieldInt.MODULUS + 1) % W / 2)) 512 ⟨FieldInt.MODULUS, 51966215583464268964445531923806539815480490594868061507879815917129719602227, 0, 1⟩).a (decide (51966215583464268964445531923806539815480490594868061507879815917129719602227 ≠ 0)) = 84279647249201737507715691654321454890909825197646165317852178199002108766976
  rw [show ((FieldInt.MODULUS + 1) % W / 2) = 57896044618658097711785492504343953926634992332820282019728792003954417335832 from by rfl]
  rw [h]
  rfl

theorem evalC1_normS : CurvePoint.normalize ⟨84390196395525081021429852297943707298167325267565825532449807903450742994361, 91642625444943848752744498767765405518707057273274840942273465448078440839992, 51966215583464268964445531923806539815480490594868061507879815917129719602227⟩ = ⟨15538413106214458202346773502463423435210941015384864184641654976523296644549, 96915183947189197310279208558058135451199406768543905910843377489588951356282, 1⟩ :=
  (CurvePoint.normalize_eval 84390196395525081021429852297943707298167325267565825532449807903450742994361 91642625444943848752744498767765405518707057273274840942273465448078440839992 51966215583464268964445531923806539815480490594868061507879815917129719602227 84279647249201737507715691654321454890909825197646165317852178199002108766976 evalC1_recZS).trans (by rfl)

theorem evalC1_verify : Ecdsa.verify ⟨110131914628909843887527015709277618292067400090353988390355590382136303927197, 87982058461631509175987196024672419241324887612402882210567295520400057757314, 1⟩ 115792089237316195423570985008687907853269984665640564039457584007913129639935 112243646385000477525928989106902976049026426196646608009573930773579701902386 216210193282829828426210433197483974039 = false :=
  (Ecdsa.verify_eval 115792089237316195423570985008687907853269984665640564039457584007913129639935 112243646385000477525928989106902976049026426196646608009573930773579701902386 216210193282829828426210433197483974039 41313576244261161145652152761654969881903873135674962397373387559942588276009 41674945080309403895186964826720960631354319272836173857848767650641286886281 88280897097186924765026888957676943910789355863509977920018901867458903443585 ⟨110131914628909843887527015709277618292067400090353988390355590382136303927197, 87982058461631509175987196024672419241324887612402882210567295520400057757314, 1⟩ ⟨0, 1, 0⟩ ⟨55106136645004720810913569101116042096178231212908745565972373497146085355699, 91993383543014536272973117898686586786433665244464940233859862632205024783340, 79923669191049539124985301781609201666821115267858551519216390400859517901929⟩ ⟨64772626037397989035858599519454447708331445419302933031342758585618263419953, 92379423629298632624680485417377894113685831793656000540238433083155887239855, 26637554317553417110067920015648379169240791303223813806129109537902908863821⟩ ⟨84390196395525081021429852297943707298167325267565825532449807903450742994361, 91642625444943848752744498767765405518707057273274840942273465448078440839992, 51966215583464268964445531923806539815480490594868061507879815917129719602227⟩ ⟨15538413106214458202346773502463423435210941015384864184641654976523296644549, 96915183947189197310279208558058135451199406768543905910843377489588951356282, 1⟩
    evalC1_q0 evalC1_w evalC1_u1 evalC1_u2 evalC1_p1 evalC1_q1 evalC1_add evalC1_normS).trans (by rfl)

/-! ## Claim theorems for the refuted ECDSA claims -/

/-- **C2** (refuted; the code violates its own assertion).  The claim
states that in `Ecdsa::sign`, for every private key `d ∈ [1, n)`,
32-byte message hash `m` and in-range nonce `k`, the intermediate `s`
(computed as `r·d mod n` plus the big-endian value `z` of `m`, with one
conditional subtraction of `n`) lies in `[0, n)`, so that the debug
assertion `x < n` of the following `multiplyModOrder(s, kInv)` call
holds.  This theorem exhibits a concrete in-range input on which the
intermediate equals `2^256 - 2 ≥ n`: private key
`d₀ = (n-1)·Gx⁻¹ mod n`, message hash `0xFF…FF`, nonce `1` (for which
`r = Gx ≠ 0`, so the intermediate is actually reached).  At this input
the assertion `x < mod` in `Ecdsa.cpp` line 151 fails. -/
theorem ecdsa_sign_intermediate_exceeds_order :
    (0 < 102292441076079717484810683648744116131775059853544164836559860322781770096707 ∧ 102292441076079717484810683648744116131775059853544164836559860322781770096707 < CurvePoint.ORDER) ∧
    Ecdsa.signR 1 ≠ 0 ∧
    CurvePoint.ORDER ≤ Ecdsa.signInter 102292441076079717484810683648744116131775059853544164836559860322781770096707 115792089237316195423570985008687907853269984665640564039457584007913129639935 1 := by
  refine ⟨by decide, ?_, ?_⟩
  · rw [evalC2_signR]; decide
  · rw [evalC2_inter]; decide

/-- **C1** (refuted; the code violates its own assertion and pseudocode).
The claim states that whenever `Ecdsa::sign(d, m, k, outR, outS)`
returns `true` for `d ∈ [1, n)`, `Ecdsa::verify` accepts the produced
signature under the public key `d·G`.  This theorem exhibits a concrete
in-range `(d, m, k)` for which `sign` returns `true` yet `verify`
returns `false`: the intermediate `s` of `sign` exceeds `n` (the C2
phenomenon), and the subsequent `multiplyModOrder(s, kInv)` loop, whose
`z < n` loop assertion fails, then loses a reduction and emits an `s`
not congruent to `k⁻¹(z + r·d) mod n`. -/
theorem ecdsa_sign_then_verify_fails :
    Ecdsa.sign 56056446464596941830801519848505790838817306750243800424875657921708621230623 115792089237316195423570985008687907853269984665640564039457584007913129639935 23467992804240594785186505512618808108223488863310577349995960783396303152050 = some (112243646385000477525928989106902976049026426196646608009573930773579701902386, 216210193282829828426210433197483974039) ∧
    Ecdsa.verify (CurvePoint.privateExponentToPublicPoint 56056446464596941830801519848505790838817306750243800424875657921708621230623) 115792089237316195423570985008687907853269984665640564039457584007913129639935 112243646385000477525928989106902976049026426196646608009573930773579701902386 216210193282829828426210433197483974039 = false ∧
    (0 < 56056446464596941830801519848505790838817306750243800424875657921708621230623 ∧ 56056446464596941830801519848505790838817306750243800424875657921708621230623 < CurvePoint.ORDER) := by
  refine ⟨evalC1_sign, ?_, by decide⟩
  rw [evalC1_pubD]
  exact evalC1_verify

/-- **C3** (refuted; the code violates its own assertion).  The claim
states that every signature emitted by `Ecdsa::sign` satisfies
`1 ≤ r < n` and `1 ≤ s ≤ (n-1)/2`.  This theorem exhibits a concrete
in-range `(d, m, k)` on which `sign` returns `true` with an `outS` that
is not even below `n` (hence also above `(n-1)/2`): the final
`multiplyModOrder(s, kInv)` loop is entered with `s ≥ n`, its `z < n`
loop assertion fails, and its result — and therefore the emitted `s` —
is `≥ n`. -/
theorem ecdsa_sign_emits_s_above_order :
    Ecdsa.sign 21366308377510324815430457770613618840831374495454790736540387140414652221115 115792089237316195423570985008687907853269984665640564039457584007913129639935 105768646951723913941853410995499900226228655448451400499528392497076046348923 = some (8860096921603464971976595934696543225392041326055525752222777777046320639136, 115792089237316195423570985008687907853053774472357734211031373574715643828864) ∧
    CurvePoint.ORDER ≤ 115792089237316195423570985008687907853053774472357734211031373574715643828864 ∧
    (CurvePoint.ORDER - 1) / 2 < 115792089237316195423570985008687907853053774472357734211031373574715643828864 ∧
    (0 < 21366308377510324815430457770613618840831374495454790736540387140414652221115 ∧ 21366308377510324815430457770613618840831374495454790736540387140414652221115 < CurvePoint.ORDER) := by
  exact ⟨evalC3_sign, by decide, by decide, by decide⟩

/-- **C4** (counterexample).  The claim asserts that for *every* odd
modulus `M > 1` and every `self < M` coprime to `M`,
`Uint256::reciprocal(M)` computes the modular inverse.  It fails at
`M = 2^256 - 1`, `self = 2`: the routine computes its local
`halfModulus` as `((M + 1) mod 2^256) / 2`, which wraps to `0` for this
modulus, and it returns `0` instead of the unique inverse `2^255`. -/
theorem uint256_reciprocal_wrong_at_max_modulus :
    (115792089237316195423570985008687907853269984665640564039457584007913129639935 % 2 = 1 ∧ 1 < 115792089237316195423570985008687907853269984665640564039457584007913129639935 ∧ 2 < 115792089237316195423570985008687907853269984665640564039457584007913129639935 ∧ Nat.gcd 2 115792089237316195423570985008687907853269984665640564039457584007913129639935 = 1) ∧
    Uint256.reciprocal 2 115792089237316195423570985008687907853269984665640564039457584007913129639935 = 0 ∧
    ¬(2 * 0 % 115792089237316195423570985008687907853269984665640564039457584007913129639935 = 1) := by
  exact ⟨by decide, evalC4_recip, by decide⟩

/-- Amended **C4**: with the additional hypothesis `M + 1 < 2^256`
(excluding only `M = 2^256 - 1`, where `halfModulus` wraps), the claim
holds: for every odd modulus `M > 1` and `self < M`,
`Uint256::reciprocal(M)` sets `self` to the unique `v < M` with
`self·v mod M = 1` whenever `self ≠ 0` and `gcd(self, M) = 1`, and to
`0` when `self = 0`. -/
theorem uint256_reciprocal_correct_amended (x m : Nat) (hmo : m % 2 = 1)
    (hm1 : 1 < m) (hmW : m + 1 < W) (hxm : x < m) :
    (x = 0 → Uint256.reciprocal x m = 0) ∧
    (x ≠ 0 → Nat.gcd x m = 1 →
      Uint256.reciprocal x m < m ∧
      x * Uint256.reciprocal x m % m = 1 ∧
      ∀ v, v < m → x * v % m = 1 → v = Uint256.reciprocal x m) := by
  constructor
  · intro h0
    subst h0
    simp [Uint256.reciprocal, Uint256.replace]
  · intro hx hcop
    refine ⟨Uint256.reciprocal_lt x m hmo hm1 hmW hxm,
      Uint256.reciprocal_inverse x m hmo hm1 hmW hx hxm hcop, ?_⟩
    intro v hv hinv
    exact inverse_unique m x v (Uint256.reciprocal x m) hm1 hv
      (Uint256.reciprocal_lt x m hmo hm1 hmW hxm) hinv
      (Uint256.reciprocal_inverse x m hmo hm1 hmW hx hxm hcop)

/-- Witness for the amended C4 theorem at `self = 3`, `M = 7`. -/
theorem uint256_reciprocal_correct_amended_witness :
    (7 % 2 = 1 ∧ 1 < 7 ∧ 7 + 1 < W ∧ 3 < 7) ∧
    ((3 = 0 → Uint256.reciprocal 3 7 = 0) ∧
      (3 ≠ 0 → Nat.gcd 3 7 = 1 →
        Uint256.reciprocal 3 7 < 7 ∧
        3 * Uint256.reciprocal 3 7 % 7 = 1 ∧
        ∀ v, v < 7 → 3 * v % 7 = 1 → v = Uint256.reciprocal 3 7)) :=
  ⟨⟨by decide, by decide, by decide, by decide⟩,
    uint256_reciprocal_correct_amended 3 7 (by decide) (by decide) (by decide) (by decide)⟩

/-- **C5**: for operands `u, v < p`, the Barrett difference inside
`FieldInt::multiply` fits in 257 bits, is congruent to `u·v mod p`, and
lies in `[0, 2p)`; after the single final conditional subtraction of
`p` the stored result equals `u·v mod p` and is `< p`. -/
theorem fieldInt_multiply_barrett (x y : Nat) (hx : x < FieldInt.MODULUS)
    (hy : y < FieldInt.MODULUS) :
    FieldInt.multiplyDifference x y < 2 ^ 257 ∧
    FieldInt.multiplyDifference x y % FieldInt.MODULUS = x * y % FieldInt.MODULUS ∧
    FieldInt.multiplyDifference x y < 2 * FieldInt.MODULUS ∧
    FieldInt.multiply x y = x * y % FieldInt.MODULUS ∧
    FieldInt.multiply x y < FieldInt.MODULUS := by
  have h2M := fieldInt_multiplyDifference_lt x y hx hy
  obtain ⟨he, hl⟩ := fieldInt_multiply_eq_mod x y hx hy
  exact ⟨lt_of_lt_of_le h2M (by decide),
    fieldInt_multiplyDifference_mod x y hx hy, h2M, he, hl⟩

/-- Witness for the C5 theorem at `u = 2`, `v = 3`. -/
theorem fieldInt_multiply_barrett_witness :
    (2 < FieldInt.MODULUS ∧ 3 < FieldInt.MODULUS) ∧
    (FieldInt.multiplyDifference 2 3 < 2 ^ 257 ∧
      FieldInt.multiplyDifference 2 3 % FieldInt.MODULUS = 2 * 3 % FieldInt.MODULUS ∧
      FieldInt.multiplyDifference 2 3 < 2 * FieldInt.MODULUS ∧
      FieldInt.multiply 2 3 = 2 * 3 % FieldInt.MODULUS ∧
      FieldInt.multiply 2 3 < FieldInt.MODULUS) :=
  ⟨⟨by decide, by decide⟩, fieldInt_multiply_barrett 2 3 (by decide) (by decide)⟩

/-- **C6**: every public `FieldInt` operation (`add`, `subtract`,
`multiply2`, `square`, `multiply`, `reciprocal`, `replace`) applied to
operand values `< p` stores a result `< p`. -/
theorem fieldInt_ops_closed (x y : Nat) (e : Bool)
    (hx : x < FieldInt.MODULUS) (hy : y < FieldInt.MODULUS) :
    FieldInt.add x y < FieldInt.MODULUS ∧
    FieldInt.subtract x y < FieldInt.MODULUS ∧
    FieldInt.multiply2 x < FieldInt.MODULUS ∧
    FieldInt.square x < FieldInt.MODULUS ∧
    FieldInt.multiply x y < FieldInt.MODULUS ∧
    FieldInt.reciprocal x < FieldInt.MODULUS ∧
    FieldInt.replace x y e < FieldInt.MODULUS := by
  refine ⟨?_, fieldInt_subtract_lt x y hx hy, ?_,
    (fieldInt_multiply_eq_mod x x hx hx).2,
    (fieldInt_multiply_eq_mod x y hx hy).2, ?_, ?_⟩
  · rw [fieldInt_add_eq x y hx hy]
    exact Nat.mod_lt _ (by decide)
  · rw [fieldInt_multiply2_eq x hx]
    exact Nat.mod_lt _ (by decide)
  · exact Uint256.reciprocal_lt x FieldInt.MODULUS (by decide) (by decide) (by decide) hx
  · cases e <;> simp [FieldInt.replace, Uint256.replace] <;> assumption

/-- Witness for the C6 theorem at `x = 5`, `y = 7`, `enable = true`. -/
theorem fieldInt_ops_closed_witness :
    (5 < FieldInt.MODULUS ∧ 7 < FieldInt.MODULUS) ∧
    (FieldInt.add 5 7 < FieldInt.MODULUS ∧
      FieldInt.subtract 5 7 < FieldInt.MODULUS ∧
      FieldInt.multiply2 5 < FieldInt.MODULUS ∧
      FieldInt.square 5 < FieldInt.MODULUS ∧
      FieldInt.multiply 5 7 < FieldInt.MODULUS ∧
      FieldInt.reciprocal 5 < FieldInt.MODULUS ∧
      FieldInt.replace 5 7 true < FieldInt.MODULUS) :=
  ⟨⟨by decide, by decide⟩, fieldInt_ops_closed 5 7 true (by decide) (by decide)⟩

/-! ## Base58Check decoder rejections and BIP-32 child-key derivation -/

/-- A character outside the alphabet has no alphabet index. -/
theorem alphaIndexOf_eq_none (c : Char) (h : c ∉ Base58Check.ALPHABET) :
    Base58Check.alphaIndexOf c = none := by
  rw [Base58Check.alphaIndexOf, List.findIdx?_eq_none_iff]
  intro x hx
  rw [beq_eq_false_iff_ne]
  exact fun he => h (he ▸ hx)

/-- A successful run of the Base58 character loop means every input
character was in the alphabet. -/
theorem b58Loop_valid_chars (s : List Char) (data d : List Nat)
    (h : Base58Check.b58Loop s data = some d) :
    ∀ c ∈ s, Base58Check.alphaIndexOf c ≠ none := by
  induction s generalizing data with
  | nil => intro c hc; exact absurd hc (List.not_mem_nil c)
  | cons a as ih =>
    intro c hc
    simp only [Base58Check.b58Loop] at h
    by_cases hm : (Base58Check.multiply58 data).1 = true
    · rw [if_pos hm] at h; exact absurd h (by simp)
    · rw [if_neg hm] at h
      rcases halpha : Base58Check.alphaIndexOf a with _ | dd
      · rw [halpha] at h; exact absurd h (by simp)
      · rw [halpha] at h
        dsimp only at h
        by_cases ha : (Base58Check.addUint8 (Base58Check.multiply58 data).2 dd).1 = true
        · rw [if_pos ha] at h; exact absurd h (by simp)
        · rw [if_neg ha] at h
          rcases List.mem_cons.mp hc with hceq | hcs
          · rw [hceq, halpha]; simp
          · exact ih _ h c hcs

/-- A successful `base58CheckToBytes` run yields the character-loop
result and a valid checksum. -/
theorem base58CheckToBytes_some (s : List Char) (n : Nat) (d : List Nat)
    (h : Base58Check.base58CheckToBytes s n = some d) :
    Base58Check.b58Loop s (List.replicate n 0) = some d ∧
    Base58Check.checksumOk d = true := by
  rw [Base58Check.base58CheckToBytes] at h
  rcases hb : Base58Check.b58Loop s (List.replicate n 0) with _ | data
  · rw [hb] at h; exact absurd h (by simp)
  · rw [hb] at h
    dsimp only at h
    by_cases hz : Base58Check.checkZeros s data (n + 1) 0 = true
    · rw [if_pos hz] at h
      by_cases hcs : Base58Check.checksumOk data = true
      · rw [if_pos hcs] at h
        injection h with h2
        subst h2
        exact ⟨rfl, hcs⟩
      · rw [if_neg hcs] at h; exact absurd h (by simp)
    · rw [if_neg hz] at h; exact absurd h (by simp)

/-- An input containing a character outside the alphabet never
decodes. -/
theorem base58CheckToBytes_invalid_char (s : List Char) (n : Nat)
    (hc : ∃ c ∈ s, Base58Check.alphaIndexOf c = none) :
    Base58Check.base58CheckToBytes s n = none := by
  rcases hc with ⟨c, hcs, hcn⟩
  rcases hres : Base58Check.base58CheckToBytes s n with _ | d
  · rfl
  · exact absurd hcn
      (b58Loop_valid_chars s _ d (base58CheckToBytes_some s n d hres).1 c hcs)

/-- **C7**: each Base58Check decoder returns `false` when the string
length is outside its allowed range, or when the string contains a
character outside the Base58 alphabet; a `true` return implies the
Base58 decoding succeeded with a valid 4-byte double-SHA-256 checksum
and (where applicable) correct marker, header, version and range bytes
— so any of those failing forces a `false` return; and whenever a
decoder returns `false`, its out-parameters are returned unchanged. -/
theorem base58check_decoders_reject (s : List Char) (ph : List Nat) (v pk v2 : Nat)
    (ic : Bool) (k : ExtendedPrivateKey) :
    ((s.length < 25 ∨ 35 < s.length) →
      (Base58Check.pubkeyHashFromBase58Check s ph v).1 = false) ∧
    ((∃ c ∈ s, c ∉ Base58Check.ALPHABET) →
      (Base58Check.pubkeyHashFromBase58Check s ph v).1 = false) ∧
    ((Base58Check.pubkeyHashFromBase58Check s ph v).1 = true →
      ∃ data, Base58Check.base58CheckToBytes s 25 = some data ∧
        Base58Check.checksumOk data = true) ∧
    ((Base58Check.pubkeyHashFromBase58Check s ph v).1 = false →
      (Base58Check.pubkeyHashFromBase58Check s ph v).2 = (ph, v)) ∧
    ((s.length < 38 ∨ 52 < s.length) →
      (Base58Check.privateKeyFromBase58Check s pk v2 ic).1 = false) ∧
    ((∃ c ∈ s, c ∉ Base58Check.ALPHABET) →
      (Base58Check.privateKeyFromBase58Check s pk v2 ic).1 = false) ∧
    ((Base58Check.privateKeyFromBase58Check s pk v2 ic).1 = true →
      ∃ data, (Base58Check.base58CheckToBytes s 37 = some data ∨
          (Base58Check.base58CheckToBytes s 37 = none ∧
            Base58Check.base58CheckToBytes s 38 = some data ∧
            data.getD 33 0 = 0x01)) ∧
        Base58Check.checksumOk data = true) ∧
    ((Base58Check.privateKeyFromBase58Check s pk v2 ic).1 = false →
      (Base58Check.privateKeyFromBase58Check s pk v2 ic).2 = (pk, v2, ic)) ∧
    (¬ s.length = 111 →
      (Base58Check.extendedPrivateKeyFromBase58Check s k).1 = false) ∧
    ((∃ c ∈ s, c ∉ Base58Check.ALPHABET) →
      (Base58Check.extendedPrivateKeyFromBase58Check s k).1 = false) ∧
    ((Base58Check.extendedPrivateKeyFromBase58Check s k).1 = true →
      ∃ data, Base58Check.base58CheckToBytes s 82 = some data ∧
        Base58Check.checksumOk data = true ∧
        data.getD 0 0 = 0x04 ∧ data.getD 1 0 = 0x88 ∧ data.getD 2 0 = 0xAD ∧
        data.getD 3 0 = 0xE4 ∧ data.getD 45 0 = 0 ∧
        ¬ Uint256.fromBigEndianBytes ((data.drop 46).take 32) = 0 ∧
        Uint256.fromBigEndianBytes ((data.drop 46).take 32) < CurvePoint.ORDER) ∧
    ((Base58Check.extendedPrivateKeyFromBase58Check s k).1 = false →
      (Base58Check.extendedPrivateKeyFromBase58Check s k).2 = k) := by
  have hchar : (∃ c ∈ s, c ∉ Base58Check.ALPHABET) →
      ∀ n, Base58Check.base58CheckToBytes s n = none := by
    intro hc n
    rcases hc with ⟨c, h1, h2⟩
    exact base58CheckToBytes_invalid_char s n ⟨c, h1, alphaIndexOf_eq_none c h2⟩
  refine ⟨?_, ?_, ?_, ?_, ?_, ?_, ?_, ?_, ?_, ?_, ?_, ?_⟩
  · intro h
    rw [Base58Check.pubkeyHashFromBase58Check, if_pos h]
  · intro hc
    rw [Base58Check.pubkeyHashFromBase58Check]
    split_ifs with h
    · rfl
    · rw [hchar hc 25]
  · intro ht
    rw [Base58Check.pubkeyHashFromBase58Check] at ht
    split_ifs at ht with h
    rcases hb : Base58Check.base58CheckToBytes s 25 with _ | data
    · rw [hb] at ht; exact absurd ht (by simp)
    · exact ⟨data, rfl, (base58CheckToBytes_some s 25 data hb).2⟩
  · intro hf
    rw [Base58Check.pubkeyHashFromBase58Check] at hf ⊢
    split_ifs at hf ⊢ with h
    · rfl
    · rcases hb : Base58Check.base58CheckToBytes s 25 with _ | data
      · rfl
      · rw [hb] at hf; exact absurd hf (by simp)
  · intro h
    rw [Base58Check.privateKeyFromBase58Check, if_pos h]
  · intro hc
    rw [Base58Check.privateKeyFromBase58Check]
    split_ifs with h
    · rfl
    · rw [hchar hc 37, hchar hc 38]
  · intro ht
    rw [Base58Check.privateKeyFromBase58Check] at ht
    split_ifs at ht with h
    rcases hb37 : Base58Check.base58CheckToBytes s 37 with _ | data
    · rw [hb37] at ht
      rcases hb38 : Base58Check.base58CheckToBytes s 38 with _ | data
      · rw [hb38] at ht; exact absurd ht (by simp)
      · rw [hb38] at ht
        dsimp only at ht
        split_ifs at ht with hmk
        exact ⟨data, Or.inr ⟨rfl, rfl, hmk⟩,
          (base58CheckToBytes_some s 38 data hb38).2⟩
    · rw [hb37] at ht
      exact ⟨data, Or.inl rfl, (base58CheckToBytes_some s 37 data hb37).2⟩
  · intro hf
    rw [Base58Check.privateKeyFromBase58Check] at hf ⊢
    split_ifs at hf ⊢ with h
    · rfl
    · rcases hb37 : Base58Check.base58CheckToBytes s 37 with _ | data
      · rw [hb37] at hf
        rcases hb38 : Base58Check.base58CheckToBytes s 38 with _ | data
        · rfl
        · rw [hb38] at hf
          dsimp only at hf ⊢
          split_ifs at hf ⊢ with hmk
          rfl
      · rw [hb37] at hf
        exact absurd hf (by simp)
  · intro h
    rw [Base58Check.extendedPrivateKeyFromBase58Check, if_pos h]
  · intro hc
    rw [Base58Check.extendedPrivateKeyFromBase58Check]
    split_ifs with h
    · rw [hchar hc 82]
    · rfl
  · intro ht
    rw [Base58Check.extendedPrivateKeyFromBase58Check] at ht
    split_ifs at ht with h
    rcases hb : Base58Check.base58CheckToBytes s 82 with _ | data
    · rw [hb] at ht; exact absurd ht (by simp)
    · rw [hb] at ht
      dsimp only at ht
      split_ifs at ht with h1 h2 h3
      push_neg at h1 h3
      exact ⟨data, rfl, (base58CheckToBytes_some s 82 data hb).2,
        h1.1, h1.2.1, h1.2.2.1, h1.2.2.2, h2, h3.1, h3.2⟩
  · intro hf
    rw [Base58Check.extendedPrivateKeyFromBase58Check] at hf ⊢
    split_ifs at hf ⊢ with h
    · rcases hb : Base58Check.base58CheckToBytes s 82 with _ | data
      · rfl
      · rw [hb] at hf
        dsimp only at hf ⊢
        split_ifs at hf ⊢ with h1 h2 h3
        · rfl
        · rfl
        · rfl
    · rfl

/-- **C10**: for an extended private key with scalar `d ∈ [1, n)` and
any index, `getChildKey` returns the default-constructed key (scalar 0,
identity public point, depth 0) exactly when the derivation fails —
`IL ≥ n` or `(IL + d) mod n = 0`, where `IL` (`childIL`) is the first
32 bytes of the HMAC-SHA-512 output — and otherwise returns a child
key whose private scalar is `(IL + d) mod n`. -/
theorem extendedPrivateKey_getChildKey_spec (k : ExtendedPrivateKey) (i : Nat)
    (hd0 : 0 < k.privateKey) (hdn : k.privateKey < CurvePoint.ORDER) :
    (k.getChildKey i = ExtendedPrivateKey.default ↔
      CurvePoint.ORDER ≤ k.childIL i ∨
        (k.childIL i + k.privateKey) % CurvePoint.ORDER = 0) ∧
    (k.childIL i < CurvePoint.ORDER →
      (k.childIL i + k.privateKey) % CurvePoint.ORDER ≠ 0 →
      (k.getChildKey i).privateKey =
        (k.childIL i + k.privateKey) % CurvePoint.ORDER) := by
  simp only [ExtendedPrivateKey.getChildKey]
  by_cases h1 : CurvePoint.ORDER ≤ k.childIL i
  · rw [if_pos h1]
    refine ⟨⟨fun _ => Or.inl h1, fun _ => rfl⟩, ?_⟩
    intro h2 _
    exact absurd h1 (not_le.mpr h2)
  · rw [if_neg h1]
    push_neg at h1
    have h2n : k.childIL i + k.privateKey < 2 * CurvePoint.ORDER := by omega
    have hnum2 : (Uint256.subtract (Uint256.add (k.childIL i) k.privateKey true).1
        CurvePoint.ORDER
        (decide ((Uint256.add (k.childIL i) k.privateKey true).2 = 1 ∨
          CurvePoint.ORDER ≤ (Uint256.add (k.childIL i) k.privateKey true).1))).1 =
        (k.childIL i + k.privateKey) % CurvePoint.ORDER := by
      simpa only [Uint256.add, if_pos] using
        order_condSub (k.childIL i + k.privateKey) h2n
    rw [hnum2]
    by_cases h2 : (k.childIL i + k.privateKey) % CurvePoint.ORDER = 0
    · rw [if_pos h2]
      exact ⟨⟨fun _ => Or.inr h2, fun _ => rfl⟩, fun _ h3 => absurd h2 h3⟩
    · rw [if_neg h2]
      refine ⟨⟨?_, ?_⟩, ?_⟩
      · intro heq
        have hpk := congrArg ExtendedPrivateKey.privateKey heq
        simp only [ExtendedPrivateKey.ofParts, ExtendedPrivateKey.default] at hpk
        exact absurd hpk h2
      · intro hor
        rcases hor with h | h
        · exact absurd h (not_le.mpr h1)
        · exact absurd h h2
      · intro _ _
        rfl

/-- Witness for the C10 theorem at a concrete key with scalar 1 and
index 0. -/
theorem extendedPrivateKey_getChildKey_spec_witness :
    (0 < (ExtendedPrivateKey.mk 1 CurvePoint.ZERO (List.replicate 32 0) 0 0
        (List.replicate 4 0)).privateKey ∧
      (ExtendedPrivateKey.mk 1 CurvePoint.ZERO (List.replicate 32 0) 0 0
        (List.replicate 4 0)).privateKey < CurvePoint.ORDER) ∧
    ((ExtendedPrivateKey.getChildKey (ExtendedPrivateKey.mk 1 CurvePoint.ZERO
          (List.replicate 32 0) 0 0 (List.replicate 4 0)) 0 =
        ExtendedPrivateKey.default ↔
      CurvePoint.ORDER ≤ ExtendedPrivateKey.childIL (ExtendedPrivateKey.mk 1
          CurvePoint.ZERO (List.replicate 32 0) 0 0 (List.replicate 4 0)) 0 ∨
        (ExtendedPrivateKey.childIL (ExtendedPrivateKey.mk 1 CurvePoint.ZERO
            (List.replicate 32 0) 0 0 (List.replicate 4 0)) 0 +
          (ExtendedPrivateKey.mk 1 CurvePoint.ZERO (List.replicate 32 0) 0 0
            (List.replicate 4 0)).privateKey) % CurvePoint.ORDER = 0) ∧
    (ExtendedPrivateKey.childIL (ExtendedPrivateKey.mk 1 CurvePoint.ZERO
        (List.replicate 32 0) 0 0 (List.replicate 4 0)) 0 < CurvePoint.ORDER →
      (ExtendedPrivateKey.childIL (ExtendedPrivateKey.mk 1 CurvePoint.ZERO
          (List.replicate 32 0) 0 0 (List.replicate 4 0)) 0 +
        (ExtendedPrivateKey.mk 1 CurvePoint.ZERO (List.replicate 32 0) 0 0
          (List.replicate 4 0)).privateKey) % CurvePoint.ORDER ≠ 0 →
      (ExtendedPrivateKey.getChildKey (ExtendedPrivateKey.mk 1 CurvePoint.ZERO
          (List.replicate 32 0) 0 0 (List.replicate 4 0)) 0).privateKey =
        (ExtendedPrivateKey.childIL (ExtendedPrivateKey.mk 1 CurvePoint.ZERO
            (List.replicate 32 0) 0 0 (List.replicate 4 0)) 0 +
          (ExtendedPrivateKey.mk 1 CurvePoint.ZERO (List.replicate 32 0) 0 0
            (List.replicate 4 0)).privateKey) % CurvePoint.ORDER)) :=
  ⟨⟨by decide, by decide⟩,
    extendedPrivateKey_getChildKey_spec
      (ExtendedPrivateKey.mk 1 CurvePoint.ZERO (List.replicate 32 0) 0 0
        (List.replicate 4 0)) 0 (by decide) (by decide)⟩

/-- Witness for the C7 theorem at a concrete short input string and
out-parameter values. -/
theorem base58check_decoders_reject_witness :
    ((("x".toList.length < 25 ∨ 35 < "x".toList.length) →
      (Base58Check.pubkeyHashFromBase58Check "x".toList [] 0).1 = false) ∧
    ((∃ c ∈ "x".toList, c ∉ Base58Check.ALPHABET) →
      (Base58Check.pubkeyHashFromBase58Check "x".toList [] 0).1 = false) ∧
    ((Base58Check.pubkeyHashFromBase58Check "x".toList [] 0).1 = true →
      ∃ data, Base58Check.base58CheckToBytes "x".toList 25 = some data ∧
        Base58Check.checksumOk data = true) ∧
    ((Base58Check.pubkeyHashFromBase58Check "x".toList [] 0).1 = false →
      (Base58Check.pubkeyHashFromBase58Check "x".toList [] 0).2 = ([], 0)) ∧
    (("x".toList.length < 38 ∨ 52 < "x".toList.length) →
      (Base58Check.privateKeyFromBase58Check "x".toList 0 0 false).1 = false) ∧
    ((∃ c ∈ "x".toList, c ∉ Base58Check.ALPHABET) →
      (Base58Check.privateKeyFromBase58Check "x".toList 0 0 false).1 = false) ∧
    ((Base58Check.privateKeyFromBase58Check "x".toList 0 0 false).1 = true →
      ∃ data, (Base58Check.base58CheckToBytes "x".toList 37 = some data ∨
          (Base58Check.base58CheckToBytes "x".toList 37 = none ∧
            Base58Check.base58CheckToBytes "x".toList 38 = some data ∧
            data.getD 33 0 = 0x01)) ∧
        Base58Check.checksumOk data = true) ∧
    ((Base58Check.privateKeyFromBase58Check "x".toList 0 0 false).1 = false →
      (Base58Check.privateKeyFromBase58Check "x".toList 0 0 false).2 = (0, 0, false)) ∧
    (¬ "x".toList.length = 111 →
      (Base58Check.extendedPrivateKeyFromBase58Check "x".toList
        ExtendedPrivateKey.default).1 = false) ∧
    ((∃ c ∈ "x".toList, c ∉ Base58Check.ALPHABET) →
      (Base58Check.extendedPrivateKeyFromBase58Check "x".toList
        ExtendedPrivateKey.default).1 = false) ∧
    ((Base58Check.extendedPrivateKeyFromBase58Check "x".toList
        ExtendedPrivateKey.default).1 = true →
      ∃ data, Base58Check.base58CheckToBytes "x".toList 82 = some data ∧
        Base58Check.checksumOk data = true ∧
        data.getD 0 0 = 0x04 ∧ data.getD 1 0 = 0x88 ∧ data.getD 2 0 = 0xAD ∧
        data.getD 3 0 = 0xE4 ∧ data.getD 45 0 = 0 ∧
        ¬ Uint256.fromBigEndianBytes ((data.drop 46).take 32) = 0 ∧
        Uint256.fromBigEndianBytes ((data.drop 46).take 32) < CurvePoint.ORDER) ∧
    ((Base58Check.extendedPrivateKeyFromBase58Check "x".toList
        ExtendedPrivateKey.default).1 = false →
      (Base58Check.extendedPrivateKeyFromBase58Check "x".toList
        ExtendedPrivateKey.default).2 = ExtendedPrivateKey.default)) :=
  base58check_decoders_reject "x".toList [] 0 0 0 false ExtendedPrivateKey.default

end BCLib
